import Mathlib

/-!
The blog-api: authorization and validation policy of the resource services.

A shallow embedding of the service layer (`src/services/*.js`), the role guard
(`src/middleware/authMiddleware.js`), the route tables (`src/routes/*.js`) and the
controllers (`src/controllers/*.js`).

* JavaScript values are embedded as `JsVal`; objects have an identity and a property list.
* The Sequelize models are an explicit store state `σ` with one operation record per model;
  every store call a service issues is appended to a log, so that "no store call" and
  "exactly one destroy" are statements about the log.
* A service is a function from the world (store state and log) to a result and a new world;
  a rejected promise is `Except.error`.
-/

namespace BlogApi

/-! ## JavaScript values -/

/-- JavaScript values as the services see them. Objects are compared by identity. -/
inductive JsVal where
  | undefined
  | null
  | bool (b : Bool)
  | num (n : Int)
  | str (s : String)
  | obj (ref : Nat)
deriving DecidableEq, Repr

/-- ToBoolean: what `!v`, `v && ...` and `v || ...` test. -/
def JsVal.truthy : JsVal → Bool
  | .undefined => false
  | .null => false
  | .bool b => b
  | .num n => n != 0
  | .str s => s != ""
  | .obj _ => true

/-- Strict inequality `a !== b`. -/
def JsVal.strictNe (a b : JsVal) : Bool := a != b

/-- A plain object: its identity and its own properties. -/
structure JsObject where
  ref : Nat
  props : List (String × JsVal)
deriving DecidableEq, Repr

/-- Property read `o.k` / `o[k]`: `undefined` when the property is absent. -/
def JsObject.get (o : JsObject) (k : String) : JsVal :=
  match o.props.lookup k with
  | some v => v
  | none => .undefined

/-- The object itself, passed as a value. -/
def JsObject.val (o : JsObject) : JsVal := .obj o.ref

/-! ## Strings: trimming and numeric coercion -/

/-- WhiteSpace and LineTerminator code points of ECMAScript, as removed by
`String.prototype.trim` and skipped by `Number(...)`. -/
def isJsWhiteSpace (c : Char) : Bool :=
  let n := c.toNat
  n == 0x09 || n == 0x0A || n == 0x0B || n == 0x0C || n == 0x0D || n == 0x20 || n == 0xA0 ||
  n == 0x1680 || (0x2000 ≤ n && n ≤ 0x200A) || n == 0x2028 || n == 0x2029 || n == 0x202F ||
  n == 0x205F || n == 0x3000 || n == 0xFEFF

/-- Trimming on character lists. -/
def trimChars (cs : List Char) : List Char :=
  ((cs.dropWhile isJsWhiteSpace).reverse.dropWhile isJsWhiteSpace).reverse

/-- The method `String.prototype.trim`. -/
def jsTrim (s : String) : String := String.mk (trimChars s.data)

def isDecDigit (c : Char) : Bool := 48 ≤ c.toNat && c.toNat ≤ 57

def isHexDigit (c : Char) : Bool :=
  isDecDigit c || (97 ≤ c.toNat && c.toNat ≤ 102) || (65 ≤ c.toNat && c.toNat ≤ 70)

def isOctDigit (c : Char) : Bool := 48 ≤ c.toNat && c.toNat ≤ 55

def isBinDigit (c : Char) : Bool := c.toNat == 48 || c.toNat == 49

/-- A non-empty run of characters of one class. -/
def allOf (p : Char → Bool) (cs : List Char) : Bool := !cs.isEmpty && cs.all p

/-- ExponentPart of the grammar, or nothing. -/
def isExponentOpt : List Char → Bool
  | [] => true
  | e :: t =>
    (e == 'e' || e == 'E') &&
      (match t with
       | '+' :: u => allOf isDecDigit u
       | '-' :: u => allOf isDecDigit u
       | u => allOf isDecDigit u)

/-- StrUnsignedDecimalLiteral: `Infinity`, `d.dE`, `.dE`, `dE`. -/
def isStrUnsignedDecimal (cs : List Char) : Bool :=
  if cs = "Infinity".data then true
  else
    let ip := cs.takeWhile isDecDigit
    let r1 := cs.dropWhile isDecDigit
    match r1 with
    | '.' :: t =>
      let fp := t.takeWhile isDecDigit
      (!ip.isEmpty || !fp.isEmpty) && isExponentOpt (t.dropWhile isDecDigit)
    | _ => !ip.isEmpty && isExponentOpt r1

/-- StrNumericLiteral: a signed decimal literal or an unsigned binary, octal or hex integer. -/
def isStrNumericLiteral : List Char → Bool
  | '0' :: 'x' :: t => allOf isHexDigit t
  | '0' :: 'X' :: t => allOf isHexDigit t
  | '0' :: 'o' :: t => allOf isOctDigit t
  | '0' :: 'O' :: t => allOf isOctDigit t
  | '0' :: 'b' :: t => allOf isBinDigit t
  | '0' :: 'B' :: t => allOf isBinDigit t
  | '+' :: t => isStrUnsignedDecimal t
  | '-' :: t => isStrUnsignedDecimal t
  | cs => isStrUnsignedDecimal cs

/-- The global `isNaN` applied to a string: `Number(s)` is `NaN` unless the trimmed string is
empty (which converts to `0`) or a StrNumericLiteral. -/
def jsIsNaN (s : String) : Bool :=
  let cs := trimChars s.data
  !(cs.isEmpty || isStrNumericLiteral cs)

def digitVal (c : Char) : Nat :=
  if isDecDigit c then c.toNat - 48
  else if 97 ≤ c.toNat && c.toNat ≤ 102 then c.toNat - 87
  else c.toNat - 55

/-- Value of a digit string in the given radix, most significant digit first. -/
def digitsToNat (radix : Nat) (cs : List Char) : Nat :=
  cs.foldl (fun acc c => acc * radix + digitVal c) 0

/-- Unsigned part of `parseInt(s)` with no radix argument: hex after `0x`/`0X`, decimal
otherwise; `none` is `NaN`. -/
def parseIntUnsigned : List Char → Option Nat
  | '0' :: 'x' :: t =>
    let ds := t.takeWhile isHexDigit
    if ds.isEmpty then none else some (digitsToNat 16 ds)
  | '0' :: 'X' :: t =>
    let ds := t.takeWhile isHexDigit
    if ds.isEmpty then none else some (digitsToNat 16 ds)
  | cs =>
    let ds := cs.takeWhile isDecDigit
    if ds.isEmpty then none else some (digitsToNat 10 ds)

/-- The global `parseInt(s)`: leading white space is skipped, then an optional sign, then the
longest digit prefix; `none` is `NaN`. -/
def jsParseInt (s : String) : Option Int :=
  match s.data.dropWhile isJsWhiteSpace with
  | '-' :: t => (parseIntUnsigned t).map (fun n => -(n : Int))
  | '+' :: t => (parseIntUnsigned t).map (fun n => (n : Int))
  | cs => (parseIntUnsigned cs).map (fun n => (n : Int))

/-! ## Thrown values and the catch blocks -/

/-- What a `try` block of a service can throw, as far as the catch blocks tell apart:
the Sequelize error classes tested with `instanceof`, and any other value, which the catch
blocks only read through its `status` and `message` properties (a plain `{status, message}`
object thrown by the service itself, an `Error`, a `TypeError`, ...). -/
inductive Thrown where
  | object (status message : JsVal)
  | uniqueConstraint (paths : List String) (message : String)
  | validation (paths : List String) (message : String)
  | database (message : String)
deriving DecidableEq, Repr

/-- The object every service rejects with: `{status, message}`. -/
structure ServiceError where
  status : JsVal
  message : JsVal
deriving DecidableEq, Repr

/-- The plain object `{ status: n, message: m }` thrown inside a service. -/
def Thrown.plain (n : Nat) (m : String) : Thrown := .object (.num n) (.str m)

/-- A `TypeError` raised by the engine: it has a message and no `status`. -/
def Thrown.typeError (m : String) : Thrown := .object .undefined (.str m)

def Thrown.status : Thrown → JsVal
  | .object s _ => s
  | _ => .undefined

def Thrown.message : Thrown → JsVal
  | .object _ m => m
  | .uniqueConstraint _ m => .str m
  | .validation _ m => .str m
  | .database m => .str m

/-- The operator `a || b`. -/
def jsOr (a b : JsVal) : JsVal := if a.truthy then a else b

/-- Last statement of every catch block:
`throw { status: err.status || 500, message: err.message || fallback }`. -/
def rethrow (fallback : String) (err : Thrown) : ServiceError :=
  { status := jsOr err.status (.num 500), message := jsOr err.message (.str fallback) }

/-- The expression ``err.errors.map(e => `${e.path} already exists`).join(', ')``. -/
def alreadyExists (paths : List String) : String :=
  ", ".intercalate (paths.map (fun p => p ++ " already exists"))

/-- The expression ``err.errors.map(e => `Invalid ${e.path}`).join(', ')``. -/
def invalidPaths (paths : List String) : String :=
  ", ".intercalate (paths.map (fun p => "Invalid " ++ p))

/-- Catch block of createUser, updateUser, createPost and updatePost: UniqueConstraintError
(a subclass of ValidationError, tested first), ValidationError, DatabaseError, anything else. -/
def catchFull (fallback : String) : Thrown → ServiceError
  | .uniqueConstraint paths _ => { status := .num 409, message := .str (alreadyExists paths) }
  | .validation paths _ => { status := .num 422, message := .str (invalidPaths paths) }
  | .database _ => { status := .num 500, message := .str "Database error" }
  | err => rethrow fallback err

/-- Catch block of createCategory: UniqueConstraintError, DatabaseError, anything else. -/
def catchUnique (fallback : String) : Thrown → ServiceError
  | .uniqueConstraint paths _ => { status := .num 409, message := .str (alreadyExists paths) }
  | .database _ => { status := .num 500, message := .str "Database error" }
  | err => rethrow fallback err

/-- Catch block of the remaining operations: DatabaseError, anything else. -/
def catchDb (fallback : String) : Thrown → ServiceError
  | .database _ => { status := .num 500, message := .str "Database error" }
  | err => rethrow fallback err

/-- Catch block of getAllUsers: the fallback is used whatever the failure carries. -/
def catchUsers : Thrown → ServiceError
  | .database _ => { status := .num 500, message := .str "Database error" }
  | _ => { status := .num 500, message := .str "Error fetching users" }

/-! ## The store -/

inductive Model where
  | User
  | Post
  | Comment
  | Category
deriving DecidableEq, Repr

/-- A call on a Sequelize model, with the arguments the service passes. -/
inductive StoreCall where
  | create (m : Model) (values : List (String × JsVal))
  | findAll (m : Model) (cond : List (String × JsVal))
  | findByPk (m : Model) (id : String) (includePost : Bool)
  | findOne (m : Model) (cond : List (String × JsVal))
  | update (m : Model) (values : List (String × JsVal)) (cond : List (String × JsVal))
      (individualHooks : Bool)
  | destroy (m : Model) (cond : List (String × JsVal))
deriving DecidableEq, Repr

def StoreCall.isDestroy : StoreCall → Bool
  | .destroy _ _ => true
  | _ => false

def StoreCall.isUpdate : StoreCall → Bool
  | .update _ _ _ _ => true
  | _ => false

/-- A user row (`src/models/User.js`). -/
structure UserRow where
  user_id : String
  username : String
  email : String
  password : String
  role : String
deriving DecidableEq, Repr

/-- A post row (`src/models/Post.js`); `author_id` is a nullable reference. -/
structure PostRow where
  post_id : String
  author_id : JsVal
  title : String
  content : String
  status : String
deriving DecidableEq, Repr

/-- The parent post as loaded by `include: { model: db.Post, attributes: ['author_id'] }`. -/
structure PostInclude where
  author_id : JsVal
deriving DecidableEq, Repr

/-- A comment row (`src/models/Comment.js`); `Post` is the included parent post, present only
when the row was loaded with the include and the parent exists. -/
structure CommentRow where
  comment_id : String
  post_id : JsVal
  author_id : JsVal
  content : String
  Post : Option PostInclude
deriving DecidableEq, Repr

/-- A category row (`src/models/Category.js`): the key is an auto-incremented integer. -/
structure CategoryRow where
  category_id : Int
  name : String
  description : JsVal
deriving DecidableEq, Repr

/-- A store operation: it resolves or rejects, and may change the store. -/
abbrev StoreOp (σ α : Type) := σ → Except Thrown α × σ

/-- The calls the services make on `db.User`. -/
structure UserModel (σ : Type) where
  create : List (String × JsVal) → StoreOp σ UserRow
  findAll : StoreOp σ (List UserRow)
  findByPk : String → StoreOp σ (Option UserRow)
  findOne : JsVal → StoreOp σ (Option UserRow)
  update : List (String × JsVal) → String → StoreOp σ Nat
  destroy : String → StoreOp σ Nat

/-- The calls the services make on `db.Post`. -/
structure PostModel (σ : Type) where
  create : List (String × JsVal) → StoreOp σ PostRow
  findAll : StoreOp σ (List PostRow)
  findAllByCategory : String → StoreOp σ (List PostRow)
  findByPk : String → StoreOp σ (Option PostRow)
  update : List (String × JsVal) → String → StoreOp σ Nat
  destroy : String → StoreOp σ Nat

/-- The calls the services make on `db.Comment`. -/
structure CommentModel (σ : Type) where
  create : List (String × JsVal) → StoreOp σ CommentRow
  findAllByPost : String → StoreOp σ (List CommentRow)
  findByPk : String → StoreOp σ (Option CommentRow)
  findByPkWithPost : String → StoreOp σ (Option CommentRow)
  update : List (String × JsVal) → String → StoreOp σ Nat
  destroy : String → StoreOp σ Nat

/-- The calls the services make on `db.Category`. -/
structure CategoryModel (σ : Type) where
  create : List (String × JsVal) → StoreOp σ CategoryRow
  findAll : StoreOp σ (List CategoryRow)
  findByPk : String → StoreOp σ (Option CategoryRow)
  findOne : JsVal → StoreOp σ (Option CategoryRow)
  update : List (String × JsVal) → String → StoreOp σ Nat
  destroy : String → StoreOp σ Nat

/-- The module `db` of `src/config/db.connect.js`, over a store state `σ`. -/
structure Db (σ : Type) where
  User : UserModel σ
  Post : PostModel σ
  Comment : CommentModel σ
  Category : CategoryModel σ

/-- The store and the calls issued on it so far, oldest first. -/
structure World (σ : Type) where
  store : σ
  log : List StoreCall

/-! ## Effectful code -/

/-- Body of a `try` block: it returns or throws, and may have called the store. -/
def Eff (σ α : Type) : Type := World σ → Except Thrown α × World σ

/-- An `async` service function: it resolves or rejects with a `ServiceError`. -/
def Service (σ α : Type) : Type := World σ → Except ServiceError α × World σ

def Eff.pure (a : α) : Eff σ α := fun w => (.ok a, w)

def Eff.bind (m : Eff σ α) (f : α → Eff σ β) : Eff σ β := fun w =>
  match m w with
  | (.ok a, w1) => f a w1
  | (.error e, w1) => (.error e, w1)

instance : Monad (Eff σ) where
  pure := Eff.pure
  bind := Eff.bind

/-- The statement `throw e`. -/
def throwE (e : Thrown) : Eff σ α := fun w => (.error e, w)

/-- An awaited model call: the call is logged, then run on the store. -/
def call (c : StoreCall) (op : StoreOp σ α) : Eff σ α := fun w =>
  match op w.store with
  | (r, s1) => (r, { store := s1, log := w.log ++ [c] })

/-- The statement `try { body } catch (err) { throw handler(err) }`. -/
def tryCatch (handler : Thrown → ServiceError) (body : Eff σ α) : Service σ α := fun w =>
  match body w with
  | (.ok a, w1) => (.ok a, w1)
  | (.error e, w1) => (.error (handler e), w1)

/-- The call `v?.trim()`: `undefined` on a nullish value, the trimmed string on a string, and
a `TypeError` on any other value, which has no `trim` method. -/
def optTrim (expr : String) : JsVal → Eff σ JsVal
  | .undefined => Eff.pure .undefined
  | .null => Eff.pure .undefined
  | .str s => Eff.pure (.str (jsTrim s))
  | _ => throwE (.typeError (expr ++ " is not a function"))

/-- The method `Array.prototype.some` with a callback that may throw. -/
def someM (p : α → Eff σ Bool) : List α → Eff σ Bool
  | [] => Eff.pure false
  | a :: as => Eff.bind (p a) (fun b => if b then Eff.pure true else someM p as)

/-- The callback `field => data[field]?.trim()` passed to `some`, read as a truth value. -/
def hasText (expr : String) (data : JsObject) (field : String) : Eff σ Bool :=
  Eff.bind (optTrim expr (data.get field)) (fun t => Eff.pure t.truthy)

/-- The method `Array.prototype.forEach` with a callback that may throw. -/
def forEachM (f : α → Eff σ Unit) : List α → Eff σ Unit
  | [] => Eff.pure ()
  | a :: as => Eff.bind (f a) (fun _ => forEachM f as)

/-! ## Results returned by the services -/

/-- The object `{ message }`. -/
structure Message where
  message : String
deriving DecidableEq, Repr

/-- The object `{ status, message }` that deletePost resolves with. -/
structure StatusMessage where
  status : Nat
  message : String
deriving DecidableEq, Repr

/-! ## The credential -/

/-- The payload loginUser signs, `{ userId: user.user_id, username: user.username,
role: user.role }` with the issue and expiry times the signer adds (`expiresIn: '1h'`), which
authenticateToken attaches to the request as `req.user`. -/
def credential (ref : Nat) (userId username role : String) (iat : Int) : JsObject :=
  { ref := ref
    props := [("userId", .str userId), ("username", .str username), ("role", .str role),
      ("iat", .num iat), ("exp", .num (iat + 3600))] }

/-! ## `src/services/postService.js` -/

namespace postService

def getPostById (db : Db σ) (isUUID : String → Bool) (postId : String) : Service σ PostRow :=
  tryCatch (catchDb "Error fetching posts") do
    if postId == "" || !isUUID postId then
      throwE (.plain 400 "Invalid post ID")
    else
      let post ← call (.findByPk .Post postId false) (db.Post.findByPk postId)
      match post with
      | none => throwE (.plain 404 "Post not found")
      | some post => pure post

def getPostByCategoryId (db : Db σ) (category_id : String) : Service σ (List PostRow) :=
  tryCatch (catchDb "Error fetching posts") do
    if category_id == "" || jsIsNaN category_id then
      throwE (.plain 400 "Invalid post ID")
    else
      let posts ← call (.findAll .Post [("category_id", .str category_id)])
        (db.Post.findAllByCategory category_id)
      if posts.length == 0 then
        throwE (.plain 404 "No Posts found for specified category")
      else
        pure posts

def requiredFields : List String := ["title", "content", "status"]

/-- The callback of `requiredFields.forEach` in updatePost:
``if (postData[field]?.trim() === '') throw { status: 400, message: `${field} cannot be blank` }``. -/
def rejectBlank (postData : JsObject) (field : String) : Eff σ Unit :=
  Eff.bind (optTrim "postData[field]?.trim" (postData.get field)) (fun t =>
    if t == .str "" then throwE (.plain 400 (field ++ " cannot be blank"))
    else Eff.pure ())

def updatePost (db : Db σ) (isUUID : String → Bool) (postId : String) (user : JsObject)
    (postData : JsObject) : Service σ Message :=
  tryCatch (catchFull "Error updating post") do
    if postId == "" || !isUUID postId then
      throwE (.plain 400 "Invalid post ID")
    else
      let post ← call (.findByPk .Post postId false) (db.Post.findByPk postId)
      match post with
      | none => throwE (.plain 404 "Post not found for update")
      | some post =>
        if (user.get "userId").strictNe post.author_id &&
            (user.get "userRole").strictNe (.str "admin") then
          throwE (.plain 403 "You are not authorized to update this post")
        else
          let hasValidField ← someM (hasText "postData[field]?.trim" postData) requiredFields
          if !hasValidField then
            throwE (.plain 400
              "At least one of title ,content or status must be provided and non-blank for update")
          else
            forEachM (rejectBlank postData) requiredFields
            let updated ← call (.update .Post postData.props [("post_id", .str postId)] false)
              (db.Post.update postData.props postId)
            if updated == 0 then
              throwE (.plain 404 "Post not found for update")
            else
              pure { message := "Post updated successfully" }

def deletePost (db : Db σ) (isUUID : String → Bool) (postId : String) (user : JsObject) :
    Service σ StatusMessage :=
  tryCatch (catchDb "Error deleting post") do
    if postId == "" || !isUUID postId then
      throwE (.plain 400 "Invalid post ID")
    else
      let post ← call (.findByPk .Post postId false) (db.Post.findByPk postId)
      match post with
      | none => throwE (.plain 404 "Post not found")
      | some post =>
        if (user.get "userId").strictNe post.author_id &&
            (user.get "role").strictNe (.str "admin") then
          throwE (.plain 403 "You are not authorized to delete this post")
        else
          let _ ← call (.destroy .Post [("post_id", .str postId)]) (db.Post.destroy postId)
          pure { status := 204, message := "Post deleted" }

end postService

/-- The call `v.trim()`: a `TypeError` when `v` is not a string. -/
def trimCall (expr : String) : JsVal → Eff σ JsVal
  | .str s => Eff.pure (.str (jsTrim s))
  | .undefined => throwE (.typeError "Cannot read properties of undefined (reading 'trim')")
  | .null => throwE (.typeError "Cannot read properties of null (reading 'trim')")
  | _ => throwE (.typeError (expr ++ " is not a function"))

/-- The test `!v || v.trim() === ''` of a required text field. -/
def missingOrBlank (expr : String) (v : JsVal) : Eff σ Bool :=
  if !v.truthy then Eff.pure true
  else Eff.bind (trimCall expr v) (fun t => Eff.pure (t == .str ""))

/-! ## `src/services/commentService.js` -/

namespace commentService

/-- The validator's `isUUID` throws a `TypeError` on a value that is not a string; the text of
its message is the library's and is taken as the parameter `notAString`. -/
def createComment (db : Db σ) (isUUID : String → Bool) (notAString : JsVal → String)
    (postData : JsObject) (author_id : JsVal) : Service σ CommentRow :=
  tryCatch (catchDb "Error fetching comments") do
    match postData.get "post_id" with
    | .str post_id =>
      if post_id == "" || !isUUID post_id then
        throwE (.plain 400 "Invalid post ID")
      else
        let post ← call (.findByPk .Post post_id false) (db.Post.findByPk post_id)
        match post with
        | none => throwE (.plain 404 "Post not found")
        | some _ =>
          if ← missingOrBlank "postData.content.trim" (postData.get "content") then
            throwE (.plain 400 "Content is required")
          else
            let values := [("content", postData.get "content"), ("post_id", .str post_id),
              ("author_id", author_id)]
            call (.create .Comment values) (db.Comment.create values)
    | v =>
      if !v.truthy then throwE (.plain 400 "Invalid post ID")
      else throwE (.typeError (notAString v))

def getCommentsByPost (db : Db σ) (isUUID : String → Bool) (post_id : String) :
    Service σ (List CommentRow) :=
  tryCatch (catchDb "Error fetching comments") do
    if post_id == "" || !isUUID post_id then
      throwE (.plain 400 "Invalid post ID")
    else
      let post ← call (.findByPk .Post post_id false) (db.Post.findByPk post_id)
      match post with
      | none => throwE (.plain 404 "Post not found")
      | some _ =>
        let comments ← call (.findAll .Comment [("post_id", .str post_id)])
          (db.Comment.findAllByPost post_id)
        if comments.length == 0 then
          throwE (.plain 404 "No comments found for this post")
        else
          pure comments

def getCommentById (db : Db σ) (isUUID : String → Bool) (commentId : String) :
    Service σ CommentRow :=
  tryCatch (catchDb "Error fetching comments") do
    if commentId == "" || !isUUID commentId then
      throwE (.plain 400 "Invalid comment ID")
    else
      let comment ← call (.findByPk .Comment commentId false) (db.Comment.findByPk commentId)
      match comment with
      | none => throwE (.plain 404 "Comment not found")
      | some comment => pure comment

def updateComment (db : Db σ) (isUUID : String → Bool) (commentId : String)
    (commentData : JsObject) (user : JsObject) : Service σ (Option CommentRow) :=
  tryCatch (catchDb "Error updating comments") do
    if commentId == "" || !isUUID commentId then
      throwE (.plain 400 "Invalid comment ID")
    else if ← missingOrBlank "commentData.content.trim" (commentData.get "content") then
      throwE (.plain 400 "Content is required")
    else
      let comment ← call (.findByPk .Comment commentId false) (db.Comment.findByPk commentId)
      let denied :=
        match comment with
        | some comment =>
          (user.get "userId").strictNe comment.author_id &&
            (user.get "userRole").strictNe (.str "admin")
        | none => false
      if denied then
        throwE (.plain 403 "You are not authorized to update this comment")
      else
        let updated ← call
          (.update .Comment [("content", commentData.get "content")]
            [("comment_id", .str commentId)] false)
          (db.Comment.update [("content", commentData.get "content")] commentId)
        if updated == 0 then
          throwE (.plain 404 "Comment not found")
        else
          call (.findByPk .Comment commentId false) (db.Comment.findByPk commentId)

/-- The read `comment.Post.author_id`: a `TypeError` when no parent post was loaded. -/
def parentAuthor (comment : CommentRow) : Eff σ JsVal :=
  match comment.Post with
  | some post => Eff.pure post.author_id
  | none => throwE (.typeError "Cannot read properties of null (reading 'author_id')")

def deleteComment (db : Db σ) (isUUID : String → Bool) (commentId : String)
    (userId userRole : JsVal) : Service σ Message :=
  tryCatch (catchDb "Error deleting comments") do
    if commentId == "" || !isUUID commentId then
      throwE (.plain 400 "Invalid comment ID")
    else
      let comment ← call (.findByPk .Comment commentId true)
        (db.Comment.findByPkWithPost commentId)
      match comment with
      | none => throwE (.plain 404 "Comment not found")
      | some comment =>
        let denied ←
          if userId.strictNe comment.author_id && userRole.strictNe (.str "admin") then do
            let postAuthor ← parentAuthor comment
            pure (userId.strictNe postAuthor)
          else pure false
        if denied then
          throwE (.plain 403 "You are not authorized to delete this comment")
        else
          let _ ← call (.destroy .Comment [("comment_id", .str commentId)])
            (db.Comment.destroy commentId)
          pure { message := "Comment deleted" }

end commentService

/-! ## `src/services/userService.js` -/

namespace userService

/-- The enumerated values `db.User.rawAttributes.role.values` (`src/models/User.js`). -/
def validRoles : List JsVal := [.str "user", .str "admin"]

def getAllUsers (db : Db σ) : Service σ (List UserRow) :=
  tryCatch catchUsers (call (.findAll .User []) db.User.findAll)

def getUserById (db : Db σ) (isUUID : String → Bool) (id : String) : Service σ UserRow :=
  tryCatch (catchDb "Error fetching user") do
    if !isUUID id then
      throwE (.plain 400 "Invalid user ID format")
    else
      let user ← call (.findByPk .User id false) (db.User.findByPk id)
      match user with
      | none => throwE (.plain 404 "User not found")
      | some user => pure user

/-- The local helper `checkBlankField` of updateUser: `if (value && !value.trim()) throw ...`. -/
def checkBlankField (fieldName : String) (value : JsVal) : Eff σ Unit :=
  if value.truthy then
    Eff.bind (trimCall "value.trim" value) (fun t =>
      if !t.truthy then throwE (.plain 400 (fieldName ++ " cannot be blank"))
      else Eff.pure ())
  else Eff.pure ()

def requiredFields : List String := ["username", "password", "email", "role"]

def updateUser (db : Db σ) (isUUID : String → Bool) (id : String) (user : JsObject)
    (userData : JsObject) : Service σ Message :=
  tryCatch (catchFull "Error updating user") do
    if !isUUID id then
      throwE (.plain 400 "Invalid user ID format")
    else if (user.get "userId").strictNe (.str id) &&
        (user.get "role").strictNe (.str "admin") then
      throwE (.plain 400 "You are not authorized to update this user")
    else
      let hasValidField ← someM (hasText "userData[field]?.trim" userData) requiredFields
      if !hasValidField then
        throwE (.plain 400
          "At least one of username, password, email, or role must be provided and non-blank")
      else
        forEachM (fun field => checkBlankField field (userData.get field))
          ["username", "password", "email", "role"]
        if (userData.get "role").truthy && !validRoles.contains (userData.get "role") then
          throwE (.plain 400 "Invalid role specified")
        else
          let updated ← call (.update .User userData.props [("user_id", .str id)] true)
            (db.User.update userData.props id)
          if updated == 0 then
            throwE (.plain 404 "User not found")
          else
            pure { message := "User updated successfully" }

def deleteUser (db : Db σ) (isUUID : String → Bool) (id : String) : Service σ Message :=
  tryCatch (catchDb "Error deleting user") do
    if !isUUID id then
      throwE (.plain 400 "Invalid user ID format")
    else
      let deleted ← call (.destroy .User [("user_id", .str id)]) (db.User.destroy id)
      if deleted == 0 then
        throwE (.plain 404 "User not found")
      else
        pure { message := "User deleted successfully" }

end userService

/-! ## `src/services/categoryService.js` -/

/-- How an `async` function can reject: with the object its catch block throws, or with a
raw failure that never passed through the catch block. -/
inductive Rejection where
  | handled (e : ServiceError)
  | raw (e : Thrown)
deriving DecidableEq, Repr

namespace categoryService

/-- The batch loop of createCategory: `created` is the array `createdCategories`. -/
def createLoop (db : Db σ) (created : List CategoryRow) : List JsObject →
    Eff σ (List CategoryRow)
  | [] => Eff.pure created
  | item :: rest =>
    Eff.bind (optTrim "name?.trim" (item.get "name")) (fun n =>
      Eff.bind (if !n.truthy then Eff.pure true
          else Eff.bind (optTrim "description?.trim" (item.get "description"))
            (fun d => Eff.pure (!d.truthy))) (fun blank =>
        if blank then
          throwE (.plain 400 "Category name and description are required and cannot be blank")
        else
          let values := [("name", item.get "name"), ("description", item.get "description")]
          Eff.bind (call (.create .Category values) (db.Category.create values))
            (fun newCategory => createLoop db (created ++ [newCategory]) rest)))

def createCategory (db : Db σ) (categories : List JsObject) : Service σ (List CategoryRow) :=
  tryCatch (catchUnique "Error creating category") (createLoop db [] categories)

def getCategoryById (db : Db σ) (categoryId : String) : Service σ CategoryRow :=
  tryCatch (catchDb "Error fetching category") do
    if categoryId == "" || jsIsNaN categoryId then
      throwE (.plain 400 "Invalid category ID")
    else
      let category ← call (.findByPk .Category categoryId false)
        (db.Category.findByPk categoryId)
      match category with
      | none => throwE (.plain 404 "Category not found")
      | some category => pure category

/-- The test `existingCategory.category_id !== parseInt(categoryId)`; `NaN` differs from every
number. -/
def otherCategory (existing : CategoryRow) (categoryId : String) : Bool :=
  match jsParseInt categoryId with
  | some n => existing.category_id != n
  | none => true

/-- The part of updateCategory inside the `try` block, up to the `return` statement. -/
def updateCategoryBody (db : Db σ) (categoryId : String) (name description : JsVal) :
    Eff σ Unit := do
  if categoryId == "" || jsIsNaN categoryId then
    throwE (.plain 400 "Invalid category ID")
  else
    let nameBlank ← missingOrBlank "name.trim" name
    let bothBlank ←
      if nameBlank then missingOrBlank "description.trim" description else pure false
    if bothBlank then
      throwE (.plain 400 "At least one field (name or description) must be provided")
    else
      let taken ←
        if name.truthy then do
          let existingCategory ← call (.findOne .Category [("name", name)])
            (db.Category.findOne name)
          match existingCategory with
          | some existing => pure (otherCategory existing categoryId)
          | none => pure false
        else pure false
      if taken then
        throwE (.plain 400 "Category name already exists")
      else
        let updateData :=
          (if name.truthy then [("name", name)] else []) ++
          (if description.truthy then [("description", description)] else [])
        let updated ← call (.update .Category updateData [("category_id", .str categoryId)] false)
          (db.Category.update updateData categoryId)
        if updated == 0 then
          throwE (.plain 404 "Category not found")
        else
          pure ()

/-- The service updateCategory. Its last statement is `return db.Category.findByPk(categoryId)`
without `await`: the promise leaves the `try` block unsettled, so a failure of that last call
is not seen by the catch block. -/
def updateCategory (db : Db σ) (categoryId : String) (body : JsObject) (w : World σ) :
    Except Rejection (Option CategoryRow) × World σ :=
  match tryCatch (catchDb "Error updating category")
      (updateCategoryBody db categoryId (body.get "name") (body.get "description")) w with
  | (.error e, w1) => (.error (.handled e), w1)
  | (.ok _, w1) =>
    match call (.findByPk .Category categoryId false) (db.Category.findByPk categoryId) w1 with
    | (.ok row, w2) => (.ok row, w2)
    | (.error e, w2) => (.error (.raw e), w2)

def deleteCategory (db : Db σ) (categoryId : String) : Service σ Unit :=
  tryCatch (catchDb "Error deleting category") do
    if categoryId == "" || jsIsNaN categoryId then
      throwE (.plain 400 "Invalid category ID")
    else
      let category ← call (.findByPk .Category categoryId false)
        (db.Category.findByPk categoryId)
      match category with
      | none => throwE (.plain 404 "Category not found")
      | some _ =>
        let _ ← call (.destroy .Category [("category_id", .str categoryId)])
          (db.Category.destroy categoryId)
        pure ()

end categoryService

/-! ## Requests, responses and `src/middleware/authMiddleware.js` -/

/-- A parsed JSON request body: an object, or an array of objects. -/
inductive Body where
  | object (o : JsObject)
  | array (items : List JsObject)
deriving DecidableEq, Repr

/-- The body read as an object: none of the fields the services read is a property of an
array. -/
def Body.asObject : Body → JsObject
  | .object o => o
  | .array _ => { ref := 0, props := [] }

/-- The parts of an Express request the application reads: the `authorization` header,
`req.params.id`, `req.body`, and `req.user` once authenticateToken has set it. -/
structure Request where
  authorization : Option String
  id : String
  body : Body
  user : Option JsObject
deriving DecidableEq, Repr

/-- The response `res.status(status).json(...)`: the `message` of the JSON document
(`undefined` when it has none) and its payload, if any. -/
structure Response (α : Type) where
  status : JsVal
  message : JsVal
  data : Option α
deriving DecidableEq, Repr

/-- A route handler; a middleware is a function from the next handler to a handler. -/
def Handler (σ α : Type) : Type := Request → World σ → Response α × World σ

/-- The method `String.prototype.split` with a one-character separator, on character lists. -/
def splitChars (sep : Char) : List Char → List (List Char)
  | [] => [[]]
  | c :: cs =>
    match splitChars sep cs with
    | [] => [[]]
    | h :: t => if c == sep then [] :: h :: t else (c :: h) :: t

/-- The expression `req.headers['authorization']?.split(' ')[1]`. -/
def bearerToken (req : Request) : JsVal :=
  match req.authorization with
  | none => .undefined
  | some h =>
    match (splitChars ' ' h.data).get? 1 with
    | some t => .str (String.mk t)
    | none => .undefined

/-- The middleware authenticateToken; `verify` is `jwt.verify` with the server's secret:
`none` when the token is invalid or expired, the decoded payload otherwise. -/
def authenticateToken (verify : String → Option JsObject) (next : Handler σ α) : Handler σ α :=
  fun req w =>
    match bearerToken req with
    | .str token =>
      if token == "" then
        ({ status := .num 401, message := .str "Access token is required", data := none }, w)
      else
        match verify token with
        | none =>
          ({ status := .num 403, message := .str "Invalid or expired token", data := none }, w)
        | some user => next { req with user := some user } w
    | _ => ({ status := .num 401, message := .str "Access token is required", data := none }, w)

/-- The middleware `authorizeRoles(...allowedRoles)`. Reading `req.user.role` with no
`req.user` throws, which Express answers with status 500. -/
def authorizeRoles (allowedRoles : List String) (next : Handler σ α) : Handler σ α :=
  fun req w =>
    match req.user with
    | none => ({ status := .num 500, message := .undefined, data := none }, w)
    | some user =>
      if !(allowedRoles.map JsVal.str).contains (user.get "role") then
        ({ status := .num 403, message := .str "Access denied", data := none }, w)
      else next req w

/-- The catch block of every controller: `res.status(err.status).json({ message: err.message })`. -/
def errorResponse (err : ServiceError) : Response α :=
  { status := err.status, message := err.message, data := none }

/-- A controller whose `try` block reads a property of a missing `req.user`: the `TypeError`
has no status. -/
def noUserResponse (prop : String) : Response α :=
  { status := .undefined
    message := .str ("Cannot read properties of undefined (reading '" ++ prop ++ "')")
    data := none }

/-! ## `src/controllers/*.js` -/

namespace categoryController

def createCategory (db : Db σ) : Handler σ (List CategoryRow) := fun req w =>
  let categories := match req.body with
    | .array items => items
    | .object o => [o]
  match categoryService.createCategory db categories w with
  | (.ok createdCategories, w1) =>
    ({ status := .num 201
       message := .str (if categories.length > 1 then "Categories created successfully"
         else "Category created successfully")
       data := some createdCategories }, w1)
  | (.error error, w1) => (errorResponse error, w1)

def updateCategory (db : Db σ) : Handler σ (Option CategoryRow) := fun req w =>
  match categoryService.updateCategory db req.id req.body.asObject w with
  | (.ok updatedCategory, w1) =>
    ({ status := .num 200, message := .str "Category updated successfully"
       data := some updatedCategory }, w1)
  | (.error (.handled error), w1) => (errorResponse error, w1)
  | (.error (.raw error), w1) =>
    ({ status := error.status, message := error.message, data := none }, w1)

def deleteCategory (db : Db σ) : Handler σ Unit := fun req w =>
  match categoryService.deleteCategory db req.id w with
  | (.ok _, w1) =>
    ({ status := .num 204, message := .str "Category deleted successfully", data := none }, w1)
  | (.error error, w1) => (errorResponse error, w1)

end categoryController

namespace commentController

def createComment (db : Db σ) (isUUID : String → Bool) (notAString : JsVal → String) :
    Handler σ CommentRow := fun req w =>
  match req.user with
  | none => (noUserResponse "userId", w)
  | some user =>
    match commentService.createComment db isUUID notAString req.body.asObject
        (user.get "userId") w with
    | (.ok newComment, w1) =>
      ({ status := .num 201, message := .str "Comment created successfully"
         data := some newComment }, w1)
    | (.error err, w1) => (errorResponse err, w1)

def getCommentsByPost (db : Db σ) (isUUID : String → Bool) : Handler σ (List CommentRow) :=
  fun req w =>
    match commentService.getCommentsByPost db isUUID req.id w with
    | (.ok comments, w1) =>
      ({ status := .num 200, message := .str "Comments fetched successfully"
         data := some comments }, w1)
    | (.error err, w1) => (errorResponse err, w1)

def getCommentById (db : Db σ) (isUUID : String → Bool) : Handler σ CommentRow := fun req w =>
  match commentService.getCommentById db isUUID req.id w with
  | (.ok comment, w1) =>
    ({ status := .num 200, message := .str "Comment fetched successfully"
       data := some comment }, w1)
  | (.error err, w1) => (errorResponse err, w1)

/-- The controller deleteComment: it calls `commentService.deleteComment(req.params.id,
req.user)`, so the service receives the whole `req.user` object as `userId` and `undefined`
as `userRole`. -/
def deleteComment (db : Db σ) (isUUID : String → Bool) : Handler σ Unit := fun req w =>
  let userArg := match req.user with
    | some user => user.val
    | none => .undefined
  match commentService.deleteComment db isUUID req.id userArg .undefined w with
  | (.ok response, w1) =>
    ({ status := .num 204, message := .str response.message, data := none }, w1)
  | (.error err, w1) => (errorResponse err, w1)

end commentController

namespace userController

def getAllUsers (db : Db σ) : Handler σ (List UserRow) := fun _ w =>
  match userService.getAllUsers db w with
  | (.ok users, w1) => ({ status := .num 200, message := .undefined, data := some users }, w1)
  | (.error err, w1) => (errorResponse err, w1)

def getUserById (db : Db σ) (isUUID : String → Bool) : Handler σ UserRow := fun req w =>
  match userService.getUserById db isUUID req.id w with
  | (.ok user, w1) => ({ status := .num 200, message := .undefined, data := some user }, w1)
  | (.error err, w1) => (errorResponse err, w1)

end userController

/-! ## `src/routes/*.js` -/

namespace categoryRoutes

/-- The route `router.post('/', ...)`. -/
def post (verify : String → Option JsObject) (db : Db σ) : Handler σ (List CategoryRow) :=
  authenticateToken verify (authorizeRoles ["admin"] (categoryController.createCategory db))

/-- The route `router.put('/:id', ...)`. -/
def put (verify : String → Option JsObject) (db : Db σ) : Handler σ (Option CategoryRow) :=
  authenticateToken verify (authorizeRoles ["admin"] (categoryController.updateCategory db))

/-- The route `router.delete('/:id', ...)`. -/
def delete (verify : String → Option JsObject) (db : Db σ) : Handler σ Unit :=
  authenticateToken verify (authorizeRoles ["admin"] (categoryController.deleteCategory db))

end categoryRoutes

namespace commentRoutes

/-- The route `router.post('/', ...)`. -/
def post (verify : String → Option JsObject) (db : Db σ) (isUUID : String → Bool)
    (notAString : JsVal → String) : Handler σ CommentRow :=
  authenticateToken verify
    (authorizeRoles ["admin", "user"] (commentController.createComment db isUUID notAString))

/-- The route `router.get('/post/:id', ...)`. -/
def getByPost (verify : String → Option JsObject) (db : Db σ) (isUUID : String → Bool) :
    Handler σ (List CommentRow) :=
  authenticateToken verify
    (authorizeRoles ["admin", "user"] (commentController.getCommentsByPost db isUUID))

/-- The route `router.get('/:id', ...)`. -/
def get (verify : String → Option JsObject) (db : Db σ) (isUUID : String → Bool) :
    Handler σ CommentRow :=
  authenticateToken verify
    (authorizeRoles ["admin", "user"] (commentController.getCommentById db isUUID))

/-- The route `router.delete('/:id', ...)`. -/
def delete (verify : String → Option JsObject) (db : Db σ) (isUUID : String → Bool) :
    Handler σ Unit :=
  authenticateToken verify (authorizeRoles ["admin"] (commentController.deleteComment db isUUID))

end commentRoutes

namespace userRoutes

/-- The route `router.get('/', ...)`. -/
def getAll (verify : String → Option JsObject) (db : Db σ) : Handler σ (List UserRow) :=
  authenticateToken verify (authorizeRoles ["admin"] (userController.getAllUsers db))

/-- The route `router.get('/:id', ...)`. -/
def get (verify : String → Option JsObject) (db : Db σ) (isUUID : String → Bool) :
    Handler σ UserRow :=
  authenticateToken verify (authorizeRoles ["admin"] (userController.getUserById db isUUID))

end userRoutes

/-! ## Create operations of `src/services/postService.js` and `src/services/userService.js` -/

namespace postService

/-- The enumerated values `db.Post.rawAttributes.status.values` (`src/models/Post.js`). -/
def validPostStatus : List JsVal := [.str "draft", .str "published"]

/-- The object literal createPost passes to `db.Post.create`:
`{ title, content, author_id, ...(postData.status && { status: postData.status }) }`;
spreading a falsy value adds no property. -/
def createValues (postData : JsObject) (author_id : JsVal) : List (String × JsVal) :=
  [("title", postData.get "title"), ("content", postData.get "content"),
    ("author_id", author_id)] ++
  (if (postData.get "status").truthy then [("status", postData.get "status")] else [])

def createPost (db : Db σ) (postData : JsObject) (author_id : JsVal) : Service σ PostRow :=
  tryCatch (catchFull "Error creating post") do
    let titleMissing ← missingOrBlank "postData.title.trim" (postData.get "title")
    let missing ←
      if titleMissing then pure true
      else missingOrBlank "postData.content.trim" (postData.get "content")
    if missing then
      throwE (.plain 400 "Title, content are required")
    else if (postData.get "status").truthy &&
        !validPostStatus.contains (postData.get "status") then
      throwE (.plain 400 "Invalid Post status specified")
    else
      call (.create .Post (createValues postData author_id))
        (db.Post.create (createValues postData author_id))

end postService

namespace userService

/-- The test `!userData.username?.trim() || !userData.email?.trim() ||
!userData.password?.trim()` of createUser, evaluated left to right. -/
def missingCredentials (userData : JsObject) : Eff σ Bool :=
  Eff.bind (optTrim "userData.username?.trim" (userData.get "username")) (fun u =>
    if !u.truthy then Eff.pure true
    else Eff.bind (optTrim "userData.email?.trim" (userData.get "email")) (fun e =>
      if !e.truthy then Eff.pure true
      else Eff.bind (optTrim "userData.password?.trim" (userData.get "password")) (fun p =>
        Eff.pure (!p.truthy))))

def createUser (db : Db σ) (userData : JsObject) : Service σ UserRow :=
  tryCatch (catchFull "Error creating user") do
    let missing ← missingCredentials userData
    if missing then
      throwE (.plain 400 "Username, email, and password are required")
    else if (userData.get "role").truthy && !validRoles.contains (userData.get "role") then
      throwE (.plain 400 "Invalid role specified")
    else
      call (.create .User userData.props) (db.User.create userData.props)

end userService

/-! ## Text fields -/

/-- A field that is missing (`undefined` or `null`) or a string that is blank after
trimming. -/
def blankText : JsVal → Bool
  | .undefined => true
  | .null => true
  | .str s => jsTrim s == ""
  | _ => false

/-- A field that is a string and not blank after trimming. -/
def validText : JsVal → Bool
  | .str s => jsTrim s != ""
  | _ => false

/-- A field that is missing or a string: the values a text field of a JSON body takes. -/
def textOrAbsent (v : JsVal) : Bool := blankText v || validText v

/-- A field supplied as a string that is empty after trimming. -/
def emptyAfterTrim : JsVal → Bool
  | .str s => jsTrim s == ""
  | _ => false

/-- The first field, in the order of `fields`, supplied as a string that is empty after
trimming. -/
def firstBlank (data : JsObject) (fields : List String) : Option String :=
  fields.find? (fun f => emptyAfterTrim (data.get f))

/-! ## Category batches -/

/-- The object `{ name, description }` createCategory passes to the store for an item. -/
def itemValues (item : JsObject) : List (String × JsVal) :=
  [("name", item.get "name"), ("description", item.get "description")]

/-- The create call createCategory issues for an item. -/
def categoryCreateCall (item : JsObject) : StoreCall := .create .Category (itemValues item)

/-- An item whose name and description are both strings that are not blank after trimming. -/
def validItem (item : JsObject) : Bool :=
  validText (item.get "name") && validText (item.get "description")

/-- An item whose name is missing or blank, or whose name is a non-blank string and whose
description is missing or blank. -/
def blankItem (item : JsObject) : Bool :=
  blankText (item.get "name") ||
    (validText (item.get "name") && blankText (item.get "description"))

/-- Reference run of a batch, for comparison with createCategory: the items are created one at
a time in input order, each with its `{ name, description }`, with no validation; the run
stops at the first create that fails, and otherwise returns the created records in input
order. -/
def createEach (db : Db σ) : List JsObject → Eff σ (List CategoryRow)
  | [] => Eff.pure []
  | item :: rest =>
    Eff.bind (call (categoryCreateCall item) (db.Category.create (itemValues item)))
      (fun row => Eff.bind (createEach db rest) (fun rows => Eff.pure (row :: rows)))

/-! ## Observing a run -/

/-- The store calls issued between the world `w` and a later world `w1`, oldest first. -/
def issued (w w1 : World σ) : List StoreCall := w1.log.drop w.log.length

/-- The destroy calls among the calls issued between `w` and `w1`. -/
def destroys (w w1 : World σ) : List StoreCall := (issued w w1).filter StoreCall.isDestroy

/-- The update calls among the calls issued between `w` and `w1`. -/
def updates (w w1 : World σ) : List StoreCall := (issued w w1).filter StoreCall.isUpdate

/-! ## Test doubles

Concrete inputs for the examples: a UUID shape test to stand for the validator's `isUUID`, and
a store double in the style of the mocks of `src/tests/unit/services/*.test.js`, where every
model call resolves with a value fixed in advance. -/

/-- A run of exactly `n` hex digits. -/
def isHexRun (n : Nat) (cs : List Char) : Bool := cs.length == n && cs.all isHexDigit

/-- The shape 8-4-4-4-12 of hex digits, in either case. -/
def uuidShape (s : String) : Bool :=
  match splitChars '-' s.data with
  | [a, b, c, d, e] => isHexRun 8 a && isHexRun 4 b && isHexRun 4 c && isHexRun 4 d && isHexRun 12 e
  | _ => false

/-- The values the mocked model calls resolve with. -/
structure Mock where
  user : Option UserRow
  post : Option PostRow
  comment : Option CommentRow
  category : Option CategoryRow
  affected : Nat
deriving DecidableEq, Repr

/-- The text of a field of a values object, empty when it is not a string. -/
def textOf (values : List (String × JsVal)) (k : String) : String :=
  match values.lookup k with
  | some (.str s) => s
  | _ => ""

/-- The value of a field of a values object. -/
def valueOf (values : List (String × JsVal)) (k : String) : JsVal :=
  match values.lookup k with
  | some v => v
  | none => .undefined

/-- A store double: finds resolve with the mocked rows, updates and destroys with the mocked
affected count, creates with a row made of the values passed; the store has no state. -/
def mockDb (m : Mock) : Db Unit :=
  { User :=
      { create := fun values s =>
          (.ok { user_id := "00000000-0000-4000-8000-000000000001"
                 username := textOf values "username", email := textOf values "email"
                 password := textOf values "password", role := textOf values "role" }, s)
        findAll := fun s => (.ok m.user.toList, s)
        findByPk := fun _ s => (.ok m.user, s)
        findOne := fun _ s => (.ok m.user, s)
        update := fun _ _ s => (.ok m.affected, s)
        destroy := fun _ s => (.ok m.affected, s) }
    Post :=
      { create := fun values s =>
          (.ok { post_id := "00000000-0000-4000-8000-000000000002"
                 author_id := valueOf values "author_id", title := textOf values "title"
                 content := textOf values "content", status := textOf values "status" }, s)
        findAll := fun s => (.ok m.post.toList, s)
        findAllByCategory := fun _ s => (.ok m.post.toList, s)
        findByPk := fun _ s => (.ok m.post, s)
        update := fun _ _ s => (.ok m.affected, s)
        destroy := fun _ s => (.ok m.affected, s) }
    Comment :=
      { create := fun values s =>
          (.ok { comment_id := "00000000-0000-4000-8000-000000000003"
                 post_id := valueOf values "post_id", author_id := valueOf values "author_id"
                 content := textOf values "content", Post := none }, s)
        findAllByPost := fun _ s => (.ok m.comment.toList, s)
        findByPk := fun _ s => (.ok m.comment, s)
        findByPkWithPost := fun _ s => (.ok m.comment, s)
        update := fun _ _ s => (.ok m.affected, s)
        destroy := fun _ s => (.ok m.affected, s) }
    Category :=
      { create := fun values s =>
          (.ok { category_id := 1, name := textOf values "name"
                 description := valueOf values "description" }, s)
        findAll := fun s => (.ok m.category.toList, s)
        findByPk := fun _ s => (.ok m.category, s)
        findOne := fun _ s => (.ok m.category, s)
        update := fun _ _ s => (.ok m.affected, s)
        destroy := fun _ s => (.ok m.affected, s) } }

/-- The world before a request: nothing logged. -/
def world0 : World Unit := { store := (), log := [] }

def aliceId : String := "11111111-1111-4111-8111-111111111111"

def bobId : String := "22222222-2222-4222-8222-222222222222"

def carolId : String := "33333333-3333-4333-8333-333333333333"

def rootId : String := "99999999-9999-4999-8999-999999999999"

def postId1 : String := "123e4567-e89b-12d3-a456-426614174000"

def commentId1 : String := "aaaaaaaa-aaaa-4aaa-8aaa-aaaaaaaaaaaa"

/-- A post written by alice. -/
def alicePost : PostRow :=
  { post_id := postId1, author_id := .str aliceId, title := "Hello", content := "First post"
    status := "draft" }

/-- A comment by bob on the post written by alice, loaded with its parent post. -/
def bobComment : CommentRow :=
  { comment_id := commentId1, post_id := .str postId1, author_id := .str bobId
    content := "Nice", Post := some { author_id := .str aliceId } }

/-- A category with key 1. -/
def newsCategory : CategoryRow :=
  { category_id := 1, name := "News", description := .str "Daily news" }

/-- A store double holding the post written by alice, the comment bob wrote on it and one
category. -/
def blogMock : Mock :=
  { user := none, post := some alicePost, comment := some bobComment
    category := some newsCategory, affected := 1 }

/-- The credentials of alice and bob (role user), carol (role user) and root (role admin). -/
def aliceToken : JsObject := credential 1 aliceId "alice" "user" 0

def bobToken : JsObject := credential 2 bobId "bob" "user" 0

def carolToken : JsObject := credential 3 carolId "carol" "user" 0

def rootToken : JsObject := credential 4 rootId "root" "admin" 0

/-- A token verifier for the examples: the token text names the caller. -/
def verifyDemo (token : String) : Option JsObject :=
  if token = "alice" then some aliceToken
  else if token = "bob" then some bobToken
  else if token = "carol" then some carolToken
  else if token = "root" then some rootToken
  else none

/-- A request with a bearer token, an id parameter and an object body. -/
def requestWith (token id : String) (props : List (String × JsVal)) : Request :=
  { authorization := some ("Bearer " ++ token), id := id
    body := .object { ref := 10, props := props }, user := none }

/-! ## Login: `loginUser` of `src/services/userService.js` -/

/-- The arguments of `jwt.sign(payload, secret, { expiresIn })`, the server's secret apart. -/
structure SignCall where
  payload : List (String × JsVal)
  expiresIn : String
deriving DecidableEq, Repr

/-- The object `{ message, token }` loginUser resolves with. -/
structure LoginResult where
  message : String
  token : String
deriving DecidableEq, Repr

namespace userService

/-- The test `!username?.trim() || !password?.trim()` of loginUser. -/
def missingLogin (username password : JsVal) : Eff σ Bool :=
  Eff.bind (optTrim "username?.trim" username) (fun u =>
    if !u.truthy then Eff.pure true
    else Eff.bind (optTrim "password?.trim" password) (fun p => Eff.pure (!p.truthy)))

/-- The service loginUser. `compareSync` is `bcrypt.compareSync` and `sign` is `jwt.sign` with
the server's secret, both taken as total functions (the contracts of the Secret Hasher and
of the Credential Issuer). A password that passed the trim test is a string. -/
def loginUser (db : Db σ) (compareSync : String → String → Bool) (sign : SignCall → String)
    (username password : JsVal) : Service σ LoginResult :=
  tryCatch (catchDb "Error logging user") do
    let missing ← missingLogin username password
    if missing then
      throwE (.plain 400 "Username and password are required")
    else
      let user ← call (.findOne .User [("username", username)]) (db.User.findOne username)
      match user with
      | none => throwE (.plain 404 "User not found")
      | some user =>
        match password with
        | .str p =>
          if !compareSync p user.password then
            throwE (.plain 401 "Invalid password")
          else
            pure { message := "Login successful"
                   token := sign
                     { payload := [("userId", .str user.user_id),
                         ("username", .str user.username), ("role", .str user.role)]
                       expiresIn := "1h" } }
        | _ => throwE (.typeError "data and hash must be strings")

end userService

/-! ## User requests: `src/controllers/userController.js` and `src/routes/userRoutes.js` -/

/-- What `res.json` writes for a user record: the model instance is serialised with every
attribute of `src/models/User.js`, which defines no scope, getter or `toJSON` that leaves one
out (the timestamps are not part of `UserRow`). -/
def userJSON (user : UserRow) : List (String × JsVal) :=
  [("user_id", .str user.user_id), ("username", .str user.username),
    ("email", .str user.email), ("password", .str user.password), ("role", .str user.role)]

namespace userController

def createUser (db : Db σ) : Handler σ UserRow := fun req w =>
  match userService.createUser db req.body.asObject w with
  | (.ok user, w1) =>
    ({ status := .num 201, message := .str "User created successfully", data := some user }, w1)
  | (.error err, w1) => (errorResponse err, w1)

/-- The controller updateUser. With no `req.user` the service reads a property of `undefined`
right after the id test. -/
def updateUser (db : Db σ) (isUUID : String → Bool) : Handler σ Unit := fun req w =>
  match req.user with
  | some user =>
    match userService.updateUser db isUUID req.id user req.body.asObject w with
    | (.ok response, w1) =>
      ({ status := .num 200, message := .str response.message, data := none }, w1)
    | (.error err, w1) => (errorResponse err, w1)
  | none =>
    if !isUUID req.id then
      ({ status := .num 400, message := .str "Invalid user ID format", data := none }, w)
    else
      ({ status := .num 500
         message := .str "Cannot read properties of undefined (reading 'userId')"
         data := none }, w)

end userController

namespace userRoutes

/-- The route `router.post('/', userController.createUser)`: no middleware. -/
def post (db : Db σ) : Handler σ UserRow := userController.createUser db

/-- The route `router.put('/:id', ...)`. -/
def put (verify : String → Option JsObject) (db : Db σ) (isUUID : String → Bool) :
    Handler σ Unit :=
  authenticateToken verify
    (authorizeRoles ["user", "admin"] (userController.updateUser db isUUID))

end userRoutes

/-! ## The hooks of `src/models/User.js` and `src/models/Post.js` -/

/-- The call `v.trim()` on an attribute of a model instance. -/
def trimText (expr : String) : JsVal → Except Thrown String
  | .str s => .ok (jsTrim s)
  | .undefined => .error (.typeError "Cannot read properties of undefined (reading 'trim')")
  | .null => .error (.typeError "Cannot read properties of null (reading 'trim')")
  | _ => .error (.typeError (expr ++ " is not a function"))

/-- A `User` instance while it is created or updated: its attribute values. -/
structure UserInstance where
  user_id : String
  username : JsVal
  email : JsVal
  password : JsVal
  role : JsVal
deriving DecidableEq, Repr

namespace UserHooks

/-- The hook `beforeCreate` of `src/models/User.js`; `hash` is `bcrypt.hashSync(·, 10)`. -/
def beforeCreate (hash : String → String) (user : UserInstance) : Except Thrown UserInstance := do
  let username ← trimText "user.username.trim" user.username
  let password ← trimText "user.password.trim" user.password
  let email ← trimText "user.email.trim" user.email
  if user.role.truthy then
    let role ← trimText "user.role.trim" user.role
    pure { user with username := .str username, password := .str (hash password)
                     email := .str email, role := .str role }
  else
    pure { user with username := .str username, password := .str (hash password)
                     email := .str email }

/-- The hook `beforeUpdate` of `src/models/User.js`: each attribute of the instance that is
truthy is trimmed, and the password is hashed as well. -/
def beforeUpdate (hash : String → String) (user : UserInstance) : Except Thrown UserInstance := do
  let username ←
    if user.username.truthy then (trimText "user.username.trim" user.username).map JsVal.str
    else pure user.username
  let password ←
    if user.password.truthy then
      (trimText "user.password.trim" user.password).map (fun p => JsVal.str (hash p))
    else pure user.password
  let email ←
    if user.email.truthy then (trimText "user.email.trim" user.email).map JsVal.str
    else pure user.email
  let role ←
    if user.role.truthy then (trimText "user.role.trim" user.role).map JsVal.str
    else pure user.role
  pure { user with username := username, password := password, email := email, role := role }

end UserHooks

/-- A `Post` instance while it is created: its text attributes. -/
structure PostInstance where
  title : JsVal
  content : JsVal
deriving DecidableEq, Repr

namespace PostHooks

/-- The hook `beforeCreate` of `src/models/Post.js`. -/
def beforeCreate (post : PostInstance) : Except Thrown PostInstance := do
  let title ← trimText "post.title.trim" post.title
  let content ← trimText "post.content.trim" post.content
  pure { title := .str title, content := .str content }

end PostHooks

/-! ## An in-memory store

The tables of the four models with the part of the persistence engine the services rely on:
defaults and `allowNull`/`isEmail` validation when an instance is built, then the model's
`beforeCreate` hook, then the insert with its unique indexes. An update with
`individualHooks: true` loads each matching instance, assigns the given values into it, runs
the model's `beforeUpdate` hook on it and writes the instance back. `Category` and `Comment`
define no hooks (`src/models/Category.js`, `src/models/Comment.js`). -/

/-- The tables, and a counter for generated keys. -/
structure Mem where
  users : List UserRow
  posts : List PostRow
  comments : List CommentRow
  categories : List CategoryRow
  fresh : Nat
deriving DecidableEq, Repr

/-- The library functions the models use: `bcrypt.hashSync(·, 10)`, the `isEmail` validator
and the generator of UUID keys. -/
structure Lib where
  hash : String → String
  isEmail : String → Bool
  newId : Nat → String

/-- An attribute value that is not a string. -/
def notText : JsVal → Bool
  | .str _ => false
  | _ => true

/-- The text of an attribute value. -/
def JsVal.text : JsVal → String
  | .str s => s
  | _ => ""

/-- The value assigned into an instance by an update: the given one when the values carry the
attribute, the stored one otherwise. -/
def assigned (values : List (String × JsVal)) (k : String) (stored : String) : JsVal :=
  match values.lookup k with
  | some v => v
  | none => .str stored

/-- The attributes of a `User` instance that fail validation: `allowNull: false` on each, and
`isEmail` on the email. -/
def userInvalid (L : Lib) (user : UserInstance) : List String :=
  (if notText user.username then ["username"] else []) ++
  (if notText user.email || !L.isEmail user.email.text then ["email"] else []) ++
  (if notText user.password then ["password"] else []) ++
  (if notText user.role then ["role"] else [])

/-- The row an instance is written as. -/
def UserInstance.row (user : UserInstance) : UserRow :=
  { user_id := user.user_id, username := user.username.text, email := user.email.text
    password := user.password.text, role := user.role.text }

/-- The unique index a row violates among the other rows, if any: the primary key, then the
indexes on email and on username. -/
def userConflict (others : List UserRow) (row : UserRow) : List String :=
  if others.any (fun r => r.user_id == row.user_id) then ["user_id"]
  else if others.any (fun r => r.email == row.email) then ["email"]
  else if others.any (fun r => r.username == row.username) then ["username"]
  else []

/-- The write of a `User` instance after its hook has run: the role must be one of the
enumerated values and no unique index may be violated among `others`. -/
def userWrite (others : List UserRow) (user : UserInstance) : Except Thrown UserRow :=
  if notText user.username || notText user.email || notText user.password ||
      !(userService.validRoles.contains user.role) then
    .error (.database "Data truncated or invalid value for a column")
  else
    match userConflict others user.row with
    | [] => .ok user.row
    | paths => .error (.uniqueConstraint paths "Validation error")

/-- The call `User.create(values)`. -/
def memUserCreate (L : Lib) (values : List (String × JsVal)) : StoreOp Mem UserRow := fun s =>
  let built : UserInstance :=
    { user_id := L.newId s.fresh
      username := valueOf values "username", email := valueOf values "email"
      password := valueOf values "password"
      role := match valueOf values "role" with
        | .undefined => .str "user"
        | r => r }
  match userInvalid L built with
  | [] =>
    match UserHooks.beforeCreate L.hash built with
    | .error e => (.error e, s)
    | .ok user =>
      match userWrite s.users user with
      | .error e => (.error e, s)
      | .ok row => (.ok row, { s with users := s.users ++ [row], fresh := s.fresh + 1 })
  | paths => (.error (.validation paths "Validation error"), s)

/-- The attributes among the values given to an update that fail validation; the attributes
not given are skipped. -/
def userGivenInvalid (L : Lib) (values : List (String × JsVal)) : List String :=
  (match values.lookup "username" with
   | some v => if notText v then ["username"] else []
   | none => []) ++
  (match values.lookup "email" with
   | some v => if notText v || !L.isEmail v.text then ["email"] else []
   | none => []) ++
  (match values.lookup "password" with
   | some v => if notText v then ["password"] else []
   | none => []) ++
  (match values.lookup "role" with
   | some v => if notText v then ["role"] else []
   | none => [])

/-- The call `User.update(values, { where: { user_id: id }, individualHooks: true })`: the
given values are validated, the matching row is loaded as an instance, the values are assigned
into it, `beforeUpdate` runs on the instance, and the instance is written back. -/
def memUserUpdate (L : Lib) (values : List (String × JsVal)) (id : String) : StoreOp Mem Nat :=
  fun s =>
    match userGivenInvalid L values with
    | [] =>
      match s.users.find? (fun r => r.user_id == id) with
      | none => (.ok 0, s)
      | some stored =>
        let loaded : UserInstance :=
          { user_id := stored.user_id
            username := assigned values "username" stored.username
            email := assigned values "email" stored.email
            password := assigned values "password" stored.password
            role := assigned values "role" stored.role }
        match UserHooks.beforeUpdate L.hash loaded with
        | .error e => (.error e, s)
        | .ok user =>
          match userWrite (s.users.filter (fun r => r.user_id != id)) user with
          | .error e => (.error e, s)
          | .ok row =>
            (.ok 1,
              { s with users := s.users.map (fun r => if r.user_id == id then row else r) })
    | paths => (.error (.validation paths "Validation error"), s)

/-- The model `db.User` on the in-memory store. -/
def memUser (L : Lib) : UserModel Mem :=
  { create := memUserCreate L
    findAll := fun s => (.ok s.users, s)
    findByPk := fun id s => (.ok (s.users.find? (fun r => r.user_id == id)), s)
    findOne := fun username s =>
      (.ok (s.users.find? (fun r => JsVal.str r.username == username)), s)
    update := memUserUpdate L
    destroy := fun id s =>
      (.ok (s.users.filter (fun r => r.user_id == id)).length,
        { s with users := s.users.filter (fun r => r.user_id != id) }) }

/-- The model `db.Post` on the in-memory store: `create` runs `beforeCreate`; `update` is
called without `individualHooks`, so no instance hook runs and the text values given are
written as they are. -/
def memPost (L : Lib) : PostModel Mem :=
  { create := fun values s =>
      if notText (valueOf values "title") then
        (.error (.validation ["title"] "Validation error"), s)
      else
        match PostHooks.beforeCreate
            { title := valueOf values "title", content := valueOf values "content" } with
        | .error e => (.error e, s)
        | .ok post =>
          let status := match valueOf values "status" with
            | .undefined => .str "draft"
            | v => v
          if !(postService.validPostStatus.contains status) then
            (.error (.database "Data truncated or invalid value for a column"), s)
          else
            let row : PostRow :=
              { post_id := L.newId s.fresh, author_id := valueOf values "author_id"
                title := post.title.text, content := post.content.text, status := status.text }
            (.ok row, { s with posts := s.posts ++ [row], fresh := s.fresh + 1 })
    findAll := fun s => (.ok s.posts, s)
    findAllByCategory := fun _ s => (.ok [], s)
    findByPk := fun id s => (.ok (s.posts.find? (fun r => r.post_id == id)), s)
    update := fun values id s =>
      (.ok (s.posts.filter (fun r => r.post_id == id)).length,
        { s with posts := s.posts.map (fun r =>
            if r.post_id == id then
              { r with title := (assigned values "title" r.title).text
                       content := (assigned values "content" r.content).text
                       status := (assigned values "status" r.status).text }
            else r) })
    destroy := fun id s =>
      (.ok (s.posts.filter (fun r => r.post_id == id)).length,
        { s with posts := s.posts.filter (fun r => r.post_id != id) }) }

/-- The parent post of a comment, as loaded by the include. -/
def parentOf (s : Mem) (c : CommentRow) : Option PostInclude :=
  (s.posts.find? (fun p => JsVal.str p.post_id == c.post_id)).map
    (fun p => { author_id := p.author_id })

/-- The model `db.Comment` on the in-memory store; it has no hooks, the content is written as
given. -/
def memComment (L : Lib) : CommentModel Mem :=
  { create := fun values s =>
      if notText (valueOf values "content") then
        (.error (.validation ["content"] "Validation error"), s)
      else
        let row : CommentRow :=
          { comment_id := L.newId s.fresh, post_id := valueOf values "post_id"
            author_id := valueOf values "author_id", content := (valueOf values "content").text
            Post := none }
        (.ok row, { s with comments := s.comments ++ [row], fresh := s.fresh + 1 })
    findAllByPost := fun post_id s =>
      (.ok (s.comments.filter (fun c => c.post_id == .str post_id)), s)
    findByPk := fun id s => (.ok (s.comments.find? (fun c => c.comment_id == id)), s)
    findByPkWithPost := fun id s =>
      (.ok ((s.comments.find? (fun c => c.comment_id == id)).map
        (fun c => { c with Post := parentOf s c })), s)
    update := fun values id s =>
      (.ok (s.comments.filter (fun c => c.comment_id == id)).length,
        { s with comments := s.comments.map (fun c =>
            if c.comment_id == id then
              { c with content := (assigned values "content" c.content).text }
            else c) })
    destroy := fun id s =>
      (.ok (s.comments.filter (fun c => c.comment_id == id)).length,
        { s with comments := s.comments.filter (fun c => c.comment_id != id) }) }

/-- The category a key given as text denotes. -/
def hasKey (id : String) (c : CategoryRow) : Bool := jsParseInt id == some c.category_id

/-- The model `db.Category` on the in-memory store; it has no hooks, the name and the
description are written as given, and the name is unique. -/
def memCategory : CategoryModel Mem :=
  { create := fun values s =>
      if notText (valueOf values "name") then
        (.error (.validation ["name"] "Validation error"), s)
      else if s.categories.any (fun c => c.name == (valueOf values "name").text) then
        (.error (.uniqueConstraint ["name"] "Validation error"), s)
      else
        let row : CategoryRow :=
          { category_id := (s.fresh : Int) + 1, name := (valueOf values "name").text
            description := valueOf values "description" }
        (.ok row, { s with categories := s.categories ++ [row], fresh := s.fresh + 1 })
    findAll := fun s => (.ok s.categories, s)
    findByPk := fun id s => (.ok (s.categories.find? (hasKey id)), s)
    findOne := fun name s => (.ok (s.categories.find? (fun c => JsVal.str c.name == name)), s)
    update := fun values id s =>
      if s.categories.any (fun c => !hasKey id c &&
          JsVal.str c.name == valueOf values "name") then
        (.error (.uniqueConstraint ["name"] "Validation error"), s)
      else
        (.ok (s.categories.filter (hasKey id)).length,
          { s with categories := s.categories.map (fun c =>
              if hasKey id c then
                { c with name := (assigned values "name" c.name).text
                         description :=
                           match values.lookup "description" with
                           | some v => v
                           | none => c.description }
              else c) })
    destroy := fun id s =>
      (.ok (s.categories.filter (hasKey id)).length,
        { s with categories := s.categories.filter (fun c => !hasKey id c) }) }

/-- The module `db` on the in-memory store. -/
def memDb (L : Lib) : Db Mem :=
  { User := memUser L, Post := memPost L, Comment := memComment L, Category := memCategory }

/-- The empty store. -/
def mem0 : Mem := { users := [], posts := [], comments := [], categories := [], fresh := 0 }

/-- The world before a request on the empty store. -/
def memWorld0 : World Mem := { store := mem0, log := [] }

/-! ## Stand-ins for the libraries, for the examples -/

/-- A hasher for the examples: the digest is the plaintext behind a marker, so that it
verifies exactly the plaintext it hashed. -/
def demoHash (plain : String) : String := "$2b$10$" ++ plain

/-- The verification that goes with `demoHash`. -/
def demoCompare (plain digest : String) : Bool := digest == demoHash plain

/-- An email test for the examples: one `@`, no white space. -/
def demoIsEmail (s : String) : Bool :=
  (s.data.filter (fun c => c == '@')).length == 1 && !s.data.any isJsWhiteSpace

/-- Generated keys for the examples. -/
def demoId (n : Nat) : String :=
  if n = 0 then "00000000-0000-4000-8000-000000000000"
  else if n = 1 then "00000000-0000-4000-8000-000000000001"
  else "00000000-0000-4000-8000-00000000ffff"

def demoLib : Lib := { hash := demoHash, isEmail := demoIsEmail, newId := demoId }

/-- A signer for the examples: the token lists the claims it was given. -/
def demoSign (c : SignCall) : String :=
  "token(" ++ ", ".intercalate (c.payload.map (fun kv => kv.1 ++ "=" ++ kv.2.text)) ++
    "; " ++ c.expiresIn ++ ")"

/-- A store double in the style of `mockRejectedValue`: the finds reject with `findFault` when
it is given, the creates, updates and destroys reject with `writeFault` when it is given, and
every other call resolves as in `mockDb`. -/
def faultyDb (m : Mock) (findFault writeFault : Option Thrown) : Db Unit :=
  let find {α : Type} (op : StoreOp Unit α) : StoreOp Unit α := fun s =>
    match findFault with
    | some e => (.error e, s)
    | none => op s
  let write {α : Type} (op : StoreOp Unit α) : StoreOp Unit α := fun s =>
    match writeFault with
    | some e => (.error e, s)
    | none => op s
  { User :=
      { create := fun values => write ((mockDb m).User.create values)
        findAll := find (mockDb m).User.findAll
        findByPk := fun id => find ((mockDb m).User.findByPk id)
        findOne := fun u => find ((mockDb m).User.findOne u)
        update := fun values id => write ((mockDb m).User.update values id)
        destroy := fun id => write ((mockDb m).User.destroy id) }
    Post :=
      { create := fun values => write ((mockDb m).Post.create values)
        findAll := find (mockDb m).Post.findAll
        findAllByCategory := fun c => find ((mockDb m).Post.findAllByCategory c)
        findByPk := fun id => find ((mockDb m).Post.findByPk id)
        update := fun values id => write ((mockDb m).Post.update values id)
        destroy := fun id => write ((mockDb m).Post.destroy id) }
    Comment :=
      { create := fun values => write ((mockDb m).Comment.create values)
        findAllByPost := fun p => find ((mockDb m).Comment.findAllByPost p)
        findByPk := fun id => find ((mockDb m).Comment.findByPk id)
        findByPkWithPost := fun id => find ((mockDb m).Comment.findByPkWithPost id)
        update := fun values id => write ((mockDb m).Comment.update values id)
        destroy := fun id => write ((mockDb m).Comment.destroy id) }
    Category :=
      { create := fun values => write ((mockDb m).Category.create values)
        findAll := find (mockDb m).Category.findAll
        findByPk := fun id => find ((mockDb m).Category.findByPk id)
        findOne := fun n => find ((mockDb m).Category.findOne n)
        update := fun values id => write ((mockDb m).Category.update values id)
        destroy := fun id => write ((mockDb m).Category.destroy id) } }

/-! ## Basic facts about the effect layer -/

@[simp] theorem bind_eq (m : Eff σ α) (f : α → Eff σ β) : (m >>= f) = Eff.bind m f := rfl

@[simp] theorem pure_eq (a : α) : (pure a : Eff σ α) = Eff.pure a := rfl

theorem issued_append (w : World σ) (s1 : σ) (cs : List StoreCall) :
    issued w { store := s1, log := w.log ++ cs } = cs := by
  simp [issued]

theorem issued_self (w : World σ) : issued w w = [] := by
  simp [issued]

/-! ## Post update and delete: who may do it -/

/-- C1 (code evaluated at the failing input): an admin who is not the author of a post, with a
credential of the shape loginUser signs and a valid payload, is rejected by updatePost with
403, after the lookup and without any update being issued; the author, with the same payload,
is allowed. -/
theorem updatePost_admin_credential_rejected :
    postService.updatePost (mockDb blogMock) uuidShape postId1 rootToken
        { ref := 11, props := [("title", .str "New title")] } world0 =
      (.error { status := .num 403, message := .str "You are not authorized to update this post" },
        { store := (), log := [.findByPk .Post postId1 false] }) ∧
    (postService.updatePost (mockDb blogMock) uuidShape postId1 aliceToken
        { ref := 11, props := [("title", .str "New title")] } world0).1 =
      .ok { message := "Post updated successfully" } := by
  constructor <;> rfl

/-! ## Comment update: who may do it -/

/-- C2 (code evaluated at the failing input): an admin who is not the author of a comment, with
a credential of the shape loginUser signs and a non-blank content, is rejected by
updateComment with 403 and no update is issued; the author, with the same content, is
allowed. -/
theorem updateComment_admin_credential_rejected :
    commentService.updateComment (mockDb blogMock) uuidShape commentId1
        { ref := 11, props := [("content", .str "Edited")] } rootToken world0 =
      (.error { status := .num 403,
                message := .str "You are not authorized to update this comment" },
        { store := (), log := [.findByPk .Comment commentId1 false] }) ∧
    (commentService.updateComment (mockDb blogMock) uuidShape commentId1
        { ref := 11, props := [("content", .str "Edited")] } bobToken world0).1 =
      .ok (some bobComment) := by
  constructor <;> rfl

/-! ## Comment delete through the request path -/

/-- C3 (code evaluated at the failing input): on the delete-comment route, for the comment bob
wrote on the post of alice, every caller is answered 403 and no destroy is issued: alice (the
post's author) and bob (the comment's author) by the role guard, before the service is called,
root (an admin) by the service, which receives the whole `req.user` object as `userId` and no
role, and carol (none of these) by the role guard. -/
theorem deleteComment_route_rejects_everyone :
    commentRoutes.delete verifyDemo (mockDb blogMock) uuidShape
        (requestWith "alice" commentId1 []) world0 =
      ({ status := .num 403, message := .str "Access denied", data := none }, world0) ∧
    commentRoutes.delete verifyDemo (mockDb blogMock) uuidShape
        (requestWith "bob" commentId1 []) world0 =
      ({ status := .num 403, message := .str "Access denied", data := none }, world0) ∧
    commentRoutes.delete verifyDemo (mockDb blogMock) uuidShape
        (requestWith "root" commentId1 []) world0 =
      ({ status := .num 403, message := .str "You are not authorized to delete this comment"
         data := none },
        { store := (), log := [.findByPk .Comment commentId1 true] }) ∧
    commentRoutes.delete verifyDemo (mockDb blogMock) uuidShape
        (requestWith "carol" commentId1 []) world0 =
      ({ status := .num 403, message := .str "Access denied", data := none }, world0) := by
  refine ⟨?_, ?_, ?_, ?_⟩ <;> rfl

/-! ## Comment delete in the service -/

/-- C4: for a comment id of UUID shape whose comment exists and was loaded with its parent
post, deleteComment rejects with 403 'You are not authorized to delete this comment' and
issues no destroy if and only if userId differs from the comment's author_id, userRole is not
'admin' and userId differs from the parent post's author_id; otherwise it issues exactly one
destroy, for that comment_id, and resolves with the message 'Comment deleted' once the destroy
has resolved. -/
theorem deleteComment_authorization (db : Db σ) (isUUID : String → Bool) (commentId : String)
    (userId userRole : JsVal) (w : World σ) (comment : CommentRow) (post : PostInclude) (s1 : σ)
    (hne : commentId ≠ "") (hid : isUUID commentId = true)
    (hfind : db.Comment.findByPkWithPost commentId w.store = (.ok (some comment), s1))
    (hpost : comment.Post = some post) :
    (((commentService.deleteComment db isUUID commentId userId userRole w).1 =
          .error { status := .num 403,
                   message := .str "You are not authorized to delete this comment" } ∧
        destroys w (commentService.deleteComment db isUUID commentId userId userRole w).2 = []) ↔
      (userId ≠ comment.author_id ∧ userRole ≠ .str "admin" ∧ userId ≠ post.author_id)) ∧
    (¬ (userId ≠ comment.author_id ∧ userRole ≠ .str "admin" ∧ userId ≠ post.author_id) →
      destroys w (commentService.deleteComment db isUUID commentId userId userRole w).2 =
          [.destroy .Comment [("comment_id", .str commentId)]] ∧
        ∀ n s2, db.Comment.destroy commentId s1 = (.ok n, s2) →
          (commentService.deleteComment db isUUID commentId userId userRole w).1 =
            .ok { message := "Comment deleted" }) := by
  have key : ¬ (userId ≠ comment.author_id ∧ userRole ≠ .str "admin" ∧ userId ≠ post.author_id) →
      destroys w (commentService.deleteComment db isUUID commentId userId userRole w).2 =
          [.destroy .Comment [("comment_id", .str commentId)]] ∧
        ∀ n s2, db.Comment.destroy commentId s1 = (.ok n, s2) →
          (commentService.deleteComment db isUUID commentId userId userRole w).1 =
            .ok { message := "Comment deleted" } := by
    intro hc
    rcases hd : db.Comment.destroy commentId s1 with ⟨r, s2⟩
    by_cases h1 : userId = comment.author_id
    · cases r <;>
        simp [commentService.deleteComment, tryCatch, Eff.bind, Eff.pure, call, throwE, hne, hid,
          hfind, JsVal.strictNe, h1, hd, destroys, issued, StoreCall.isDestroy]
    · by_cases h2 : userRole = .str "admin"
      · cases r <;>
          simp [commentService.deleteComment, tryCatch, Eff.bind, Eff.pure, call, throwE, hne,
            hid, hfind, JsVal.strictNe, h1, h2, hd, destroys, issued, StoreCall.isDestroy]
      · have h3 : userId = post.author_id := by
          by_contra h3
          exact hc ⟨h1, h2, h3⟩
        cases r <;>
          simp [commentService.deleteComment, commentService.parentAuthor, tryCatch, Eff.bind,
            Eff.pure, call, throwE, hne, hid, hfind, hpost, JsVal.strictNe, h1, h2, h3.symm, hd,
            destroys, issued, StoreCall.isDestroy]
  refine ⟨⟨?_, ?_⟩, key⟩
  · intro hrej
    by_contra hc
    have := (key hc).1
    rw [hrej.2] at this
    exact absurd this (by simp)
  · rintro ⟨h1, h2, h3⟩
    simp [commentService.deleteComment, commentService.parentAuthor, tryCatch, Eff.bind,
      Eff.pure, call, throwE, hne, hid, hfind, hpost, JsVal.strictNe, h1, h2, h3, destroys,
      issued, StoreCall.isDestroy, catchDb, rethrow, jsOr, JsVal.truthy, Thrown.plain,
      Thrown.status, Thrown.message]

/-- C4, at a concrete input: carol, who wrote neither the comment nor the post and is not an
admin, is rejected with 403 and no destroy is issued. -/
theorem deleteComment_authorization_witness :
    commentId1 ≠ "" ∧ uuidShape commentId1 = true ∧
    (commentService.deleteComment (mockDb blogMock) uuidShape commentId1 (.str carolId)
        (.str "user") world0).1 =
      .error { status := .num 403,
               message := .str "You are not authorized to delete this comment" } ∧
    destroys world0 (commentService.deleteComment (mockDb blogMock) uuidShape commentId1
        (.str carolId) (.str "user") world0).2 = [] :=
  ⟨by decide, by decide,
    ((deleteComment_authorization (mockDb blogMock) uuidShape commentId1 (.str carolId)
      (.str "user") world0 bobComment { author_id := .str aliceId } () (by decide) (by decide)
      rfl rfl).1.2 ⟨by decide, by decide, by decide⟩)⟩

/-! ## Post delete -/

/-- C5: for a post id of UUID shape, deletePost rejects with 404 and issues no destroy when the
lookup finds no post; rejects with 403 and issues no destroy when the post exists, the caller's
userId differs from its author_id and the caller's role is not admin; and otherwise issues
exactly one destroy, for that post_id, and resolves with status 204 and message
'Post deleted' once the destroy has resolved. -/
theorem deletePost_outcomes (db : Db σ) (isUUID : String → Bool) (postId : String)
    (user : JsObject) (w : World σ) (hne : postId ≠ "") (hid : isUUID postId = true) :
    (∀ s1, db.Post.findByPk postId w.store = (.ok none, s1) →
      (postService.deletePost db isUUID postId user w).1 =
          .error { status := .num 404, message := .str "Post not found" } ∧
        destroys w (postService.deletePost db isUUID postId user w).2 = []) ∧
    (∀ post s1, db.Post.findByPk postId w.store = (.ok (some post), s1) →
      user.get "userId" ≠ post.author_id → user.get "role" ≠ .str "admin" →
      (postService.deletePost db isUUID postId user w).1 =
          .error { status := .num 403,
                   message := .str "You are not authorized to delete this post" } ∧
        destroys w (postService.deletePost db isUUID postId user w).2 = []) ∧
    (∀ post s1, db.Post.findByPk postId w.store = (.ok (some post), s1) →
      (user.get "userId" = post.author_id ∨ user.get "role" = .str "admin") →
      destroys w (postService.deletePost db isUUID postId user w).2 =
          [.destroy .Post [("post_id", .str postId)]] ∧
        ∀ n s2, db.Post.destroy postId s1 = (.ok n, s2) →
          (postService.deletePost db isUUID postId user w).1 =
            .ok { status := 204, message := "Post deleted" }) := by
  refine ⟨?_, ?_, ?_⟩
  · intro s1 h
    simp [postService.deletePost, tryCatch, Eff.bind, call, throwE, hne, hid, h, catchDb,
      Thrown.plain, rethrow, jsOr, JsVal.truthy, Thrown.status, Thrown.message, destroys, issued,
      StoreCall.isDestroy]
  · intro post s1 h h1 h2
    simp [postService.deletePost, tryCatch, Eff.bind, call, throwE, hne, hid, h, catchDb,
      Thrown.plain, rethrow, jsOr, JsVal.truthy, Thrown.status, Thrown.message, JsVal.strictNe,
      h1, h2, destroys, issued, StoreCall.isDestroy]
  · intro post s1 h h1
    rcases hd : db.Post.destroy postId s1 with ⟨r, s2⟩
    rcases h1 with h1 | h1 <;> cases r <;>
      simp [postService.deletePost, tryCatch, Eff.bind, Eff.pure, call, throwE, hne, hid, h,
        JsVal.strictNe, h1, hd, destroys, issued, StoreCall.isDestroy]

/-- C5, at a concrete input: alice deletes her own post; one destroy is issued and the result is
status 204 with message 'Post deleted'. -/
theorem deletePost_outcomes_witness :
    postId1 ≠ "" ∧ uuidShape postId1 = true ∧
    destroys world0 (postService.deletePost (mockDb blogMock) uuidShape postId1 aliceToken
        world0).2 = [.destroy .Post [("post_id", .str postId1)]] ∧
    (postService.deletePost (mockDb blogMock) uuidShape postId1 aliceToken world0).1 =
      .ok { status := 204, message := "Post deleted" } :=
  ⟨by decide, by decide,
    ((deletePost_outcomes (mockDb blogMock) uuidShape postId1 aliceToken world0 (by decide)
      (by decide)).2.2 alicePost () rfl (Or.inl rfl)).1,
    ((deletePost_outcomes (mockDb blogMock) uuidShape postId1 aliceToken world0 (by decide)
      (by decide)).2.2 alicePost () rfl (Or.inl rfl)).2 1 () rfl⟩

/-! ## User update: the authorization check -/

/-- C6 (counterexample): carol, who is not an admin, updating the record of alice is rejected
with status 400, not 403. -/
theorem updateUser_unauthorized_status_not_403 :
    (userService.updateUser (mockDb blogMock) uuidShape aliceId carolToken
        { ref := 11, props := [("email", .str "carol@example.com")] } world0).1 =
      .error { status := .num 400, message := .str "You are not authorized to update this user" } ∧
    ¬ ∃ m, (userService.updateUser (mockDb blogMock) uuidShape aliceId carolToken
        { ref := 11, props := [("email", .str "carol@example.com")] } world0).1 =
      .error { status := .num 403, message := m } := by
  have h : (userService.updateUser (mockDb blogMock) uuidShape aliceId carolToken
        { ref := 11, props := [("email", .str "carol@example.com")] } world0).1 =
      .error { status := .num 400, message := .str "You are not authorized to update this user" } :=
    rfl
  refine ⟨h, ?_⟩
  rintro ⟨m, hm⟩
  rw [h] at hm
  simp at hm

/-- C6 (amended): for a target id of UUID shape and a caller whose userId differs from the
target id and whose role is not admin, updateUser is rejected with status 400 and the message
'You are not authorized to update this user'. -/
theorem updateUser_unauthorized_status_400 (db : Db σ) (isUUID : String → Bool) (id : String)
    (user userData : JsObject) (w : World σ) (hid : isUUID id = true)
    (h1 : user.get "userId" ≠ .str id) (h2 : user.get "role" ≠ .str "admin") :
    (userService.updateUser db isUUID id user userData w).1 =
      .error { status := .num 400, message := .str "You are not authorized to update this user" } := by
  simp [userService.updateUser, tryCatch, Eff.bind, throwE, hid, h1, h2, JsVal.strictNe,
    catchFull, Thrown.plain, rethrow, jsOr, JsVal.truthy, Thrown.status, Thrown.message]

/-- C6 (amended), at a concrete input: bob updating the record of alice. -/
theorem updateUser_unauthorized_status_400_witness :
    uuidShape aliceId = true ∧ bobToken.get "userId" ≠ .str aliceId ∧
    bobToken.get "role" ≠ .str "admin" ∧
    (userService.updateUser (mockDb blogMock) uuidShape aliceId bobToken
        { ref := 11, props := [("role", .str "admin")] } world0).1 =
      .error { status := .num 400, message := .str "You are not authorized to update this user" } :=
  ⟨by decide, by decide, by decide,
    updateUser_unauthorized_status_400 (mockDb blogMock) uuidShape aliceId bobToken
      { ref := 11, props := [("role", .str "admin")] } world0 (by decide) (by decide) (by decide)⟩

/-! ## User update: authorization comes first -/

theorem optTrim_cases (expr : String) (v : JsVal) (w : World σ) :
    (∃ t, optTrim expr v w = (.ok t, w)) ∨
      optTrim expr v w = (.error (.typeError (expr ++ " is not a function")), w) := by
  cases v <;> simp [optTrim, Eff.pure, throwE]

theorem hasText_cases (expr : String) (data : JsObject) (field : String) (w : World σ) :
    (∃ b, hasText expr data field w = (.ok b, w)) ∨
      hasText expr data field w = (.error (.typeError (expr ++ " is not a function")), w) := by
  rcases optTrim_cases expr (data.get field) w with ⟨t, ht⟩ | ht <;>
    simp [hasText, Eff.bind, Eff.pure, ht]

theorem someM_hasText_cases (expr : String) (data : JsObject) (fields : List String)
    (w : World σ) :
    (∃ b, someM (hasText expr data) fields w = (.ok b, w)) ∨
      someM (hasText expr data) fields w =
        (.error (.typeError (expr ++ " is not a function")), w) := by
  induction fields with
  | nil => simp [someM, Eff.pure]
  | cons f fs ih =>
    rcases hasText_cases expr data f w with ⟨b, hb⟩ | hb
    · cases b
      · simpa [someM, Eff.bind, hb] using ih
      · simp [someM, Eff.bind, Eff.pure, hb]
    · simp [someM, Eff.bind, hb]

theorem checkBlankField_cases (fieldName : String) (value : JsVal) (w : World σ) :
    userService.checkBlankField fieldName value w = (.ok (), w) ∨
      (∃ e, userService.checkBlankField fieldName value w = (.error (.typeError e), w)) ∨
      userService.checkBlankField fieldName value w =
        (.error (.plain 400 (fieldName ++ " cannot be blank")), w) := by
  unfold userService.checkBlankField
  by_cases ht : value.truthy = true
  · rw [if_pos ht]
    cases value with
    | str s =>
      by_cases hb : (JsVal.str (jsTrim s)).truthy = true <;>
        simp [trimCall, Eff.bind, Eff.pure, throwE, hb]
    | _ => simp [trimCall, Eff.bind, Eff.pure, throwE]
  · rw [if_neg ht]
    simp [Eff.pure]

theorem forEach_checkBlankField_cases (data : JsObject) (fields : List String) (w : World σ) :
    forEachM (fun field => userService.checkBlankField field (data.get field)) fields w =
        (.ok (), w) ∨
      (∃ e, forEachM (fun field => userService.checkBlankField field (data.get field)) fields w =
        (.error (.typeError e), w)) ∨
      (∃ f, f ∈ fields ∧
        forEachM (fun field => userService.checkBlankField field (data.get field)) fields w =
          (.error (.plain 400 (f ++ " cannot be blank")), w)) := by
  induction fields with
  | nil => simp [forEachM, Eff.pure]
  | cons f fs ih =>
    rcases checkBlankField_cases f (data.get f) w with h | ⟨e, h⟩ | h
    · rcases ih with ih | ⟨e, ih⟩ | ⟨g, hg, ih⟩
      · left; simp [forEachM, Eff.bind, h, ih]
      · right; left; exact ⟨e, by simp [forEachM, Eff.bind, h, ih]⟩
      · right; right; exact ⟨g, List.mem_cons_of_mem _ hg, by simp [forEachM, Eff.bind, h, ih]⟩
    · right; left; exact ⟨e, by simp [forEachM, Eff.bind, h]⟩
    · right; right; exact ⟨f, List.mem_cons_self _ _, by simp [forEachM, Eff.bind, h]⟩

/-- C7: for a target id of UUID shape, updateUser rejects with status 400 and message
'You are not authorized to update this user', with the store untouched and no call issued,
exactly when the caller's userId differs from the id and the caller's role is not 'admin',
whatever the payload: the authorization check is decided before any validation of the
payload. -/
theorem updateUser_authorization_first (db : Db σ) (isUUID : String → Bool) (id : String)
    (user userData : JsObject) (w : World σ) (hid : isUUID id = true) :
    userService.updateUser db isUUID id user userData w =
        (.error { status := .num 400,
                  message := .str "You are not authorized to update this user" }, w) ↔
      (user.get "userId" ≠ .str id ∧ user.get "role" ≠ .str "admin") := by
  constructor
  · intro h
    by_contra hc
    have hden : ((user.get "userId").strictNe (.str id) &&
        (user.get "role").strictNe (.str "admin")) = false := by
      simp only [JsVal.strictNe, Bool.and_eq_false_iff, bne_eq_false_iff_eq]
      by_cases h1 : user.get "userId" = .str id
      · exact Or.inl h1
      · right
        by_contra h2
        exact hc ⟨h1, h2⟩
    revert h
    simp only [userService.updateUser, tryCatch, bind_eq, pure_eq, Eff.bind, hid, hden,
      Bool.not_true, Bool.false_eq_true, if_false]
    rcases someM_hasText_cases "userData[field]?.trim" userData userService.requiredFields w
      with ⟨b, hb⟩ | hb
    · rw [hb]
      cases b
      · simp [throwE, catchFull, Thrown.plain, rethrow, jsOr, JsVal.truthy, Thrown.status,
          Thrown.message]
      · simp only [Bool.not_true, Bool.false_eq_true, if_false, Eff.bind]
        rcases forEach_checkBlankField_cases userData ["username", "password", "email", "role"] w
          with hf | ⟨e, hf⟩ | ⟨f, hmem, hf⟩
        · rw [hf]
          simp only []
          by_cases hr : ((userData.get "role").truthy &&
              !userService.validRoles.contains (userData.get "role")) = true
          · rw [if_pos hr]
            simp [throwE, catchFull, Thrown.plain, rethrow, jsOr, JsVal.truthy,
              Thrown.status, Thrown.message]
          · rw [if_neg hr]
            rcases hu : db.User.update userData.props id w.store with ⟨r, s1⟩
            intro h
            have hlog := congrArg (fun p => p.2.log.length) h
            revert hlog
            cases r with
            | error e => simp [Eff.bind, call, hu]
            | ok n =>
              by_cases hn : (n == 0) = true <;>
                simp [Eff.bind, call, hu, hn, throwE, Eff.pure]
        · rw [hf]
          simp [catchFull, Thrown.typeError, rethrow, jsOr, JsVal.truthy, Thrown.status]
        · rw [hf]
          simp only [List.mem_cons, List.mem_singleton, List.not_mem_nil, or_false] at hmem
          rcases hmem with rfl | rfl | rfl | rfl <;>
            simp [catchFull, Thrown.plain, rethrow, jsOr, JsVal.truthy, Thrown.status,
              Thrown.message]
    · rw [hb]
      simp [catchFull, Thrown.typeError, rethrow, jsOr, JsVal.truthy, Thrown.status]
  · rintro ⟨h1, h2⟩
    simp [userService.updateUser, tryCatch, Eff.bind, throwE, hid, h1, h2, JsVal.strictNe,
      catchFull, Thrown.plain, rethrow, jsOr, JsVal.truthy, Thrown.status, Thrown.message]

/-- C7, at a concrete input: bob updating the record of alice with a payload that is blank and
carries an invalid role is rejected by the authorization check, and nothing is issued. -/
theorem updateUser_authorization_first_witness :
    uuidShape aliceId = true ∧
    userService.updateUser (mockDb blogMock) uuidShape aliceId bobToken
        { ref := 11, props := [("username", .str "  "), ("role", .str "owner")] } world0 =
      (.error { status := .num 400,
                message := .str "You are not authorized to update this user" }, world0) :=
  ⟨by decide,
    (updateUser_authorization_first (mockDb blogMock) uuidShape aliceId bobToken
      { ref := 11, props := [("username", .str "  "), ("role", .str "owner")] } world0
      (by decide)).2 ⟨by decide, by decide⟩⟩

/-! ## The role guard -/

/-- C8: for an authenticated caller (the bearer token verifies to the payload `user`), the
Category create, update and delete requests are answered 403 'Access denied' with the store
untouched and no call issued when the caller's role is not admin, and are handed to the
controller, with `req.user` set, when it is admin; in general `authorizeRoles(roles)` hands
the request to the next handler exactly when the caller's role is one of `roles`, and answers
403 'Access denied' otherwise, whatever the next handler is. -/
theorem category_mutations_admin_only (verify : String → Option JsObject) (db : Db σ)
    (req : Request) (token : String) (user : JsObject) (w : World σ)
    (htok : bearerToken req = .str token) (hne : token ≠ "")
    (hver : verify token = some user) :
    (user.get "role" ≠ .str "admin" →
      categoryRoutes.post verify db req w =
          ({ status := .num 403, message := .str "Access denied", data := none }, w) ∧
        categoryRoutes.put verify db req w =
          ({ status := .num 403, message := .str "Access denied", data := none }, w) ∧
        categoryRoutes.delete verify db req w =
          ({ status := .num 403, message := .str "Access denied", data := none }, w)) ∧
    (user.get "role" = .str "admin" →
      categoryRoutes.post verify db req w =
          categoryController.createCategory db { req with user := some user } w ∧
        categoryRoutes.put verify db req w =
          categoryController.updateCategory db { req with user := some user } w ∧
        categoryRoutes.delete verify db req w =
          categoryController.deleteCategory db { req with user := some user } w) ∧
    (∀ (α : Type) (roles : List String) (next : Handler σ α),
      (user.get "role" ∈ roles.map JsVal.str →
        authorizeRoles roles next { req with user := some user } w =
          next { req with user := some user } w) ∧
      (user.get "role" ∉ roles.map JsVal.str →
        authorizeRoles roles next { req with user := some user } w =
          ({ status := .num 403, message := .str "Access denied", data := none }, w))) := by
  refine ⟨?_, ?_, ?_⟩
  · intro h
    simp [categoryRoutes.post, categoryRoutes.put, categoryRoutes.delete, authenticateToken,
      authorizeRoles, htok, hne, hver, h]
  · intro h
    simp [categoryRoutes.post, categoryRoutes.put, categoryRoutes.delete, authenticateToken,
      authorizeRoles, htok, hne, hver, h]
  · intro α roles next
    constructor
    · intro h
      have hc : (roles.map JsVal.str).contains (user.get "role") = true := by
        simpa using h
      simp only [authorizeRoles]
      rw [hc]
      rfl
    · intro h
      have hc : (roles.map JsVal.str).contains (user.get "role") = false := by
        simpa using h
      simp only [authorizeRoles]
      rw [hc]
      rfl

/-- C8, at a concrete input: the delete-category request of alice, whose role is user, is
answered 403 'Access denied' and nothing is issued on the store. -/
theorem category_mutations_admin_only_witness :
    bearerToken (requestWith "alice" "1" []) = .str "alice" ∧ "alice" ≠ "" ∧
    verifyDemo "alice" = some aliceToken ∧
    categoryRoutes.delete verifyDemo (mockDb blogMock) (requestWith "alice" "1" []) world0 =
      ({ status := .num 403, message := .str "Access denied", data := none }, world0) :=
  ⟨by decide, by decide, by decide,
    ((category_mutations_admin_only verifyDemo (mockDb blogMock) (requestWith "alice" "1" [])
      "alice" aliceToken world0 (by decide) (by decide) (by decide)).1 (by decide)).2.2⟩

/-- C9 (counterexample): the User list and User get-by-id requests of alice, an authenticated
caller whose role is user, are answered 403 'Access denied' by the role guard. -/
theorem user_read_routes_reject_role_user :
    userRoutes.getAll verifyDemo (mockDb blogMock) (requestWith "alice" "" []) world0 =
      ({ status := .num 403, message := .str "Access denied", data := none }, world0) ∧
    userRoutes.get verifyDemo (mockDb blogMock) uuidShape (requestWith "alice" aliceId [])
        world0 =
      ({ status := .num 403, message := .str "Access denied", data := none }, world0) := by
  constructor <;> rfl

/-- C9 (amended): for an authenticated caller, the Comment get-by-id, list-by-post and create
requests pass the role guard when the caller's role is user or admin; the User list and User
get-by-id requests pass it when the role is admin, and are answered 403 'Access denied' for
any other role. -/
theorem read_routes_role_guard (verify : String → Option JsObject) (db : Db σ)
    (isUUID : String → Bool) (notAString : JsVal → String) (req : Request) (token : String)
    (user : JsObject) (w : World σ) (htok : bearerToken req = .str token) (hne : token ≠ "")
    (hver : verify token = some user) :
    ((user.get "role" = .str "user" ∨ user.get "role" = .str "admin") →
      commentRoutes.get verify db isUUID req w =
          commentController.getCommentById db isUUID { req with user := some user } w ∧
        commentRoutes.getByPost verify db isUUID req w =
          commentController.getCommentsByPost db isUUID { req with user := some user } w ∧
        commentRoutes.post verify db isUUID notAString req w =
          commentController.createComment db isUUID notAString { req with user := some user } w) ∧
    (user.get "role" = .str "admin" →
      userRoutes.getAll verify db req w =
          userController.getAllUsers db { req with user := some user } w ∧
        userRoutes.get verify db isUUID req w =
          userController.getUserById db isUUID { req with user := some user } w) ∧
    (user.get "role" ≠ .str "admin" →
      userRoutes.getAll verify db req w =
          ({ status := .num 403, message := .str "Access denied", data := none }, w) ∧
        userRoutes.get verify db isUUID req w =
          ({ status := .num 403, message := .str "Access denied", data := none }, w)) := by
  refine ⟨?_, ?_, ?_⟩
  · rintro (h | h) <;>
      simp [commentRoutes.get, commentRoutes.getByPost, commentRoutes.post, authenticateToken,
        authorizeRoles, htok, hne, hver, h]
  · intro h
    simp [userRoutes.getAll, userRoutes.get, authenticateToken, authorizeRoles, htok, hne,
      hver, h]
  · intro h
    simp [userRoutes.getAll, userRoutes.get, authenticateToken, authorizeRoles, htok, hne,
      hver, h]

/-- C9 (amended), at a concrete input: the get-comment request of alice, whose role is user,
passes the role guard and reaches the controller. -/
theorem read_routes_role_guard_witness :
    bearerToken (requestWith "alice" commentId1 []) = .str "alice" ∧ "alice" ≠ "" ∧
    verifyDemo "alice" = some aliceToken ∧
    commentRoutes.get verifyDemo (mockDb blogMock) uuidShape (requestWith "alice" commentId1 [])
        world0 =
      commentController.getCommentById (mockDb blogMock) uuidShape
        { requestWith "alice" commentId1 [] with user := some aliceToken } world0 :=
  ⟨by decide, by decide, by decide,
    ((read_routes_role_guard verifyDemo (mockDb blogMock) uuidShape (fun _ => "")
      (requestWith "alice" commentId1 []) "alice" aliceToken world0 (by decide) (by decide)
      (by decide)).1 (Or.inl (by decide))).1⟩

/-! ## Identifier checks -/

/-- C10 (counterexample): the id '1.5' is not the decimal representation of an integer, yet
`isNaN('1.5')` is false, so getCategoryById and deleteCategory do not reject it: the lookup is
issued, and deleteCategory goes on to issue the destroy. -/
theorem category_id_fraction_reaches_store :
    jsIsNaN "1.5" = false ∧
    categoryService.getCategoryById (mockDb blogMock) "1.5" world0 =
      (.ok newsCategory, { store := (), log := [.findByPk .Category "1.5" false] }) ∧
    categoryService.deleteCategory (mockDb blogMock) "1.5" world0 =
      (.ok (), { store := (),
                 log := [.findByPk .Category "1.5" false,
                   .destroy .Category [("category_id", .str "1.5")]] }) := by
  refine ⟨?_, ?_, ?_⟩ <;> rfl

/-- C10 (amended): every get, update and delete operation of the User, Post and Comment
services keyed by a UUID rejects with status 400, leaving the store untouched and issuing no
call, when the id is not UUID-shaped; the Category get, update and delete operations and the
Post list-by-category do so when the id is empty or `isNaN(id)` holds. -/
theorem invalid_id_rejected_before_store (db : Db σ) (isUUID : String → Bool) (id : String)
    (user data : JsObject) (userId userRole : JsVal) (w : World σ) :
    (isUUID id = false →
      userService.getUserById db isUUID id w =
          (.error { status := .num 400, message := .str "Invalid user ID format" }, w) ∧
        userService.updateUser db isUUID id user data w =
          (.error { status := .num 400, message := .str "Invalid user ID format" }, w) ∧
        userService.deleteUser db isUUID id w =
          (.error { status := .num 400, message := .str "Invalid user ID format" }, w) ∧
        postService.getPostById db isUUID id w =
          (.error { status := .num 400, message := .str "Invalid post ID" }, w) ∧
        postService.updatePost db isUUID id user data w =
          (.error { status := .num 400, message := .str "Invalid post ID" }, w) ∧
        postService.deletePost db isUUID id user w =
          (.error { status := .num 400, message := .str "Invalid post ID" }, w) ∧
        commentService.getCommentsByPost db isUUID id w =
          (.error { status := .num 400, message := .str "Invalid post ID" }, w) ∧
        commentService.getCommentById db isUUID id w =
          (.error { status := .num 400, message := .str "Invalid comment ID" }, w) ∧
        commentService.updateComment db isUUID id data user w =
          (.error { status := .num 400, message := .str "Invalid comment ID" }, w) ∧
        commentService.deleteComment db isUUID id userId userRole w =
          (.error { status := .num 400, message := .str "Invalid comment ID" }, w)) ∧
    ((id = "" ∨ jsIsNaN id = true) →
      categoryService.getCategoryById db id w =
          (.error { status := .num 400, message := .str "Invalid category ID" }, w) ∧
        categoryService.updateCategory db id data w =
          (.error (.handled { status := .num 400, message := .str "Invalid category ID" }), w) ∧
        categoryService.deleteCategory db id w =
          (.error { status := .num 400, message := .str "Invalid category ID" }, w) ∧
        postService.getPostByCategoryId db id w =
          (.error { status := .num 400, message := .str "Invalid post ID" }, w)) := by
  constructor
  · intro h
    simp [userService.getUserById, userService.updateUser, userService.deleteUser,
      postService.getPostById, postService.updatePost, postService.deletePost,
      commentService.getCommentsByPost, commentService.getCommentById,
      commentService.updateComment, commentService.deleteComment, tryCatch, throwE, h,
      catchDb, catchFull, Thrown.plain, rethrow, jsOr, JsVal.truthy, Thrown.status,
      Thrown.message]
  · intro h
    have hc : (id == "" || jsIsNaN id) = true := by
      rcases h with h | h <;> simp [h]
    simp [categoryService.getCategoryById, categoryService.updateCategory,
      categoryService.updateCategoryBody, categoryService.deleteCategory,
      postService.getPostByCategoryId, tryCatch, throwE, hc, catchDb, Thrown.plain, rethrow,
      jsOr, JsVal.truthy, Thrown.status, Thrown.message]

/-- C10 (amended), at a concrete input: the id 'invalid' is rejected by deletePost and
deleteCategory with status 400 and nothing is issued on the store. -/
theorem invalid_id_rejected_before_store_witness :
    uuidShape "invalid" = false ∧ jsIsNaN "invalid" = true ∧
    postService.deletePost (mockDb blogMock) uuidShape "invalid" aliceToken world0 =
      (.error { status := .num 400, message := .str "Invalid post ID" }, world0) ∧
    categoryService.deleteCategory (mockDb blogMock) "invalid" world0 =
      (.error { status := .num 400, message := .str "Invalid category ID" }, world0) :=
  ⟨by decide, by decide,
    ((invalid_id_rejected_before_store (mockDb blogMock) uuidShape "invalid" aliceToken
      { ref := 11, props := [] } .undefined .undefined world0).1 (by decide)).2.2.2.2.2.1,
    ((invalid_id_rejected_before_store (mockDb blogMock) uuidShape "invalid" aliceToken
      { ref := 11, props := [] } .undefined .undefined world0).2 (Or.inr (by decide))).2.2.1⟩

/-! ## Category batches: facts about the loop -/

theorem createLoop_valid_cons (db : Db σ) (created : List CategoryRow) (item : JsObject)
    (rest : List JsObject) (w : World σ) (hv : validItem item = true) :
    categoryService.createLoop db created (item :: rest) w =
      match db.Category.create (itemValues item) w.store with
      | (.ok row, s1) =>
        categoryService.createLoop db (created ++ [row]) rest
          { store := s1, log := w.log ++ [categoryCreateCall item] }
      | (.error e, s1) => (.error e, { store := s1, log := w.log ++ [categoryCreateCall item] }) := by
  simp only [validItem, Bool.and_eq_true] at hv
  obtain ⟨hn, hd⟩ := hv
  cases hname : item.get "name" <;> rw [hname] at hn <;> simp [validText] at hn
  cases hdesc : item.get "description" <;> rw [hdesc] at hd <;> simp [validText] at hd
  rcases hc : db.Category.create (itemValues item) w.store with ⟨r, s1⟩
  have hc2 : db.Category.create [("name", item.get "name"), ("description", item.get "description")]
      w.store = (r, s1) := hc
  rw [hname, hdesc] at hc2
  cases r <;>
    simp [categoryService.createLoop, optTrim, Eff.bind, Eff.pure, call, hname, hdesc,
      JsVal.truthy, hn, hd, hc2, categoryCreateCall, itemValues]

theorem createLoop_blank_cons (db : Db σ) (created : List CategoryRow) (item : JsObject)
    (rest : List JsObject) (w : World σ) (hb : blankItem item = true) :
    categoryService.createLoop db created (item :: rest) w =
      (.error (.plain 400 "Category name and description are required and cannot be blank"),
        w) := by
  simp only [blankItem, Bool.or_eq_true, Bool.and_eq_true] at hb
  rcases hb with hn | ⟨hn, hd⟩
  · cases hname : item.get "name" <;> rw [hname] at hn <;> simp [blankText] at hn <;>
      simp [categoryService.createLoop, optTrim, Eff.bind, Eff.pure, throwE, hname,
        JsVal.truthy, hn]
  · cases hname : item.get "name" <;> rw [hname] at hn <;> simp [validText] at hn
    cases hdesc : item.get "description" <;> rw [hdesc] at hd <;> simp [blankText] at hd <;>
      simp [categoryService.createLoop, optTrim, Eff.bind, Eff.pure, throwE, hname, hdesc,
        JsVal.truthy, hn, hd]

theorem createLoop_valid_front (db : Db σ) (pre rest : List JsObject)
    (hpre : ∀ i ∈ pre, validItem i = true) :
    ∀ (created : List CategoryRow) (w : World σ),
      categoryService.createLoop db created (pre ++ rest) w =
        match createEach db pre w with
        | (.ok rows, w1) => categoryService.createLoop db (created ++ rows) rest w1
        | (.error e, w1) => (.error e, w1) := by
  induction pre with
  | nil => intro created w; simp [createEach, Eff.pure]
  | cons item pre ih =>
    intro created w
    have hv : validItem item = true := hpre item (List.mem_cons_self _ _)
    have ih2 := ih (fun i hi => hpre i (List.mem_cons_of_mem _ hi))
    rw [List.cons_append, createLoop_valid_cons db created item (pre ++ rest) w hv]
    rcases hc : db.Category.create (itemValues item) w.store with ⟨r, s1⟩
    cases r with
    | error e => simp [createEach, Eff.bind, call, hc]
    | ok row =>
      simp only [createEach, Eff.bind, call, hc]
      rw [ih2]
      rcases createEach db pre { store := s1, log := w.log ++ [categoryCreateCall item] }
        with ⟨r2, w2⟩
      cases r2 <;> simp [Eff.pure]

theorem createEach_ok (db : Db σ) (items : List JsObject) :
    ∀ (w w1 : World σ) (rows : List CategoryRow), createEach db items w = (.ok rows, w1) →
      w1.log = w.log ++ items.map categoryCreateCall ∧ rows.length = items.length := by
  induction items with
  | nil =>
    intro w w1 rows h
    simp [createEach, Eff.pure] at h
    obtain ⟨h1, h2⟩ := h
    subst h1 h2
    simp
  | cons item items ih =>
    intro w w1 rows h
    rcases hc : db.Category.create (itemValues item) w.store with ⟨r, s1⟩
    cases r with
    | error e => simp [createEach, Eff.bind, call, hc] at h
    | ok row =>
      simp only [createEach, Eff.bind, call, hc] at h
      rcases h2 : createEach db items { store := s1, log := w.log ++ [categoryCreateCall item] }
        with ⟨r2, w2⟩
      rw [h2] at h
      cases r2 with
      | error e => simp at h
      | ok rows2 =>
        simp [Eff.pure] at h
        obtain ⟨h3, h4⟩ := h
        subst h3 h4
        have := ih _ _ _ h2
        simp [this.1, this.2]

theorem createLoop_log_front (db : Db σ) (batch : List JsObject) :
    ∀ (created : List CategoryRow) (w : World σ),
      ∃ k, k ≤ batch.length ∧
        (categoryService.createLoop db created batch w).2.log =
          w.log ++ (batch.take k).map categoryCreateCall := by
  induction batch with
  | nil => intro created w; exact ⟨0, by simp [categoryService.createLoop, Eff.pure]⟩
  | cons item rest ih =>
    intro created w
    rcases optTrim_cases "name?.trim" (item.get "name") w with ⟨n, hn⟩ | hn
    · by_cases hnt : n.truthy = true
      · rcases optTrim_cases "description?.trim" (item.get "description") w with ⟨d, hd⟩ | hd
        · by_cases hdt : d.truthy = true
          · rcases hc : db.Category.create (itemValues item) w.store with ⟨r, s1⟩
            have hc2 : db.Category.create
                [("name", item.get "name"), ("description", item.get "description")]
                w.store = (r, s1) := hc
            cases r with
            | error e =>
              exact ⟨1, by simp, by
                simp [categoryService.createLoop, Eff.bind, Eff.pure, call, hn, hd, hnt, hdt,
                  hc2, categoryCreateCall, itemValues]⟩
            | ok row =>
              obtain ⟨k, hk, hlog⟩ := ih (created ++ [row])
                { store := s1, log := w.log ++ [categoryCreateCall item] }
              refine ⟨k + 1, by simpa using hk, ?_⟩
              simp only [categoryService.createLoop, Eff.bind, Eff.pure, call, hn, hd, hnt, hdt,
                hc2, Bool.not_true, Bool.false_eq_true, if_false]
              simp only [categoryCreateCall, itemValues] at hlog
              rw [hlog]
              simp [categoryCreateCall, itemValues]
          · exact ⟨0, by simp, by
              simp [categoryService.createLoop, Eff.bind, Eff.pure, throwE, hn, hd, hnt, hdt]⟩
        · exact ⟨0, by simp, by
            simp [categoryService.createLoop, Eff.bind, Eff.pure, throwE, hn, hd, hnt]⟩
      · exact ⟨0, by simp, by
          simp [categoryService.createLoop, Eff.bind, Eff.pure, throwE, hn, hnt]⟩
    · exact ⟨0, by simp, by simp [categoryService.createLoop, Eff.bind, hn]⟩

/-! ## Category batches: blank items and order -/

/-- C11 (counterexample): in the batch [Tech, an item with a blank name], the blank item is
second: createCategory rejects with status 400, but the create of Tech has been issued
before. -/
theorem createCategory_blank_second_creates_first :
    categoryService.createCategory (mockDb blogMock)
        [{ ref := 21, props := [("name", .str "Tech"), ("description", .str "Technology")] },
         { ref := 22, props := [("name", .str "  "), ("description", .str "No name")] }]
        world0 =
      (.error { status := .num 400,
                message := .str "Category name and description are required and cannot be blank" },
        { store := (),
          log := [.create .Category
            [("name", .str "Tech"), ("description", .str "Technology")]] }) := by
  rfl

/-- C11 (amended): when the first item of a batch whose name or description is missing or blank
after trimming is reached, every item before it being valid and its create having succeeded,
createCategory rejects with status 400 ('Category name and description are required and
cannot be blank'); the store create has been invoked for the items before the blank item, in
order, and is invoked neither for the blank item nor for any item after it. -/
theorem createCategory_blank_item (db : Db σ) (pre : List JsObject) (item : JsObject)
    (post : List JsObject) (w w1 : World σ) (rows : List CategoryRow)
    (hpre : ∀ i ∈ pre, validItem i = true) (hb : blankItem item = true)
    (hrun : createEach db pre w = (.ok rows, w1)) :
    categoryService.createCategory db (pre ++ item :: post) w =
        (.error { status := .num 400,
                  message := .str "Category name and description are required and cannot be blank" },
          w1) ∧
      issued w w1 = pre.map categoryCreateCall := by
  constructor
  · simp only [categoryService.createCategory, tryCatch]
    rw [createLoop_valid_front db pre (item :: post) hpre, hrun]
    simp only []
    rw [createLoop_blank_cons db _ item post w1 hb]
    simp [catchUnique, Thrown.plain, rethrow, jsOr, JsVal.truthy, Thrown.status, Thrown.message]
  · have h := (createEach_ok db pre w w1 rows hrun).1
    simp [issued, h]

/-- C11 (amended), at a concrete input: a batch whose first item has a blank name is rejected
with status 400 and no create is invoked. -/
theorem createCategory_blank_item_witness :
    (∀ i ∈ ([] : List JsObject), validItem i = true) ∧
    blankItem { ref := 22, props := [("name", .str "  "), ("description", .str "No name")] } =
      true ∧
    categoryService.createCategory (mockDb blogMock)
        [{ ref := 22, props := [("name", .str "  "), ("description", .str "No name")] },
         { ref := 21, props := [("name", .str "Tech"), ("description", .str "Technology")] }]
        world0 =
      (.error { status := .num 400,
                message := .str "Category name and description are required and cannot be blank" },
        world0) :=
  ⟨by simp, by decide,
    (createCategory_blank_item (mockDb blogMock) []
      { ref := 22, props := [("name", .str "  "), ("description", .str "No name")] }
      [{ ref := 21, props := [("name", .str "Tech"), ("description", .str "Technology")] }]
      world0 world0 [] (by simp) (by decide) rfl).1⟩

/-- C12: createCategory issues only creates, for a prefix of the batch in input order, each with
the `{ name, description }` of its item; it stops at the first item that is blank (400) or
whose create fails (the failure as normalised by the catch block), the items before it having
been created and no item after it being attempted; and when every item is valid and every
create succeeds the result is the list of the created records, in input order and of the
length of the batch. -/
theorem createCategory_in_order (db : Db σ) (batch : List JsObject) (w : World σ) :
    (∃ k, k ≤ batch.length ∧
      issued w (categoryService.createCategory db batch w).2 =
        (batch.take k).map categoryCreateCall) ∧
    (∀ pre item post rows w1, batch = pre ++ item :: post →
      (∀ i ∈ pre, validItem i = true) → createEach db pre w = (.ok rows, w1) →
      issued w w1 = pre.map categoryCreateCall ∧
      (blankItem item = true →
        categoryService.createCategory db batch w =
          (.error { status := .num 400,
                    message :=
                      .str "Category name and description are required and cannot be blank" },
            w1)) ∧
      (validItem item = true → ∀ e s2,
        db.Category.create (itemValues item) w1.store = (.error e, s2) →
        categoryService.createCategory db batch w =
          (.error (catchUnique "Error creating category" e),
            { store := s2, log := w1.log ++ [categoryCreateCall item] }))) ∧
    ((∀ i ∈ batch, validItem i = true) → ∀ rows w1, createEach db batch w = (.ok rows, w1) →
      categoryService.createCategory db batch w = (.ok rows, w1) ∧
        rows.length = batch.length ∧ issued w w1 = batch.map categoryCreateCall) := by
  refine ⟨?_, ?_, ?_⟩
  · obtain ⟨k, hk, hlog⟩ := createLoop_log_front db batch [] w
    refine ⟨k, hk, ?_⟩
    have hw : (categoryService.createCategory db batch w).2 =
        (categoryService.createLoop db [] batch w).2 := by
      simp only [categoryService.createCategory, tryCatch]
      rcases categoryService.createLoop db [] batch w with ⟨r, w2⟩
      cases r <;> rfl
    rw [hw]
    simp [issued, hlog]
  · intro pre item post rows w1 hbatch hpre hrun
    subst hbatch
    refine ⟨?_, ?_, ?_⟩
    · have h := (createEach_ok db pre w w1 rows hrun).1
      simp [issued, h]
    · intro hb
      simp only [categoryService.createCategory, tryCatch]
      rw [createLoop_valid_front db pre (item :: post) hpre, hrun]
      simp only []
      rw [createLoop_blank_cons db _ item post w1 hb]
      simp [catchUnique, Thrown.plain, rethrow, jsOr, JsVal.truthy, Thrown.status,
        Thrown.message]
    · intro hv e s2 hc
      simp only [categoryService.createCategory, tryCatch]
      rw [createLoop_valid_front db pre (item :: post) hpre, hrun]
      simp only []
      rw [createLoop_valid_cons db _ item post w1 hv, hc]
  · intro hall rows w1 hrun
    have h := createEach_ok db batch w w1 rows hrun
    refine ⟨?_, h.2, by simp [issued, h.1]⟩
    have hp := createLoop_valid_front db batch [] hall [] w
    rw [List.append_nil] at hp
    simp only [categoryService.createCategory, tryCatch]
    rw [hp, hrun]
    simp [categoryService.createLoop, Eff.pure]

/-- C12, at a concrete input: the batch [Tech, Health] of the unit test yields two creates, in
that order, and the two created records in that order. -/
theorem createCategory_in_order_witness :
    (∀ i ∈ [({ ref := 21, props := [("name", .str "Tech"), ("description", .str "Technology")] } :
          JsObject),
        { ref := 23, props := [("name", .str "Health"), ("description", .str "Wellness")] }],
      validItem i = true) ∧
    categoryService.createCategory (mockDb blogMock)
        [{ ref := 21, props := [("name", .str "Tech"), ("description", .str "Technology")] },
         { ref := 23, props := [("name", .str "Health"), ("description", .str "Wellness")] }]
        world0 =
      (.ok [{ category_id := 1, name := "Tech", description := .str "Technology" },
            { category_id := 1, name := "Health", description := .str "Wellness" }],
        { store := (),
          log := [.create .Category [("name", .str "Tech"), ("description", .str "Technology")],
            .create .Category [("name", .str "Health"), ("description", .str "Wellness")]] }) :=
  ⟨by decide, ((createCategory_in_order (mockDb blogMock)
      [{ ref := 21, props := [("name", .str "Tech"), ("description", .str "Technology")] },
       { ref := 23, props := [("name", .str "Health"), ("description", .str "Wellness")] }]
      world0).2.2 (by decide) _ _ rfl).1⟩

/-! ## User and post creation -/

theorem jsTrim_empty : jsTrim "" = "" := by decide

theorem optTrim_text (expr : String) (v : JsVal) (w : World σ) (h : textOrAbsent v = true) :
    ∃ t, optTrim expr v w = (.ok t, w) ∧ t.truthy = !blankText v := by
  cases v with
  | undefined => exact ⟨.undefined, rfl, rfl⟩
  | null => exact ⟨.undefined, rfl, rfl⟩
  | str s => exact ⟨.str (jsTrim s), rfl, rfl⟩
  | bool b => simp [textOrAbsent, blankText, validText] at h
  | num n => simp [textOrAbsent, blankText, validText] at h
  | obj r => simp [textOrAbsent, blankText, validText] at h

theorem missingOrBlank_text (expr : String) (v : JsVal) (w : World σ)
    (h : textOrAbsent v = true) : missingOrBlank expr v w = (.ok (blankText v), w) := by
  cases v with
  | undefined => rfl
  | null => rfl
  | str s =>
    by_cases hs : s = ""
    · subst hs
      simp [missingOrBlank, JsVal.truthy, Eff.pure, blankText, jsTrim_empty]
    · simp [missingOrBlank, JsVal.truthy, hs, trimCall, Eff.bind, Eff.pure, blankText]
  | bool b => simp [textOrAbsent, blankText, validText] at h
  | num n => simp [textOrAbsent, blankText, validText] at h
  | obj r => simp [textOrAbsent, blankText, validText] at h

theorem missingCredentials_text (userData : JsObject) (w : World σ)
    (hu : textOrAbsent (userData.get "username") = true)
    (he : textOrAbsent (userData.get "email") = true)
    (hp : textOrAbsent (userData.get "password") = true) :
    userService.missingCredentials userData w =
      (.ok (blankText (userData.get "username") || blankText (userData.get "email") ||
        blankText (userData.get "password")), w) := by
  obtain ⟨u, hu1, hu2⟩ := optTrim_text "userData.username?.trim" _ w hu
  obtain ⟨e, he1, he2⟩ := optTrim_text "userData.email?.trim" _ w he
  obtain ⟨p, hp1, hp2⟩ := optTrim_text "userData.password?.trim" _ w hp
  cases hbu : blankText (userData.get "username") <;>
    cases hbe : blankText (userData.get "email") <;>
    cases hbp : blankText (userData.get "password") <;>
    simp [userService.missingCredentials, Eff.bind, Eff.pure, hu1, he1, hp1, hu2, he2, hp2,
      hbu, hbe, hbp]

/-- C13 (counterexample): a payload with username, email and password present and the role
'', which is supplied and is not one of 'user' and 'admin', is not rejected with 400
'Invalid role specified': the test `userData.role &&` skips the empty string, and the payload
is handed to the store in one create, the role '' included. -/
theorem createUser_empty_role_reaches_store :
    JsVal.str "" ∉ userService.validRoles ∧
    userService.createUser (mockDb blogMock)
        { ref := 31, props := [("username", .str "testuser"), ("email", .str "test@example.com"),
            ("password", .str "password123"), ("role", .str "")] } world0 =
      (.ok { user_id := "00000000-0000-4000-8000-000000000001", username := "testuser"
             email := "test@example.com", password := "password123", role := "" },
        { store := (),
          log := [.create .User [("username", .str "testuser"),
            ("email", .str "test@example.com"), ("password", .str "password123"),
            ("role", .str "")]] }) ∧
    issued memWorld0 (userService.createUser (memDb demoLib)
        { ref := 31, props := [("username", .str "testuser"), ("email", .str "test@example.com"),
            ("password", .str "password123"), ("role", .str "")] } memWorld0).2 =
      [.create .User [("username", .str "testuser"), ("email", .str "test@example.com"),
        ("password", .str "password123"), ("role", .str "")]] := by
  refine ⟨by decide, ?_, ?_⟩ <;> rfl

/-- C13 (amended): for a payload whose username, email and password are each missing or a
string, createUser rejects with status 400 ('Username, email, and password are required') and
leaves the store untouched when one of the three is missing or blank after trimming; with the
three present it rejects with status 400 ('Invalid role specified'), store untouched, when the
role is truthy (a non-empty string, for instance) and is not one of 'user' and 'admin'; and in
every other case, a role that is missing or falsy such as '' included, it issues exactly one
store create, with the data given, and resolves with the created record once the create has
resolved. -/
theorem createUser_validation (db : Db σ) (userData : JsObject) (w : World σ)
    (hu : textOrAbsent (userData.get "username") = true)
    (he : textOrAbsent (userData.get "email") = true)
    (hp : textOrAbsent (userData.get "password") = true) :
    ((blankText (userData.get "username") || blankText (userData.get "email") ||
        blankText (userData.get "password")) = true →
      userService.createUser db userData w =
        (.error { status := .num 400,
                  message := .str "Username, email, and password are required" }, w)) ∧
    ((blankText (userData.get "username") || blankText (userData.get "email") ||
        blankText (userData.get "password")) = false →
      (userData.get "role").truthy = true → userData.get "role" ∉ userService.validRoles →
      userService.createUser db userData w =
        (.error { status := .num 400, message := .str "Invalid role specified" }, w)) ∧
    ((blankText (userData.get "username") || blankText (userData.get "email") ||
        blankText (userData.get "password")) = false →
      ((userData.get "role").truthy = false ∨ userData.get "role" ∈ userService.validRoles) →
      issued w (userService.createUser db userData w).2 = [.create .User userData.props] ∧
        ∀ row s1, db.User.create userData.props w.store = (.ok row, s1) →
          (userService.createUser db userData w).1 = .ok row) := by
  have hm := missingCredentials_text userData w hu he hp
  refine ⟨?_, ?_, ?_⟩
  · intro hb
    rw [hb] at hm
    simp [userService.createUser, tryCatch, Eff.bind, hm, throwE, catchFull, Thrown.plain,
      rethrow, jsOr, JsVal.truthy, Thrown.status, Thrown.message]
  · intro hb hr hnot
    rw [hb] at hm
    have hc : ((userData.get "role").truthy &&
        !userService.validRoles.contains (userData.get "role")) = true := by
      have : userService.validRoles.contains (userData.get "role") = false := by
        simpa using hnot
      rw [hr, this]
      rfl
    simp only [userService.createUser, tryCatch, bind_eq, Eff.bind, hm, hc, Bool.false_eq_true,
      if_false, if_true]
    simp [throwE, catchFull, Thrown.plain, rethrow, jsOr, JsVal.truthy, Thrown.status,
      Thrown.message]
  · intro hb hr
    rw [hb] at hm
    have hc : ((userData.get "role").truthy &&
        !userService.validRoles.contains (userData.get "role")) = false := by
      rcases hr with hr | hr
      · simp [hr]
      · have : userService.validRoles.contains (userData.get "role") = true := by simpa using hr
        rw [this]
        simp
    rcases hcr : db.User.create userData.props w.store with ⟨r, s1⟩
    simp only [userService.createUser, tryCatch, bind_eq, Eff.bind, hm, hc, Bool.false_eq_true,
      if_false]
    cases r <;> simp [call, hcr, issued]

/-- C13 (amended), at a concrete input: the payload of the unit test, with role 'user', is handed to the
store in one create and the created record is returned. -/
theorem createUser_validation_witness :
    textOrAbsent (JsVal.str "testuser") = true ∧
    (userService.createUser (mockDb blogMock)
        { ref := 31, props := [("username", .str "testuser"), ("email", .str "test@example.com"),
            ("password", .str "password123"), ("role", .str "user")] } world0).1 =
      .ok { user_id := "00000000-0000-4000-8000-000000000001", username := "testuser"
            email := "test@example.com", password := "password123", role := "user" } :=
  ⟨by decide,
    ((createUser_validation (mockDb blogMock)
      { ref := 31, props := [("username", .str "testuser"), ("email", .str "test@example.com"),
          ("password", .str "password123"), ("role", .str "user")] } world0
      (by decide) (by decide) (by decide)).2.2
      (by decide) (Or.inr (by decide))).2 _ () rfl⟩

/-- C14 (counterexample): a payload with title and content present and the status '', which
is supplied and is not one of 'draft' and 'published', is not rejected with 400
'Invalid Post status specified', and the create that is issued carries no status field
although the payload supplied one: both `postData.status &&` tests skip the empty string, so
the status is dropped and the post is stored with the default 'draft'. -/
theorem createPost_empty_status_dropped :
    JsVal.str "" ∉ postService.validPostStatus ∧
    (JsObject.get { ref := 32, props := [("title", .str "Valid Post Title"),
        ("content", .str "Valid content for the post."), ("status", .str "")] } "status") =
      .str "" ∧
    postService.createPost (memDb demoLib)
        { ref := 32, props := [("title", .str "Valid Post Title"),
            ("content", .str "Valid content for the post."), ("status", .str "")] }
        (.str aliceId) memWorld0 =
      (.ok { post_id := demoId 0, author_id := .str aliceId, title := "Valid Post Title"
             content := "Valid content for the post.", status := "draft" },
        { store := { mem0 with
            posts := [{ post_id := demoId 0, author_id := .str aliceId
                        title := "Valid Post Title"
                        content := "Valid content for the post.", status := "draft" }]
            fresh := 1 },
          log := [.create .Post [("title", .str "Valid Post Title"),
            ("content", .str "Valid content for the post."),
            ("author_id", .str aliceId)]] }) := by
  refine ⟨by decide, ?_, ?_⟩ <;> rfl

/-- C14 (amended): for a payload whose title and content are each missing or a string,
createPost rejects with status 400 ('Title, content are required') and leaves the store
untouched when title or content is missing or blank after trimming; otherwise it rejects with
status 400 ('Invalid Post status specified'), store untouched, when the status is truthy (a
non-empty string, for instance) and is not one of 'draft' and 'published'; and otherwise it
issues exactly one store create whose fields are the payload's title and content, the
author_id passed in (whatever the payload carries), and the status exactly when the payload's
status is truthy (a status that is missing or falsy such as '' is left out), and resolves with
the created record once the create has resolved. -/
theorem createPost_validation (db : Db σ) (postData : JsObject) (author_id : JsVal)
    (w : World σ) (ht : textOrAbsent (postData.get "title") = true)
    (hc : textOrAbsent (postData.get "content") = true) :
    ((blankText (postData.get "title") || blankText (postData.get "content")) = true →
      postService.createPost db postData author_id w =
        (.error { status := .num 400, message := .str "Title, content are required" }, w)) ∧
    ((blankText (postData.get "title") || blankText (postData.get "content")) = false →
      (postData.get "status").truthy = true →
      postData.get "status" ∉ postService.validPostStatus →
      postService.createPost db postData author_id w =
        (.error { status := .num 400, message := .str "Invalid Post status specified" }, w)) ∧
    ((blankText (postData.get "title") || blankText (postData.get "content")) = false →
      ((postData.get "status").truthy = false ∨
        postData.get "status" ∈ postService.validPostStatus) →
      issued w (postService.createPost db postData author_id w).2 =
          [.create .Post
            ([("title", postData.get "title"), ("content", postData.get "content"),
              ("author_id", author_id)] ++
             (if (postData.get "status").truthy then [("status", postData.get "status")]
              else []))] ∧
        (postService.createValues postData author_id).lookup "author_id" = some author_id ∧
        ((postService.createValues postData author_id).lookup "status").isSome =
          (postData.get "status").truthy ∧
        ∀ row s1,
          db.Post.create (postService.createValues postData author_id) w.store = (.ok row, s1) →
          (postService.createPost db postData author_id w).1 = .ok row) := by
  have hmt := missingOrBlank_text "postData.title.trim" (postData.get "title") w ht
  have hmc := missingOrBlank_text "postData.content.trim" (postData.get "content") w hc
  refine ⟨?_, ?_, ?_⟩
  · intro hb
    cases hbt : blankText (postData.get "title") <;> rw [hbt] at hb hmt
    · simp only [Bool.false_or] at hb
      rw [hb] at hmc
      simp [postService.createPost, tryCatch, Eff.bind, hmt, hmc, throwE, catchFull,
        Thrown.plain, rethrow, jsOr, JsVal.truthy, Thrown.status, Thrown.message]
    · simp [postService.createPost, tryCatch, Eff.bind, Eff.pure, hmt, throwE, catchFull,
        Thrown.plain, rethrow, jsOr, JsVal.truthy, Thrown.status, Thrown.message]
  · intro hb hs hnot
    simp only [Bool.or_eq_false_iff] at hb
    rw [hb.1] at hmt
    rw [hb.2] at hmc
    have hcond : ((postData.get "status").truthy &&
        !postService.validPostStatus.contains (postData.get "status")) = true := by
      have : postService.validPostStatus.contains (postData.get "status") = false := by
        simpa using hnot
      rw [hs, this]
      rfl
    simp only [postService.createPost, tryCatch, bind_eq, pure_eq, Eff.bind, hmt, hmc, hcond,
      Bool.false_eq_true, if_false, if_true]
    simp [throwE, catchFull, Thrown.plain, rethrow, jsOr, JsVal.truthy, Thrown.status,
      Thrown.message]
  · intro hb hs
    simp only [Bool.or_eq_false_iff] at hb
    rw [hb.1] at hmt
    rw [hb.2] at hmc
    have hcond : ((postData.get "status").truthy &&
        !postService.validPostStatus.contains (postData.get "status")) = false := by
      rcases hs with hs | hs
      · simp [hs]
      · have : postService.validPostStatus.contains (postData.get "status") = true := by
          simpa using hs
        rw [this]
        simp
    refine ⟨?_, ?_, ?_, ?_⟩
    · rcases hcr : db.Post.create (postService.createValues postData author_id) w.store
        with ⟨r, s1⟩
      simp only [postService.createPost, tryCatch, bind_eq, pure_eq, Eff.bind, hmt, hmc, hcond,
        Bool.false_eq_true, if_false]
      simp only [call, hcr]
      cases r <;> simp [issued, postService.createValues]
    · simp [postService.createValues, List.lookup]
    · cases hst : (postData.get "status").truthy <;>
        simp [postService.createValues, List.lookup, hst]
    · intro row s1 hcr
      simp only [postService.createPost, tryCatch, bind_eq, pure_eq, Eff.bind, hmt, hmc, hcond,
        Bool.false_eq_true, if_false]
      simp [call, hcr]

/-- C14 (amended), at a concrete input: a payload that carries its own author_id and no status is
created under the author_id passed in, and without a status field. -/
theorem createPost_validation_witness :
    textOrAbsent (JsVal.str "Valid Post Title") = true ∧
    issued world0 (postService.createPost (mockDb blogMock)
        { ref := 32, props := [("title", .str "Valid Post Title"),
            ("content", .str "Valid content for the post."), ("author_id", .str bobId)] }
        (.str aliceId) world0).2 =
      [.create .Post [("title", .str "Valid Post Title"),
        ("content", .str "Valid content for the post."), ("author_id", .str aliceId)]] :=
  ⟨by decide,
    ((createPost_validation (mockDb blogMock)
      { ref := 32, props := [("title", .str "Valid Post Title"),
          ("content", .str "Valid content for the post."), ("author_id", .str bobId)] }
      (.str aliceId) world0 (by decide) (by decide)).2.2 (by decide) (Or.inl (by decide))).1⟩
/-! ## Post status -/

/-- C15 (code evaluated at the failing input): updatePost by the post's author with the payload
`{ status: 'archived' }` issues the store update with that payload and resolves, the status
never being compared with the enumerated values; createPost rejects the same status with
400 'Invalid Post status specified' before any store call. -/
theorem updatePost_unrecognised_status_reaches_store :
    postService.updatePost (mockDb blogMock) uuidShape postId1 aliceToken
        { ref := 11, props := [("status", .str "archived")] } world0 =
      (.ok { message := "Post updated successfully" },
        { store := (),
          log := [.findByPk .Post postId1 false,
            .update .Post [("status", .str "archived")] [("post_id", .str postId1)] false] }) ∧
    postService.createPost (mockDb blogMock)
        { ref := 11, props := [("title", .str "Title"), ("content", .str "Content"),
            ("status", .str "archived")] } (.str aliceId) world0 =
      (.error { status := .num 400, message := .str "Invalid Post status specified" },
        world0) := by
  constructor <;> rfl

/-! ## Blank fields in a post update -/

theorem hasText_text (expr : String) (data : JsObject) (f : String) (w : World σ)
    (h : textOrAbsent (data.get f) = true) :
    hasText expr data f w = (.ok (validText (data.get f)), w) := by
  cases hv : data.get f <;> rw [hv] at h <;>
    simp [textOrAbsent, blankText, validText] at h <;>
    simp [hasText, optTrim, Eff.bind, Eff.pure, hv, JsVal.truthy, validText]

theorem someM_hasText_text (expr : String) (data : JsObject) (fields : List String)
    (w : World σ) (h : ∀ f ∈ fields, textOrAbsent (data.get f) = true) :
    someM (hasText expr data) fields w =
      (.ok (fields.any (fun f => validText (data.get f))), w) := by
  induction fields with
  | nil => simp [someM, Eff.pure]
  | cons f fs ih =>
    have hf := hasText_text expr data f w (h f (List.mem_cons_self _ _))
    have ih2 := ih (fun g hg => h g (List.mem_cons_of_mem _ hg))
    cases hv : validText (data.get f) <;> rw [hv] at hf <;>
      simp [someM, Eff.bind, Eff.pure, hf, hv, ih2]

theorem rejectBlank_text (data : JsObject) (f : String) (w : World σ)
    (h : textOrAbsent (data.get f) = true) :
    postService.rejectBlank data f w =
      if emptyAfterTrim (data.get f) = true then
        (.error (.plain 400 (f ++ " cannot be blank")), w)
      else (.ok (), w) := by
  cases hv : data.get f <;> rw [hv] at h <;>
    simp [textOrAbsent, blankText, validText] at h
  · simp [postService.rejectBlank, optTrim, Eff.bind, Eff.pure, hv, emptyAfterTrim]
  · simp [postService.rejectBlank, optTrim, Eff.bind, Eff.pure, hv, emptyAfterTrim]
  · rename_i s
    by_cases hs : jsTrim s = "" <;>
      simp [postService.rejectBlank, optTrim, Eff.bind, Eff.pure, throwE, hv, emptyAfterTrim, hs]

theorem forEachM_rejectBlank_text (data : JsObject) (fields : List String) (w : World σ)
    (h : ∀ f ∈ fields, textOrAbsent (data.get f) = true) :
    forEachM (postService.rejectBlank data) fields w =
      match firstBlank data fields with
      | some f => (.error (.plain 400 (f ++ " cannot be blank")), w)
      | none => (.ok (), w) := by
  induction fields with
  | nil => simp [forEachM, Eff.pure, firstBlank]
  | cons f fs ih =>
    have hf := rejectBlank_text data f w (h f (List.mem_cons_self _ _))
    have ih2 := ih (fun g hg => h g (List.mem_cons_of_mem _ hg))
    cases hv : emptyAfterTrim (data.get f) <;> rw [hv] at hf
    · simp only [Bool.false_eq_true, if_false] at hf
      simp only [forEachM, Eff.bind, hf, ih2, firstBlank, List.find?, hv]
    · simp only [if_true] at hf
      simp only [forEachM, Eff.bind, hf, firstBlank, List.find?, hv]
theorem cannot_be_blank_ne_empty (f : String) : f ++ " cannot be blank" ≠ "" := by
  intro h
  have := congrArg String.length h
  simp only [String.length_append] at this
  have h2 : " cannot be blank".length = 16 := by decide
  have h3 : "".length = 0 := by decide
  omega

/-- C16 (counterexample): updatePost by the post's author with the payload `{ title: '  ' }`
rejects with status 400 and the message of the at-least-one-field check, not with
'title cannot be blank'. -/
theorem updatePost_whitespace_title_alone_generic_message :
    postService.updatePost (mockDb blogMock) uuidShape postId1 aliceToken
        { ref := 11, props := [("title", .str "  ")] } world0 =
      (.error { status := .num 400,
                message := .str
                  "At least one of title ,content or status must be provided and non-blank for update" },
        { store := (), log := [.findByPk .Post postId1 false] }) ∧
    (JsVal.str "At least one of title ,content or status must be provided and non-blank for update" ≠
      .str "title cannot be blank") := by
  constructor
  · rfl
  · decide

/-- C16 (amended): for an existing post, a caller the authorization check admits and a payload
whose title is a string that is blank after trimming (content and status being missing or
strings), updatePost rejects with status 400 and issues no store update; the message is
'title cannot be blank' when content or status is non-blank after trimming, and the message
of the at-least-one-field check when neither is (as for `{ title: '  ' }` alone). -/
theorem updatePost_blank_title (db : Db σ) (isUUID : String → Bool) (postId : String)
    (user postData : JsObject) (w : World σ) (post : PostRow) (s1 : σ) (t : String)
    (hne : postId ≠ "") (hid : isUUID postId = true)
    (hfind : db.Post.findByPk postId w.store = (.ok (some post), s1))
    (hauth : user.get "userId" = post.author_id ∨ user.get "userRole" = .str "admin")
    (htitle : postData.get "title" = .str t) (hblank : jsTrim t = "")
    (hcontent : textOrAbsent (postData.get "content") = true)
    (hstatus : textOrAbsent (postData.get "status") = true) :
    postService.updatePost db isUUID postId user postData w =
      (.error { status := .num 400,
                message := .str
                  (if (validText (postData.get "content") ||
                      validText (postData.get "status")) = true
                   then "title cannot be blank"
                   else "At least one of title ,content or status must be provided and non-blank for update") },
        { store := s1, log := w.log ++ [.findByPk .Post postId false] }) := by
  have hden : ((user.get "userId").strictNe post.author_id &&
      (user.get "userRole").strictNe (.str "admin")) = false := by
    rcases hauth with h | h <;> simp [JsVal.strictNe, h]
  have htext : ∀ f ∈ postService.requiredFields, textOrAbsent (postData.get f) = true := by
    intro f hf
    simp only [postService.requiredFields, List.mem_cons, List.mem_singleton,
      List.not_mem_nil, or_false] at hf
    rcases hf with rfl | rfl | rfl
    · rw [htitle]; simp [textOrAbsent, blankText, hblank]
    · exact hcontent
    · exact hstatus
  have hsome := someM_hasText_text "postData[field]?.trim" postData postService.requiredFields
    { store := s1, log := w.log ++ [.findByPk .Post postId false] } htext
  have heach := forEachM_rejectBlank_text postData postService.requiredFields
    { store := s1, log := w.log ++ [.findByPk .Post postId false] } htext
  have hany : postService.requiredFields.any (fun f => validText (postData.get f)) =
      (validText (postData.get "content") || validText (postData.get "status")) := by
    simp [postService.requiredFields, htitle, validText, hblank]
  have hfb : firstBlank postData postService.requiredFields = some "title" := by
    simp [firstBlank, postService.requiredFields, List.find?, htitle, emptyAfterTrim, hblank]
  rw [hany] at hsome
  rw [hfb] at heach
  have hidc : (postId == "" || !isUUID postId) = false := by simp [hne, hid]
  cases hv : (validText (postData.get "content") || validText (postData.get "status")) <;>
    rw [hv] at hsome <;>
    simp only [postService.updatePost, tryCatch, bind_eq, pure_eq, Eff.bind, call, hfind, hidc,
      hden, hsome, heach, Bool.not_true, Bool.not_false, Bool.false_eq_true, if_false,
      if_true] <;>
    simp [throwE, catchFull, Thrown.plain, rethrow, jsOr, JsVal.truthy, Thrown.status,
      Thrown.message]

/-- C16 (amended), at a concrete input: with a valid content next to the blank title, the
message names the title. -/
theorem updatePost_blank_title_witness :
    postId1 ≠ "" ∧ uuidShape postId1 = true ∧ jsTrim "  " = "" ∧
    postService.updatePost (mockDb blogMock) uuidShape postId1 aliceToken
        { ref := 11, props := [("title", .str "  "), ("content", .str "Body")] } world0 =
      (.error { status := .num 400, message := .str "title cannot be blank" },
        { store := (), log := [.findByPk .Post postId1 false] }) :=
  ⟨by decide, by decide, by decide,
    updatePost_blank_title (mockDb blogMock) uuidShape postId1 aliceToken
      { ref := 11, props := [("title", .str "  "), ("content", .str "Body")] } world0 alicePost ()
      "  " (by decide) (by decide) rfl (Or.inl rfl) rfl (by decide) (by decide) (by decide)⟩

/-- C17: for an existing post, a caller the authorization check admits and a payload whose
title, content and status are each missing or a string, at least one of them being non-blank
after trimming: when one or more of them is a string that is empty after trimming, updatePost
rejects with status 400 and the message '<field> cannot be blank' for the first such field
in the order title, content, status, and issues no store update; when none is, it issues the
store update with the payload, and resolves with 'Post updated successfully' once the update
has resolved with a row affected. -/
theorem updatePost_first_blank_field (db : Db σ) (isUUID : String → Bool) (postId : String)
    (user postData : JsObject) (w : World σ) (post : PostRow) (s1 : σ)
    (hne : postId ≠ "") (hid : isUUID postId = true)
    (hfind : db.Post.findByPk postId w.store = (.ok (some post), s1))
    (hauth : user.get "userId" = post.author_id ∨ user.get "userRole" = .str "admin")
    (htext : ∀ f ∈ ["title", "content", "status"], textOrAbsent (postData.get f) = true)
    (hvalid : ∃ f ∈ ["title", "content", "status"], validText (postData.get f) = true) :
    (∀ f, firstBlank postData ["title", "content", "status"] = some f →
      postService.updatePost db isUUID postId user postData w =
        (.error { status := .num 400, message := .str (f ++ " cannot be blank") },
          { store := s1, log := w.log ++ [.findByPk .Post postId false] })) ∧
    (firstBlank postData ["title", "content", "status"] = none →
      issued w (postService.updatePost db isUUID postId user postData w).2 =
          [.findByPk .Post postId false,
            .update .Post postData.props [("post_id", .str postId)] false] ∧
        ∀ n s2, db.Post.update postData.props postId s1 = (.ok n, s2) → n ≠ 0 →
          (postService.updatePost db isUUID postId user postData w).1 =
            .ok { message := "Post updated successfully" }) := by
  have hden : ((user.get "userId").strictNe post.author_id &&
      (user.get "userRole").strictNe (.str "admin")) = false := by
    rcases hauth with h | h <;> simp [JsVal.strictNe, h]
  have hsome := someM_hasText_text "postData[field]?.trim" postData postService.requiredFields
    { store := s1, log := w.log ++ [.findByPk .Post postId false] } htext
  have heach := forEachM_rejectBlank_text postData postService.requiredFields
    { store := s1, log := w.log ++ [.findByPk .Post postId false] } htext
  have hany : postService.requiredFields.any (fun f => validText (postData.get f)) = true := by
    obtain ⟨f, hf, hv⟩ := hvalid
    exact List.any_eq_true.mpr ⟨f, hf, hv⟩
  rw [hany] at hsome
  have hidc : (postId == "" || !isUUID postId) = false := by simp [hne, hid]
  constructor
  · intro f hfb
    have hfb2 : firstBlank postData postService.requiredFields = some f := hfb
    rw [hfb2] at heach
    simp only [postService.updatePost, tryCatch, bind_eq, pure_eq, Eff.bind, call, hfind, hidc,
      hden, hsome, heach, Bool.not_true, Bool.not_false, Bool.false_eq_true, if_false,
      if_true]
    simp [catchFull, Thrown.plain, rethrow, jsOr, JsVal.truthy, Thrown.status,
      Thrown.message, cannot_be_blank_ne_empty]
  · intro hfb
    have hfb2 : firstBlank postData postService.requiredFields = none := hfb
    rw [hfb2] at heach
    rcases hu : db.Post.update postData.props postId s1 with ⟨r, s2⟩
    simp only [postService.updatePost, tryCatch, bind_eq, pure_eq, Eff.bind, call, hfind, hidc,
      hden, hsome, heach, hu, Bool.not_true, Bool.not_false, Bool.false_eq_true, if_false,
      if_true]
    constructor
    · cases r with
      | error e => simp [issued]
      | ok n => by_cases hn : n = 0 <;> simp [Eff.pure, throwE, hn, issued]
    · intro n s3 hu2 hn
      simp only [Prod.mk.injEq] at hu2
      obtain ⟨hr, _⟩ := hu2
      subst hr
      simp [Eff.pure, hn]

/-- C17, at a concrete input: the payload of the unit test, with a valid title, an empty content
and a valid status, is rejected with 'content cannot be blank' and no update is issued. -/
theorem updatePost_first_blank_field_witness :
    postId1 ≠ "" ∧ uuidShape postId1 = true ∧
    firstBlank { ref := 11, props := [("title", .str "Updated Title"), ("content", .str ""),
        ("status", .str "published")] } ["title", "content", "status"] = some "content" ∧
    postService.updatePost (mockDb blogMock) uuidShape postId1 aliceToken
        { ref := 11, props := [("title", .str "Updated Title"), ("content", .str ""),
            ("status", .str "published")] } world0 =
      (.error { status := .num 400, message := .str "content cannot be blank" },
        { store := (), log := [.findByPk .Post postId1 false] }) :=
  ⟨by decide, by decide, by decide,
    (updatePost_first_blank_field (mockDb blogMock) uuidShape postId1 aliceToken
      { ref := 11, props := [("title", .str "Updated Title"), ("content", .str ""),
          ("status", .str "published")] } world0 alicePost ()
      (by decide) (by decide) rfl (Or.inl rfl) (by decide) (by decide)).1 "content"
      (by decide)⟩
/-! ## Blank fields in a user update -/

/-- C18 (code evaluated at the failing input): updateUser by alice on her own record with the
payload of the unit test, whose email is the empty string, is not rejected: the update is
issued with the empty email and the call resolves; and with a whitespace-only email the call
is rejected with status 400 and the message 'email cannot be blank', in lower case. -/
theorem updateUser_empty_email_not_rejected :
    userService.updateUser (mockDb blogMock) uuidShape aliceId aliceToken
        { ref := 11, props := [("username", .str "updatedUser"), ("email", .str ""),
            ("password", .str "newpassword"), ("role", .str "user")] } world0 =
      (.ok { message := "User updated successfully" },
        { store := (),
          log := [.update .User
            [("username", .str "updatedUser"), ("email", .str ""),
              ("password", .str "newpassword"), ("role", .str "user")]
            [("user_id", .str aliceId)] true] }) ∧
    userService.updateUser (mockDb blogMock) uuidShape aliceId aliceToken
        { ref := 11, props := [("username", .str "updatedUser"), ("email", .str "  "),
            ("password", .str "newpassword"), ("role", .str "user")] } world0 =
      (.error { status := .num 400, message := .str "email cannot be blank" }, world0) := by
  constructor <;> rfl

/-! ## Blank fields in a category update -/

/-- C19 (code evaluated at the failing input): updateCategory on category 1 with a
whitespace-only name and a valid description is not rejected: the whitespace-only name is used
in the uniqueness lookup and written to the store; likewise a whitespace-only description next
to a valid name is written to the store. -/
theorem updateCategory_whitespace_name_written :
    categoryService.updateCategory (mockDb blogMock) "1"
        { ref := 11, props := [("name", .str "  "), ("description", .str "Updated description")] }
        world0 =
      (.ok (some newsCategory),
        { store := (),
          log := [.findOne .Category [("name", .str "  ")],
            .update .Category [("name", .str "  "), ("description", .str "Updated description")]
              [("category_id", .str "1")] false,
            .findByPk .Category "1" false] }) ∧
    categoryService.updateCategory (mockDb blogMock) "1"
        { ref := 11, props := [("name", .str "News"), ("description", .str "  ")] } world0 =
      (.ok (some newsCategory),
        { store := (),
          log := [.findOne .Category [("name", .str "News")],
            .update .Category [("name", .str "News"), ("description", .str "  ")]
              [("category_id", .str "1")] false,
            .findByPk .Category "1" false] }) := by
  constructor <;> rfl

/-! ## Order of the checks in a comment update -/

/-- C20 (counterexample): with a blank content, updateComment rejects with
400 'Content is required' before any lookup: for carol, who may not update the comment of
bob, the result is not 403, and for a comment that does not exist the result is not 404. -/
theorem updateComment_blank_content_first :
    commentService.updateComment (mockDb blogMock) uuidShape commentId1
        { ref := 11, props := [("content", .str "  ")] } carolToken world0 =
      (.error { status := .num 400, message := .str "Content is required" }, world0) ∧
    commentService.updateComment (mockDb { blogMock with comment := none }) uuidShape commentId1
        { ref := 11, props := [] } bobToken world0 =
      (.error { status := .num 400, message := .str "Content is required" }, world0) := by
  constructor <;> rfl

/-- C20 (amended): updateComment evaluates the identifier format first and the content second,
before the lookup and the authorization: for every id of UUID shape, every caller and every
payload whose content is missing or blank after trimming, the result is
400 'Content is required', whether or not the comment exists and whoever the caller is, and no
store call is issued. -/
theorem updateComment_content_before_lookup (db : Db σ) (isUUID : String → Bool)
    (commentId : String) (commentData user : JsObject) (w : World σ)
    (hne : commentId ≠ "") (hid : isUUID commentId = true)
    (hblank : blankText (commentData.get "content") = true) :
    commentService.updateComment db isUUID commentId commentData user w =
      (.error { status := .num 400, message := .str "Content is required" }, w) := by
  have hidc : (commentId == "" || !isUUID commentId) = false := by simp [hne, hid]
  have hm := missingOrBlank_text "commentData.content.trim" (commentData.get "content") w
    (by simp [textOrAbsent, hblank])
  rw [hblank] at hm
  simp only [commentService.updateComment, tryCatch, bind_eq, pure_eq, Eff.bind, hidc, hm,
    Bool.false_eq_true, if_false, if_true]
  simp [throwE, catchDb, Thrown.plain, rethrow, jsOr, JsVal.truthy, Thrown.status,
    Thrown.message]

/-- C20 (amended), at a concrete input: carol, with a blank content, on the comment of bob. -/
theorem updateComment_content_before_lookup_witness :
    commentId1 ≠ "" ∧ uuidShape commentId1 = true ∧ blankText (JsVal.str "  ") = true ∧
    commentService.updateComment (mockDb blogMock) uuidShape commentId1
        { ref := 11, props := [("content", .str "  ")] } carolToken world0 =
      (.error { status := .num 400, message := .str "Content is required" }, world0) :=
  ⟨by decide, by decide, by decide,
    updateComment_content_before_lookup (mockDb blogMock) uuidShape commentId1
      { ref := 11, props := [("content", .str "  ")] } carolToken world0 (by decide)
      (by decide) (by decide)⟩

/-! ## Login -/

theorem missingLogin_text (username password : JsVal) (w : World σ)
    (hu : textOrAbsent username = true) (hp : textOrAbsent password = true) :
    userService.missingLogin username password w =
      (.ok (blankText username || blankText password), w) := by
  obtain ⟨u, hu1, hu2⟩ := optTrim_text "username?.trim" username w hu
  obtain ⟨p, hp1, hp2⟩ := optTrim_text "password?.trim" password w hp
  cases hbu : blankText username <;> cases hbp : blankText password <;>
    simp [userService.missingLogin, Eff.bind, Eff.pure, hu1, hp1, hu2, hp2, hbu, hbp]

/-- C21: for a username and a password that are each missing or a string, loginUser yields,
in this order: 400 with no store lookup when one of them is missing or blank after trimming;
404 'User not found' when the lookup by that username finds no user; 401 'Invalid password',
whatever the signer, when the password does not verify against the stored digest; and
otherwise the message 'Login successful' with the token the signer makes for the claims
userId, username and role of the stored user and the expiry '1h'. -/
theorem loginUser_precedence (db : Db σ) (compareSync : String → String → Bool)
    (sign : SignCall → String) (username password : JsVal) (w : World σ)
    (hu : textOrAbsent username = true) (hp : textOrAbsent password = true) :
    ((blankText username || blankText password) = true →
      userService.loginUser db compareSync sign username password w =
        (.error { status := .num 400, message := .str "Username and password are required" },
          w)) ∧
    ((blankText username || blankText password) = false →
      (∀ s1, db.User.findOne username w.store = (.ok none, s1) →
        userService.loginUser db compareSync sign username password w =
          (.error { status := .num 404, message := .str "User not found" },
            { store := s1, log := w.log ++ [.findOne .User [("username", username)]] })) ∧
      (∀ user s1, db.User.findOne username w.store = (.ok (some user), s1) →
        (compareSync password.text user.password = false →
          userService.loginUser db compareSync sign username password w =
            (.error { status := .num 401, message := .str "Invalid password" },
              { store := s1, log := w.log ++ [.findOne .User [("username", username)]] })) ∧
        (compareSync password.text user.password = true →
          userService.loginUser db compareSync sign username password w =
            (.ok { message := "Login successful"
                   token := sign
                     { payload := [("userId", .str user.user_id),
                         ("username", .str user.username), ("role", .str user.role)]
                       expiresIn := "1h" } },
              { store := s1, log := w.log ++ [.findOne .User [("username", username)]] })))) := by
  have hm := missingLogin_text username password w hu hp
  constructor
  · intro hb
    rw [hb] at hm
    simp only [userService.loginUser, tryCatch, bind_eq, pure_eq, Eff.bind, hm, if_true]
    simp [throwE, catchDb, Thrown.plain, rethrow, jsOr, JsVal.truthy, Thrown.status,
      Thrown.message]
  · intro hb
    rw [hb] at hm
    have hpstr : ∃ p, password = .str p := by
      simp only [Bool.or_eq_false_iff] at hb
      cases password <;> simp [blankText, textOrAbsent, validText] at hb hp ⊢
    obtain ⟨p, rfl⟩ := hpstr
    constructor
    · intro s1 hf
      simp only [userService.loginUser, tryCatch, bind_eq, pure_eq, Eff.bind, hm, call, hf,
        Bool.false_eq_true, if_false]
      simp [throwE, catchDb, Thrown.plain, rethrow, jsOr, JsVal.truthy, Thrown.status,
        Thrown.message]
    · intro user s1 hf
      constructor
      · intro hc
        simp only [JsVal.text] at hc
        simp only [userService.loginUser, tryCatch, bind_eq, pure_eq, Eff.bind, hm, call, hf,
          hc, Bool.false_eq_true, Bool.not_false, if_false, if_true]
        simp [throwE, catchDb, Thrown.plain, rethrow, jsOr, JsVal.truthy, Thrown.status,
          Thrown.message]
      · intro hc
        simp only [JsVal.text] at hc
        simp only [userService.loginUser, tryCatch, bind_eq, pure_eq, Eff.bind, hm, call, hf,
          hc, Bool.false_eq_true, Bool.not_true, if_false]
        rfl

/-- C21, at a concrete input: alice logs in with the password her digest verifies, and gets
the token made for her id, username and role. -/
theorem loginUser_precedence_witness :
    textOrAbsent (JsVal.str "alice") = true ∧ textOrAbsent (JsVal.str "secret1") = true ∧
    userService.loginUser
        (mockDb { blogMock with
          user := some { user_id := aliceId, username := "alice", email := "a@x.com"
                         password := demoHash "secret1", role := "user" } })
        demoCompare demoSign (.str "alice") (.str "secret1") world0 =
      (.ok { message := "Login successful"
             token := demoSign
               { payload := [("userId", .str aliceId), ("username", .str "alice"),
                   ("role", .str "user")]
                 expiresIn := "1h" } },
        { store := (), log := [.findOne .User [("username", .str "alice")]] }) :=
  ⟨by decide, by decide,
    (((loginUser_precedence
      (mockDb { blogMock with
        user := some { user_id := aliceId, username := "alice", email := "a@x.com"
                       password := demoHash "secret1", role := "user" } })
      demoCompare demoSign (.str "alice") (.str "secret1") world0 (by decide) (by decide)).2
      (by decide)).2 _ () rfl).2 (by decide)⟩
/-! ## The user representation returned -/

theorem missingCredentials_world (userData : JsObject) (w : World σ) :
    (userService.missingCredentials userData w).2 = w := by
  rcases optTrim_cases "userData.username?.trim" (userData.get "username") w with ⟨u, hu⟩ | hu
  · by_cases hut : u.truthy = true
    · rcases optTrim_cases "userData.email?.trim" (userData.get "email") w with ⟨e, he⟩ | he
      · by_cases het : e.truthy = true
        · rcases optTrim_cases "userData.password?.trim" (userData.get "password") w
            with ⟨p, hp⟩ | hp
          · simp [userService.missingCredentials, Eff.bind, Eff.pure, hu, he, hp, hut, het]
          · simp [userService.missingCredentials, Eff.bind, Eff.pure, hu, he, hp, hut, het]
        · simp [userService.missingCredentials, Eff.bind, Eff.pure, hu, he, hut, het]
      · simp [userService.missingCredentials, Eff.bind, Eff.pure, hu, he, hut]
    · simp [userService.missingCredentials, Eff.bind, Eff.pure, hu, hut]
  · simp [userService.missingCredentials, Eff.bind, hu]

/-- What createUser does, by the outcome of its checks: it rejects with the world unchanged,
or it issues the one create and passes its outcome on. -/
theorem createUser_cases (db : Db σ) (userData : JsObject) (w : World σ) :
    (∃ e, userService.createUser db userData w = (.error e, w)) ∨
    (((userData.get "role").truthy = false ∨ userData.get "role" ∈ userService.validRoles) ∧
      userService.createUser db userData w =
        tryCatch (catchFull "Error creating user")
          (call (.create .User userData.props) (db.User.create userData.props)) w) := by
  have hw := missingCredentials_world userData w
  rcases hr : userService.missingCredentials userData w with ⟨r, w0⟩
  rw [hr] at hw
  simp only at hw
  subst hw
  cases r with
  | error e =>
    left
    refine ⟨catchFull "Error creating user" e, ?_⟩
    simp only [userService.createUser, tryCatch, bind_eq, Eff.bind, hr]
  | ok missing =>
    cases missing with
    | true =>
      left
      refine ⟨catchFull "Error creating user"
        (.plain 400 "Username, email, and password are required"), ?_⟩
      simp only [userService.createUser, tryCatch, bind_eq, Eff.bind, hr, if_true, throwE]
    | false =>
      cases hc : ((userData.get "role").truthy &&
          !userService.validRoles.contains (userData.get "role"))
      · right
        constructor
        · cases ht : (userData.get "role").truthy
          · exact Or.inl rfl
          · right
            rw [ht] at hc
            simpa using hc
        · simp only [userService.createUser, tryCatch, bind_eq, Eff.bind, hr, hc,
            Bool.false_eq_true, if_false]
      · left
        refine ⟨catchFull "Error creating user" (.plain 400 "Invalid role specified"), ?_⟩
        simp only [userService.createUser, tryCatch, bind_eq, Eff.bind, hr, hc,
          Bool.false_eq_true, if_false, if_true, throwE]

/-- C22 (counterexample): the response to the create-user request of alice carries her user
record with its password field, which holds the stored digest; so do the responses of the
get-by-id and list controllers afterwards. -/
theorem user_responses_carry_password :
    (userRoutes.post (memDb demoLib)
        { authorization := none, id := "", user := none
          body := .object { ref := 31, props := [("username", .str "alice"),
            ("email", .str "a@x.com"), ("password", .str "secret1")] } }
        memWorld0).1 =
      { status := .num 201, message := .str "User created successfully"
        data := some { user_id := demoId 0, username := "alice", email := "a@x.com"
                       password := demoHash "secret1", role := "user" } } ∧
    (userJSON { user_id := demoId 0, username := "alice", email := "a@x.com"
                password := demoHash "secret1", role := "user" }).lookup "password" =
      some (.str "$2b$10$secret1") ∧
    (userController.getUserById (memDb demoLib) uuidShape
        { authorization := none, id := demoId 0, body := .object { ref := 0, props := [] }
          user := some rootToken }
        (userRoutes.post (memDb demoLib)
          { authorization := none, id := "", user := none
            body := .object { ref := 31, props := [("username", .str "alice"),
              ("email", .str "a@x.com"), ("password", .str "secret1")] } }
          memWorld0).2).1.data =
      some { user_id := demoId 0, username := "alice", email := "a@x.com"
             password := demoHash "secret1", role := "user" } ∧
    (userController.getAllUsers (memDb demoLib)
        { authorization := none, id := "", body := .object { ref := 0, props := [] }
          user := some rootToken }
        (userRoutes.post (memDb demoLib)
          { authorization := none, id := "", user := none
            body := .object { ref := 31, props := [("username", .str "alice"),
              ("email", .str "a@x.com"), ("password", .str "secret1")] } }
          memWorld0).2).1.data =
      some [{ user_id := demoId 0, username := "alice", email := "a@x.com"
              password := demoHash "secret1", role := "user" }] := by
  refine ⟨?_, ?_, ?_, ?_⟩ <;> rfl

/-- C22 (amended): for every successful User create, User list and User get-by-id, the
response carries the user records exactly as the store returned them to the service, and the
serialised form of a user record has a password field holding the record's stored
password. -/
theorem user_responses_are_store_records (db : Db σ) (isUUID : String → Bool) (req : Request)
    (w : World σ) :
    (∀ user w1, userService.createUser db req.body.asObject w = (.ok user, w1) →
      userController.createUser db req w =
          ({ status := .num 201, message := .str "User created successfully"
             data := some user }, w1) ∧
        db.User.create req.body.asObject.props w.store = (.ok user, w1.store)) ∧
    (∀ users w1, userService.getAllUsers db w = (.ok users, w1) →
      userController.getAllUsers db req w =
          ({ status := .num 200, message := .undefined, data := some users }, w1) ∧
        db.User.findAll w.store = (.ok users, w1.store)) ∧
    (∀ user w1, userService.getUserById db isUUID req.id w = (.ok user, w1) →
      userController.getUserById db isUUID req w =
          ({ status := .num 200, message := .undefined, data := some user }, w1) ∧
        db.User.findByPk req.id w.store = (.ok (some user), w1.store)) ∧
    (∀ user : UserRow, (userJSON user).lookup "password" = some (.str user.password)) := by
  refine ⟨?_, ?_, ?_, ?_⟩
  · intro user w1 h
    refine ⟨by simp [userController.createUser, h], ?_⟩
    rcases createUser_cases db req.body.asObject w with ⟨e, he⟩ | ⟨_, hc⟩
    · rw [he] at h
      simp at h
    · rw [hc] at h
      rcases hs : db.User.create req.body.asObject.props w.store with ⟨r, s1⟩
      cases r <;> simp [tryCatch, call, hs] at h
      obtain ⟨h1, h2⟩ := h
      subst h1 h2
      rfl
  · intro users w1 h
    refine ⟨by simp [userController.getAllUsers, h], ?_⟩
    rcases hs : db.User.findAll w.store with ⟨r, s1⟩
    cases r <;> simp [userService.getAllUsers, tryCatch, call, hs] at h
    obtain ⟨h1, h2⟩ := h
    subst h1 h2
    rfl
  · intro user w1 h
    refine ⟨by simp [userController.getUserById, h], ?_⟩
    by_cases hid : isUUID req.id = true
    · rcases hs : db.User.findByPk req.id w.store with ⟨r, s1⟩
      cases r with
      | error e => simp [userService.getUserById, tryCatch, Eff.bind, call, hs, hid] at h
      | ok found =>
        cases found with
        | none =>
          simp [userService.getUserById, tryCatch, Eff.bind, call, hs, hid, throwE] at h
        | some u =>
          simp [userService.getUserById, tryCatch, Eff.bind, Eff.pure, call, hs, hid] at h
          obtain ⟨h1, h2⟩ := h
          subst h1 h2
          rfl
    · simp [userService.getUserById, tryCatch, Eff.bind, hid, throwE] at h
  · intro user
    simp [userJSON, List.lookup]

/-- C22 (amended), at a concrete input: the record of alice as created is what the create
response carries. -/
theorem user_responses_are_store_records_witness :
    userController.createUser (memDb demoLib)
        { authorization := none, id := "", user := none
          body := .object { ref := 31, props := [("username", .str "alice"),
            ("email", .str "a@x.com"), ("password", .str "secret1")] } }
        memWorld0 =
      ({ status := .num 201, message := .str "User created successfully"
         data := some { user_id := demoId 0, username := "alice", email := "a@x.com"
                        password := demoHash "secret1", role := "user" } },
        { store := { mem0 with
            users := [{ user_id := demoId 0, username := "alice", email := "a@x.com"
                        password := demoHash "secret1", role := "user" }]
            fresh := 1 }
          log := [.create .User [("username", .str "alice"), ("email", .str "a@x.com"),
            ("password", .str "secret1")]] }) :=
  ((user_responses_are_store_records (memDb demoLib) uuidShape
      { authorization := none, id := "", user := none
        body := .object { ref := 31, props := [("username", .str "alice"),
          ("email", .str "a@x.com"), ("password", .str "secret1")] } }
      memWorld0).1 _ _ rfl).1
/-! ## Create and fetch a user -/

theorem jsTrim_user : jsTrim "user" = "user" := by decide

/-- The create of a user whose username, email and password are strings and whose role is not
given, on the in-memory store. -/
theorem memUserCreate_text (L : Lib) (values : List (String × JsVal)) (s : Mem)
    (u e p : String) (hu : valueOf values "username" = .str u)
    (he : valueOf values "email" = .str e) (hp : valueOf values "password" = .str p)
    (hr : valueOf values "role" = .undefined) :
    memUserCreate L values s =
      if L.isEmail e = true then
        match userConflict s.users
            { user_id := L.newId s.fresh, username := jsTrim u, email := jsTrim e
              password := L.hash (jsTrim p), role := "user" } with
        | [] =>
          (.ok { user_id := L.newId s.fresh, username := jsTrim u, email := jsTrim e
                 password := L.hash (jsTrim p), role := "user" },
            { s with
              users := s.users ++ [{ user_id := L.newId s.fresh, username := jsTrim u
                                     email := jsTrim e, password := L.hash (jsTrim p)
                                     role := "user" }]
              fresh := s.fresh + 1 })
        | paths => (.error (.uniqueConstraint paths "Validation error"), s)
      else (.error (.validation ["email"] "Validation error"), s) := by
  by_cases hm : L.isEmail e = true
  · simp only [memUserCreate, hu, he, hp, hr, userInvalid, notText, JsVal.text, hm,
      Bool.false_eq_true, Bool.not_true, Bool.or_self, if_false, List.append_nil, if_true]
    simp only [UserHooks.beforeCreate, trimText, JsVal.truthy, bind, Except.bind, pure,
      Except.pure, jsTrim_user]
    simp only [userWrite, notText, UserInstance.row, JsVal.text, userService.validRoles]
    cases hc : userConflict s.users
        { user_id := L.newId s.fresh, username := jsTrim u, email := jsTrim e
          password := L.hash (jsTrim p), role := "user" } <;>
      simp [hc]
  · simp [memUserCreate, hu, he, hp, hr, userInvalid, notText, JsVal.text, hm]
theorem userConflict_nil_key (others : List UserRow) (row : UserRow)
    (h : userConflict others row = []) :
    others.find? (fun r => r.user_id == row.user_id) = none := by
  by_cases hk : others.any (fun r => r.user_id == row.user_id) = true
  · simp [userConflict, hk] at h
  · rw [List.find?_eq_none]
    intro r hr hre
    exact hk (List.any_eq_true.mpr ⟨r, hr, hre⟩)

/-- C23: on the in-memory store, when createUser succeeds for a payload with username, email
and password p and no role, fetching the created user by id returns a record whose password
is the digest of p trimmed, which differs from the plaintext p as soon as the hasher does not
map the trimmed p to p itself, and whose role is 'user'. -/
theorem created_user_digest_and_role (L : Lib) (isUUID : String → Bool) (userData : JsObject)
    (w w1 : World Mem) (row : UserRow) (u e p : String)
    (hu : userData.get "username" = .str u) (he : userData.get "email" = .str e)
    (hp : userData.get "password" = .str p) (hr : userData.get "role" = .undefined)
    (hcreate : userService.createUser (memDb L) userData w = (.ok row, w1))
    (hid : isUUID row.user_id = true) :
    ∃ fetched, (userService.getUserById (memDb L) isUUID row.user_id w1).1 = .ok fetched ∧
      fetched.password = L.hash (jsTrim p) ∧ fetched.role = "user" ∧
      (L.hash (jsTrim p) ≠ p → fetched.password ≠ p) := by
  rcases createUser_cases (memDb L) userData w with ⟨err, herr⟩ | ⟨_, hc⟩
  · rw [herr] at hcreate
    simp at hcreate
  · rw [hc] at hcreate
    have hm := memUserCreate_text L userData.props w.store u e p hu he hp hr
    have hcall : (memDb L).User.create userData.props w.store =
        memUserCreate L userData.props w.store := rfl
    simp only [tryCatch, call, hcall, hm] at hcreate
    by_cases hmail : L.isEmail e = true
    · simp only [hmail, if_true] at hcreate
      cases hcon : userConflict w.store.users
          { user_id := L.newId w.store.fresh, username := jsTrim u, email := jsTrim e
            password := L.hash (jsTrim p), role := "user" } with
      | nil =>
        rw [hcon] at hcreate
        simp only [Prod.mk.injEq, Except.ok.injEq] at hcreate
        obtain ⟨hrow, hw1⟩ := hcreate
        have hfind := userConflict_nil_key _ _ hcon
        refine ⟨row, ?_, ?_, ?_, ?_⟩
        · subst hw1
          have hf : (memDb L).User.findByPk row.user_id
              { w.store with
                users := w.store.users ++
                  [{ user_id := L.newId w.store.fresh, username := jsTrim u, email := jsTrim e
                     password := L.hash (jsTrim p), role := "user" }]
                fresh := w.store.fresh + 1 } =
              (.ok (some row),
                { w.store with
                  users := w.store.users ++
                    [{ user_id := L.newId w.store.fresh, username := jsTrim u
                       email := jsTrim e, password := L.hash (jsTrim p), role := "user" }]
                  fresh := w.store.fresh + 1 }) := by
            subst hrow
            simp only [memDb, memUser, List.find?_append, hfind]
            simp
          simp only [userService.getUserById, tryCatch, bind_eq, pure_eq, Eff.bind, call, hid,
            Bool.not_true, Bool.false_eq_true, if_false, hf, Eff.pure]
        · rw [← hrow]
        · rw [← hrow]
        · intro hne
          rw [← hrow]
          exact hne
      | cons a as =>
        rw [hcon] at hcreate
        simp at hcreate
    · simp only [hmail, Bool.false_eq_true, if_false] at hcreate
      simp at hcreate

/-- C23, at a concrete input: alice, created with the password 'secret1' and no role on the
empty store, is fetched with the digest of 'secret1', which is not 'secret1', and the role
'user'. -/
theorem created_user_digest_and_role_witness :
    userService.createUser (memDb demoLib)
        { ref := 31, props := [("username", .str "alice"), ("email", .str "a@x.com"),
            ("password", .str "secret1")] } memWorld0 =
      (.ok { user_id := demoId 0, username := "alice", email := "a@x.com"
             password := demoHash "secret1", role := "user" },
        { store := { mem0 with
            users := [{ user_id := demoId 0, username := "alice", email := "a@x.com"
                        password := demoHash "secret1", role := "user" }]
            fresh := 1 }
          log := [.create .User [("username", .str "alice"), ("email", .str "a@x.com"),
            ("password", .str "secret1")]] }) ∧
    demoHash (jsTrim "secret1") ≠ "secret1" ∧
    ∃ fetched,
      (userService.getUserById (memDb demoLib) uuidShape (demoId 0)
        { store := { mem0 with
            users := [{ user_id := demoId 0, username := "alice", email := "a@x.com"
                        password := demoHash "secret1", role := "user" }]
            fresh := 1 }
          log := [.create .User [("username", .str "alice"), ("email", .str "a@x.com"),
            ("password", .str "secret1")]] }).1 = .ok fetched ∧
      fetched.password = demoHash (jsTrim "secret1") ∧ fetched.role = "user" ∧
      (demoHash (jsTrim "secret1") ≠ "secret1" → fetched.password ≠ "secret1") :=
  ⟨rfl, by decide,
    created_user_digest_and_role demoLib uuidShape
      { ref := 31, props := [("username", .str "alice"), ("email", .str "a@x.com"),
          ("password", .str "secret1")] } memWorld0 _
      { user_id := demoId 0, username := "alice", email := "a@x.com"
        password := demoHash "secret1", role := "user" } "alice" "a@x.com" "secret1"
      rfl rfl rfl rfl rfl (by decide)⟩
/-! ## Store failures and the catch blocks -/

/-- C24 (code evaluated at the failing input): when the store update of updateCategory rejects
with a uniqueness violation on name, the call rejects with status 500 and the violation's own
message, not with 409 'name already exists'; createComment and updateComment likewise report
a uniqueness violation as 500; createCategory reports it as 409 'name already exists'. -/
theorem updateCategory_unique_violation_is_500 :
    categoryService.updateCategory
        (faultyDb blogMock none (some (.uniqueConstraint ["name"] "Validation error"))) "1"
        { ref := 11, props := [("name", .str "News")] } world0 =
      (.error (.handled { status := .num 500, message := .str "Validation error" }),
        { store := (),
          log := [.findOne .Category [("name", .str "News")],
            .update .Category [("name", .str "News")] [("category_id", .str "1")] false] }) ∧
    (commentService.createComment
        (faultyDb blogMock none (some (.uniqueConstraint ["comment_id"] "Validation error")))
        uuidShape (fun _ => "") { ref := 11, props := [("post_id", .str postId1),
          ("content", .str "Nice")] } (.str aliceId) world0).1 =
      .error { status := .num 500, message := .str "Validation error" } ∧
    (commentService.updateComment
        (faultyDb blogMock none (some (.uniqueConstraint ["comment_id"] "Validation error")))
        uuidShape commentId1 { ref := 11, props := [("content", .str "Edited")] } bobToken
        world0).1 =
      .error { status := .num 500, message := .str "Validation error" } ∧
    (categoryService.createCategory
        (faultyDb blogMock none (some (.uniqueConstraint ["name"] "Validation error")))
        [{ ref := 21, props := [("name", .str "News"), ("description", .str "Daily")] }]
        world0).1 =
      .error { status := .num 409, message := .str "name already exists" } := by
  refine ⟨?_, ?_, ?_, ?_⟩ <;> rfl

theorem missingOrBlank_world (expr : String) (v : JsVal) (w : World σ) :
    (missingOrBlank expr v w).2 = w := by
  cases v <;> simp [missingOrBlank, trimCall, Eff.bind, Eff.pure, throwE] <;>
    split <;> simp [Eff.pure, Eff.bind, throwE]

/-- What createPost does, by the outcome of its checks: it rejects with the world unchanged,
or it issues the one create and passes its outcome on. -/
theorem createPost_cases (db : Db σ) (postData : JsObject) (author_id : JsVal) (w : World σ) :
    (∃ e, postService.createPost db postData author_id w = (.error e, w)) ∨
    postService.createPost db postData author_id w =
      tryCatch (catchFull "Error creating post")
        (call (.create .Post (postService.createValues postData author_id))
          (db.Post.create (postService.createValues postData author_id))) w := by
  have hwt := missingOrBlank_world "postData.title.trim" (postData.get "title") w
  have hwc := missingOrBlank_world "postData.content.trim" (postData.get "content") w
  rcases ht : missingOrBlank "postData.title.trim" (postData.get "title") w with ⟨rt, wt⟩
  rw [ht] at hwt
  simp only at hwt
  subst hwt
  cases rt with
  | error e =>
    left
    refine ⟨catchFull "Error creating post" e, ?_⟩
    simp only [postService.createPost, tryCatch, bind_eq, pure_eq, Eff.bind, ht]
  | ok titleMissing =>
    cases titleMissing with
    | true =>
      left
      refine ⟨catchFull "Error creating post" (.plain 400 "Title, content are required"), ?_⟩
      simp only [postService.createPost, tryCatch, bind_eq, pure_eq, Eff.bind, Eff.pure, ht,
        if_true, throwE]
    | false =>
      rcases hc : missingOrBlank "postData.content.trim" (postData.get "content") wt
        with ⟨rc, wc⟩
      rw [hc] at hwc
      simp only at hwc
      subst hwc
      cases rc with
      | error e =>
        left
        refine ⟨catchFull "Error creating post" e, ?_⟩
        simp only [postService.createPost, tryCatch, bind_eq, pure_eq, Eff.bind, ht, hc,
          Bool.false_eq_true, if_false]
      | ok missing =>
        cases missing with
        | true =>
          left
          refine ⟨catchFull "Error creating post" (.plain 400 "Title, content are required"),
            ?_⟩
          simp only [postService.createPost, tryCatch, bind_eq, pure_eq, Eff.bind, ht, hc,
            Bool.false_eq_true, if_false, if_true, throwE]
        | false =>
          cases hs : ((postData.get "status").truthy &&
              !postService.validPostStatus.contains (postData.get "status"))
          · right
            simp only [postService.createPost, tryCatch, bind_eq, pure_eq, Eff.bind, ht, hc, hs,
              Bool.false_eq_true, if_false]
          · left
            refine ⟨catchFull "Error creating post"
              (.plain 400 "Invalid Post status specified"), ?_⟩
            simp only [postService.createPost, tryCatch, bind_eq, pure_eq, Eff.bind, ht, hc, hs,
              Bool.false_eq_true, if_false, if_true, throwE]

theorem memCategory_create_text (L : Lib) (n : String) (description : JsVal) (s : Mem) :
    (memDb L).Category.create [("name", .str n), ("description", description)] s =
      if s.categories.any (fun c => c.name == n) then
        (.error (.uniqueConstraint ["name"] "Validation error"), s)
      else
        (.ok { category_id := (s.fresh : Int) + 1, name := n, description := description },
          { s with
            categories := s.categories ++
              [{ category_id := (s.fresh : Int) + 1, name := n, description := description }]
            fresh := s.fresh + 1 }) := rfl

/-- On the in-memory store, the batch loop of createCategory fails only with its own 400, with
the TypeError of a name or description that has no `trim`, or with the uniqueness violation of
the name: the create of a name that passed the check raises no validation failure. -/
theorem memCreateLoop_failures (L : Lib) (batch : List JsObject) :
    ∀ (created : List CategoryRow) (w w1 : World Mem) (t : Thrown),
      categoryService.createLoop (memDb L) created batch w = (.error t, w1) →
        t = .plain 400 "Category name and description are required and cannot be blank" ∨
        t = .typeError "name?.trim is not a function" ∨
        t = .typeError "description?.trim is not a function" ∨
        t = .uniqueConstraint ["name"] "Validation error" := by
  induction batch with
  | nil =>
    intro created w w1 t h
    simp [categoryService.createLoop, Eff.pure] at h
  | cons item rest ih =>
    intro created w w1 t h
    cases hname : item.get "name" with
    | str n =>
      cases hnt : (JsVal.str (jsTrim n)).truthy with
      | false =>
        simp [categoryService.createLoop, optTrim, Eff.bind, Eff.pure, throwE, hname, hnt] at h
        exact Or.inl h.1.symm
      | true =>
        cases hdesc : item.get "description" with
        | str d =>
          cases hdt : (JsVal.str (jsTrim d)).truthy with
          | false =>
            simp [categoryService.createLoop, optTrim, Eff.bind, Eff.pure, throwE, hname, hnt,
              hdesc, hdt] at h
            exact Or.inl h.1.symm
          | true =>
            have hcr := memCategory_create_text L n (.str d) w.store
            cases hany : w.store.categories.any (fun c => c.name == n) with
            | true =>
              rw [hany] at hcr
              simp only [if_true] at hcr
              simp [categoryService.createLoop, optTrim, Eff.bind, Eff.pure, hname, hnt,
                hdesc, hdt, call, hcr] at h
              exact Or.inr (Or.inr (Or.inr h.1.symm))
            | false =>
              rw [hany] at hcr
              simp only [Bool.false_eq_true, if_false] at hcr
              simp only [categoryService.createLoop, optTrim, Eff.bind, Eff.pure, hname, hnt,
                hdesc, hdt, call, hcr, Bool.not_true, Bool.false_eq_true, if_false] at h
              exact ih _ _ _ _ h
        | undefined =>
          simp only [categoryService.createLoop, optTrim, Eff.bind, Eff.pure, hname, hnt,
            hdesc, Bool.not_true, Bool.false_eq_true, if_false] at h
          simp [JsVal.truthy, throwE] at h
          exact Or.inl h.1.symm
        | null =>
          simp only [categoryService.createLoop, optTrim, Eff.bind, Eff.pure, hname, hnt,
            hdesc, Bool.not_true, Bool.false_eq_true, if_false] at h
          simp [JsVal.truthy, throwE] at h
          exact Or.inl h.1.symm
        | bool b =>
          simp [categoryService.createLoop, optTrim, Eff.bind, Eff.pure, throwE, hname, hnt,
            hdesc] at h
          exact Or.inr (Or.inr (Or.inl h.1.symm))
        | num k =>
          simp [categoryService.createLoop, optTrim, Eff.bind, Eff.pure, throwE, hname, hnt,
            hdesc] at h
          exact Or.inr (Or.inr (Or.inl h.1.symm))
        | obj r =>
          simp [categoryService.createLoop, optTrim, Eff.bind, Eff.pure, throwE, hname, hnt,
            hdesc] at h
          exact Or.inr (Or.inr (Or.inl h.1.symm))
    | undefined =>
      simp [categoryService.createLoop, optTrim, Eff.bind, Eff.pure, throwE, hname,
        JsVal.truthy] at h
      exact Or.inl h.1.symm
    | null =>
      simp [categoryService.createLoop, optTrim, Eff.bind, Eff.pure, throwE, hname,
        JsVal.truthy] at h
      exact Or.inl h.1.symm
    | bool b =>
      simp [categoryService.createLoop, optTrim, Eff.bind, Eff.pure, throwE, hname] at h
      exact Or.inr (Or.inl h.1.symm)
    | num k =>
      simp [categoryService.createLoop, optTrim, Eff.bind, Eff.pure, throwE, hname] at h
      exact Or.inr (Or.inl h.1.symm)
    | obj r =>
      simp [categoryService.createLoop, optTrim, Eff.bind, Eff.pure, throwE, hname] at h
      exact Or.inr (Or.inl h.1.symm)

/-- C25: whatever the store, when the create that createUser or createPost issues rejects with
a field validation failure on the fields f1..fn that is not a uniqueness violation, the call
rejects with status 422 and the message 'Invalid f1, ..., Invalid fn', and when it rejects with
a uniqueness violation, the call rejects with status 409 (not 422) and one
'<field> already exists' entry per field; createCategory reports the uniqueness violation of
the create of an item, the items before it having been created, as 409 in the same way. On the
store that follows the models, where Category and Comment validate only that the name and the
content are given, which the services check first, a failing createCategory rejects with its
own 400, with the TypeError of a value that has no `trim` (500), or with
409 'name already exists', and a create issued by createComment always resolves: no field
validation failure arises in either. -/
theorem create_validation_422_unique_409 (db : Db σ) (L : Lib) (isUUID : String → Bool)
    (notAString : JsVal → String) (userData postData commentData : JsObject)
    (author_id : JsVal) (pre : List JsObject) (item : JsObject) (rest batch : List JsObject)
    (w : World σ) (wm : World Mem) :
    (issued w (userService.createUser db userData w).2 ≠ [] →
      ∀ paths msg s1,
        (db.User.create userData.props w.store = (.error (.validation paths msg), s1) →
          userService.createUser db userData w =
            (.error { status := .num 422, message := .str (invalidPaths paths) },
              { store := s1, log := w.log ++ [.create .User userData.props] })) ∧
        (db.User.create userData.props w.store = (.error (.uniqueConstraint paths msg), s1) →
          userService.createUser db userData w =
            (.error { status := .num 409, message := .str (alreadyExists paths) },
              { store := s1, log := w.log ++ [.create .User userData.props] }))) ∧
    (issued w (postService.createPost db postData author_id w).2 ≠ [] →
      ∀ paths msg s1,
        (db.Post.create (postService.createValues postData author_id) w.store =
            (.error (.validation paths msg), s1) →
          postService.createPost db postData author_id w =
            (.error { status := .num 422, message := .str (invalidPaths paths) },
              { store := s1
                log := w.log ++
                  [.create .Post (postService.createValues postData author_id)] })) ∧
        (db.Post.create (postService.createValues postData author_id) w.store =
            (.error (.uniqueConstraint paths msg), s1) →
          postService.createPost db postData author_id w =
            (.error { status := .num 409, message := .str (alreadyExists paths) },
              { store := s1
                log := w.log ++
                  [.create .Post (postService.createValues postData author_id)] }))) ∧
    ((∀ i ∈ pre, validItem i = true) → validItem item = true →
      ∀ rows w1 paths msg s2, createEach db pre w = (.ok rows, w1) →
        db.Category.create (itemValues item) w1.store =
            (.error (.uniqueConstraint paths msg), s2) →
        categoryService.createCategory db (pre ++ item :: rest) w =
          (.error { status := .num 409, message := .str (alreadyExists paths) },
            { store := s2, log := w1.log ++ [categoryCreateCall item] })) ∧
    (∀ e w1, categoryService.createCategory (memDb L) batch wm = (.error e, w1) →
      e = { status := .num 400
            message := .str "Category name and description are required and cannot be blank" } ∨
      e = { status := .num 500, message := .str "name?.trim is not a function" } ∨
      e = { status := .num 500, message := .str "description?.trim is not a function" } ∨
      e = { status := .num 409, message := .str "name already exists" }) ∧
    (∀ values,
      StoreCall.create .Comment values ∈
          issued wm (commentService.createComment (memDb L) isUUID notAString commentData
            author_id wm).2 →
        ∃ row, (commentService.createComment (memDb L) isUUID notAString commentData
          author_id wm).1 = .ok row) := by
  refine ⟨?_, ?_, ?_, ?_, ?_⟩
  · intro hissued paths msg s1
    rcases createUser_cases db userData w with ⟨e, he⟩ | ⟨_, he⟩
    · rw [he] at hissued
      exact absurd (issued_self w) hissued
    · constructor <;> intro hcr <;> rw [he] <;> simp [tryCatch, call, hcr, catchFull]
  · intro hissued paths msg s1
    rcases createPost_cases db postData author_id w with ⟨e, he⟩ | he
    · rw [he] at hissued
      exact absurd (issued_self w) hissued
    · constructor <;> intro hcr <;> rw [he] <;> simp [tryCatch, call, hcr, catchFull]
  · intro hpre hv rows w1 paths msg s2 hrun hcr
    simp only [categoryService.createCategory, tryCatch]
    rw [createLoop_valid_front db pre (item :: rest) hpre, hrun]
    simp only []
    rw [createLoop_valid_cons db _ item rest w1 hv, hcr]
    simp [catchUnique]
  · intro e w1 h
    rcases hl : categoryService.createLoop (memDb L) [] batch wm with ⟨r, w2⟩
    simp only [categoryService.createCategory, tryCatch, hl] at h
    cases r with
    | ok rows => simp at h
    | error t =>
      simp only [Prod.mk.injEq, Except.error.injEq] at h
      obtain ⟨h1, _⟩ := h
      subst h1
      rcases memCreateLoop_failures L batch [] wm w2 t hl with ht | ht | ht | ht <;>
        subst ht
      · left; rfl
      · right; left; rfl
      · right; right; left; rfl
      · right; right; right; rfl
  · intro values hmem
    cases hpid : commentData.get "post_id" with
    | str post_id =>
      cases hbad : (post_id == "" || !isUUID post_id) with
      | true =>
        simp [commentService.createComment, tryCatch, Eff.bind, throwE, hpid, hbad, issued]
          at hmem
      | false =>
        have hfind : (memDb L).Post.findByPk post_id wm.store =
            (.ok (wm.store.posts.find? (fun r => r.post_id == post_id)), wm.store) := rfl
        cases hpost : wm.store.posts.find? (fun r => r.post_id == post_id) with
        | none =>
          rw [hpost] at hfind
          simp [commentService.createComment, tryCatch, Eff.bind, throwE, call, hpid, hbad,
            hfind, issued] at hmem
        | some p =>
          rw [hpost] at hfind
          cases hcont : commentData.get "content" with
          | str c =>
            have hm := missingOrBlank_text "postData.content.trim" (.str c)
              ({ store := wm.store, log := wm.log ++ [.findByPk .Post post_id false] } :
                World Mem)
              (by by_cases hj : jsTrim c = "" <;> simp [textOrAbsent, blankText, validText, hj])
            cases hb : blankText (.str c) with
            | true =>
              rw [hb] at hm
              simp [commentService.createComment, tryCatch, Eff.bind, throwE, call, hpid, hbad,
                hfind, hcont, hm, issued] at hmem
            | false =>
              rw [hb] at hm
              refine ⟨{ comment_id := L.newId wm.store.fresh, post_id := .str post_id
                        author_id := author_id, content := c, Post := none }, ?_⟩
              have hcr : (memDb L).Comment.create
                  [("content", .str c), ("post_id", .str post_id), ("author_id", author_id)]
                  wm.store =
                (.ok { comment_id := L.newId wm.store.fresh, post_id := .str post_id
                       author_id := author_id, content := c, Post := none },
                  { wm.store with
                    comments := wm.store.comments ++
                      [{ comment_id := L.newId wm.store.fresh, post_id := .str post_id
                         author_id := author_id, content := c, Post := none }]
                    fresh := wm.store.fresh + 1 }) := rfl
              simp [commentService.createComment, tryCatch, Eff.bind, call, hpid, hbad,
                hfind, hcont, hm, hcr]
          | undefined =>
            simp [commentService.createComment, tryCatch, Eff.bind, Eff.pure, throwE, call,
              hpid, hbad, hfind, hcont, missingOrBlank, trimCall, JsVal.truthy, issued] at hmem
          | null =>
            simp [commentService.createComment, tryCatch, Eff.bind, Eff.pure, throwE, call,
              hpid, hbad, hfind, hcont, missingOrBlank, trimCall, JsVal.truthy, issued] at hmem
          | bool b =>
            cases b <;>
              simp [commentService.createComment, tryCatch, Eff.bind, Eff.pure, throwE, call,
                hpid, hbad, hfind, hcont, missingOrBlank, trimCall, JsVal.truthy, issued]
                at hmem
          | num k =>
            by_cases hk : k = 0 <;>
              simp [commentService.createComment, tryCatch, Eff.bind, Eff.pure, throwE, call,
                hpid, hbad, hfind, hcont, missingOrBlank, trimCall, JsVal.truthy, issued, hk]
                at hmem
          | obj r =>
            simp [commentService.createComment, tryCatch, Eff.bind, Eff.pure, throwE, call,
              hpid, hbad, hfind, hcont, missingOrBlank, trimCall, JsVal.truthy, issued] at hmem
    | undefined =>
      simp [commentService.createComment, tryCatch, Eff.bind, throwE, hpid, issued,
        JsVal.truthy] at hmem
    | null =>
      simp [commentService.createComment, tryCatch, Eff.bind, throwE, hpid, issued,
        JsVal.truthy] at hmem
    | bool b =>
      cases b <;>
        simp [commentService.createComment, tryCatch, Eff.bind, throwE, hpid, issued,
          JsVal.truthy] at hmem
    | num k =>
      by_cases hk : k = 0 <;>
        simp [commentService.createComment, tryCatch, Eff.bind, throwE, hpid, issued,
          JsVal.truthy, hk] at hmem
    | obj r =>
      simp [commentService.createComment, tryCatch, Eff.bind, throwE, hpid, issued,
        JsVal.truthy] at hmem

/-- C25, at a concrete input: on the in-memory store, creating a user whose email is not an
email address fails the model's validation of email, and createUser rejects with
422 'Invalid email'; creating a second user with the email of alice violates the unique index
on email, and createUser rejects with 409 'email already exists'. -/
theorem create_validation_422_unique_409_witness :
    (memDb demoLib).User.create
        [("username", .str "alice"), ("email", .str "not-an-email"),
          ("password", .str "secret1")] mem0 =
      (.error (.validation ["email"] "Validation error"), mem0) ∧
    invalidPaths ["email"] = "Invalid email" ∧
    userService.createUser (memDb demoLib)
        { ref := 31, props := [("username", .str "alice"), ("email", .str "not-an-email"),
          ("password", .str "secret1")] } memWorld0 =
      (.error { status := .num 422, message := .str (invalidPaths ["email"]) },
        { store := mem0
          log := memWorld0.log ++ [.create .User [("username", .str "alice"),
            ("email", .str "not-an-email"), ("password", .str "secret1")]] }) ∧
    alreadyExists ["email"] = "email already exists" ∧
    userService.createUser (memDb demoLib)
        { ref := 33, props := [("username", .str "alicia"), ("email", .str "a@x.com"),
          ("password", .str "secret2")] }
        (userService.createUser (memDb demoLib)
          { ref := 31, props := [("username", .str "alice"), ("email", .str "a@x.com"),
            ("password", .str "secret1")] } memWorld0).2 =
      (.error { status := .num 409, message := .str (alreadyExists ["email"]) },
        { store := (userService.createUser (memDb demoLib)
            { ref := 31, props := [("username", .str "alice"), ("email", .str "a@x.com"),
              ("password", .str "secret1")] } memWorld0).2.store
          log := (userService.createUser (memDb demoLib)
              { ref := 31, props := [("username", .str "alice"), ("email", .str "a@x.com"),
                ("password", .str "secret1")] } memWorld0).2.log ++
            [.create .User [("username", .str "alicia"), ("email", .str "a@x.com"),
              ("password", .str "secret2")]] }) ∧
    categoryService.createCategory (memDb demoLib)
        ([] ++ { ref := 21, props := [("name", .str "Tech"),
          ("description", .str "Technology")] } :: [])
        (categoryService.createCategory (memDb demoLib)
          [{ ref := 21, props := [("name", .str "Tech"), ("description", .str "Technology")] }]
          memWorld0).2 =
      (.error { status := .num 409, message := .str (alreadyExists ["name"]) },
        { store := { mem0 with
            categories := [{ category_id := 1, name := "Tech"
                             description := .str "Technology" }]
            fresh := 1 }
          log := [.create .Category [("name", .str "Tech"),
              ("description", .str "Technology")]] ++
            [categoryCreateCall { ref := 21, props := [("name", .str "Tech"),
              ("description", .str "Technology")] }] }) ∧
    (∃ row, (commentService.createComment (memDb demoLib) uuidShape (fun _ => "")
        { ref := 22, props := [("post_id", .str postId1), ("content", .str "Nice")] }
        (.str aliceId) { store := { mem0 with posts := [alicePost] }, log := [] }).1 =
      .ok row) :=
  ⟨rfl, by decide,
    ((create_validation_422_unique_409 (memDb demoLib) demoLib uuidShape (fun _ => "")
      { ref := 31, props := [("username", .str "alice"), ("email", .str "not-an-email"),
        ("password", .str "secret1")] }
      { ref := 32, props := [] } { ref := 34, props := [] } .undefined [] { ref := 35, props := [] }
      [] [] memWorld0 memWorld0).1 (by decide) ["email"] "Validation error" mem0).1 rfl,
    by decide,
    ((create_validation_422_unique_409 (memDb demoLib) demoLib uuidShape (fun _ => "")
      { ref := 33, props := [("username", .str "alicia"), ("email", .str "a@x.com"),
        ("password", .str "secret2")] }
      { ref := 32, props := [] } { ref := 34, props := [] } .undefined [] { ref := 35, props := [] }
      [] []
      (userService.createUser (memDb demoLib)
        { ref := 31, props := [("username", .str "alice"), ("email", .str "a@x.com"),
          ("password", .str "secret1")] } memWorld0).2 memWorld0).1
      (by decide) ["email"] "Validation error" _).2 rfl,
    (create_validation_422_unique_409 (memDb demoLib) demoLib uuidShape (fun _ => "")
      { ref := 31, props := [] } { ref := 32, props := [] } { ref := 34, props := [] }
      .undefined []
      { ref := 21, props := [("name", .str "Tech"), ("description", .str "Technology")] } [] []
      (categoryService.createCategory (memDb demoLib)
        [{ ref := 21, props := [("name", .str "Tech"), ("description", .str "Technology")] }]
        memWorld0).2 memWorld0).2.2.1
      (by simp) (by decide) [] _ ["name"] "Validation error" _ rfl rfl,
    (create_validation_422_unique_409 (memDb demoLib) demoLib uuidShape (fun _ => "")
      { ref := 31, props := [] } { ref := 32, props := [] }
      { ref := 22, props := [("post_id", .str postId1), ("content", .str "Nice")] }
      (.str aliceId) [] { ref := 35, props := [] } [] [] memWorld0
      { store := { mem0 with posts := [alicePost] }, log := [] }).2.2.2.2
      [("content", .str "Nice"), ("post_id", .str postId1), ("author_id", .str aliceId)]
      (by decide)⟩

/-- C26 (code evaluated at the failing input): when the last lookup of updateCategory, the one
in `return db.Category.findByPk(categoryId)`, rejects with a DatabaseError, the rejection
reaches the caller as the raw failure, after the update has been issued, and not as
`{ status: 500, message: 'Database error' }`; the same failure inside getCategoryById is
normalised. -/
theorem updateCategory_last_lookup_failure_escapes :
    categoryService.updateCategory
        (faultyDb blogMock (some (.database "connection lost")) none) "1"
        { ref := 11, props := [("description", .str "New description")] } world0 =
      (.error (.raw (.database "connection lost")),
        { store := (),
          log := [.update .Category [("description", .str "New description")]
              [("category_id", .str "1")] false,
            .findByPk .Category "1" false] }) ∧
    (categoryService.getCategoryById
        (faultyDb blogMock (some (.database "connection lost")) none) "1" world0).1 =
      .error { status := .num 500, message := .str "Database error" } := by
  constructor <;> rfl

/-! ## Trimming before persistence -/

/-- C27 (code evaluated at the failing input): a category created with the name ' Tech ' and
the description ' About tech ' is stored with exactly these values, white space included, and
a comment created with the content ' Nice ' is stored with that content; a post created with
the title ' T ' and the content ' C ' is stored trimmed, by the hook of its model. -/
theorem createCategory_stores_untrimmed :
    (categoryService.createCategory (memDb demoLib)
        [{ ref := 21, props := [("name", .str " Tech "), ("description", .str " About tech ")] }]
        memWorld0).2.store.categories =
      [{ category_id := 1, name := " Tech ", description := .str " About tech " }] ∧
    jsTrim " Tech " = "Tech" ∧
    (commentService.createComment (memDb demoLib) uuidShape (fun _ => "")
        { ref := 22, props := [("post_id", .str postId1), ("content", .str " Nice ")] }
        (.str aliceId)
        { store := { mem0 with posts := [alicePost] }, log := [] }).2.store.comments =
      [{ comment_id := demoId 0, post_id := .str postId1, author_id := .str aliceId
         content := " Nice ", Post := none }] ∧
    (postService.createPost (memDb demoLib)
        { ref := 23, props := [("title", .str " T "), ("content", .str " C ")] }
        (.str aliceId) memWorld0).2.store.posts =
      [{ post_id := demoId 0, author_id := .str aliceId, title := "T", content := "C"
         status := "draft" }] := by
  refine ⟨?_, ?_, ?_, ?_⟩
  · rfl
  · decide
  · rfl
  · rfl
/-! ## Who can set a role -/

/-- C28 (counterexample): an unauthenticated create-user request with role 'admin' is answered
201 and the stored account has the role 'admin'; and alice, whose role is 'user', updating her
own record with `{ role: 'admin' }` has that payload handed to the store, after which her
stored role is 'admin'. -/
theorem non_admin_creates_admin :
    (userRoutes.post (memDb demoLib)
        { authorization := none, id := "", user := none
          body := .object { ref := 31, props := [("username", .str "mallory"),
            ("email", .str "m@x.com"), ("password", .str "secret1"),
            ("role", .str "admin")] } }
        memWorld0).1 =
      { status := .num 201, message := .str "User created successfully"
        data := some { user_id := demoId 0, username := "mallory", email := "m@x.com"
                       password := demoHash "secret1", role := "admin" } } ∧
    (userRoutes.post (memDb demoLib)
        { authorization := none, id := "", user := none
          body := .object { ref := 31, props := [("username", .str "mallory"),
            ("email", .str "m@x.com"), ("password", .str "secret1"),
            ("role", .str "admin")] } }
        memWorld0).2.log =
      [.create .User [("username", .str "mallory"), ("email", .str "m@x.com"),
        ("password", .str "secret1"), ("role", .str "admin")]] ∧
    (userService.createUser (memDb demoLib)
        { ref := 31, props := [("username", .str "alice"), ("email", .str "a@x.com"),
          ("password", .str "secret1")] } memWorld0).2.store.users.map UserRow.role =
      ["user"] ∧
    userService.updateUser (memDb demoLib) uuidShape (demoId 0)
        (credential 1 (demoId 0) "alice" "user" 0)
        { ref := 32, props := [("role", .str "admin")] }
        (userService.createUser (memDb demoLib)
          { ref := 31, props := [("username", .str "alice"), ("email", .str "a@x.com"),
            ("password", .str "secret1")] } memWorld0).2 =
      (.ok { message := "User updated successfully" },
        { store := { mem0 with
            users := [{ user_id := demoId 0, username := "alice", email := "a@x.com"
                        password := demoHash (demoHash "secret1"), role := "admin" }]
            fresh := 1 },
          log := [.create .User [("username", .str "alice"), ("email", .str "a@x.com"),
              ("password", .str "secret1")],
            .update .User [("role", .str "admin")] [("user_id", .str (demoId 0))] true] }) := by
  refine ⟨?_, ?_, ?_, ?_⟩ <;> rfl

/-- C28 (amended): createUser and updateUser hand the caller's payload to the store as given,
role included, once their checks pass. Every createUser call issues nothing or exactly the one
create with the payload as given, and then the role in the payload is falsy or one of 'user'
and 'admin'; every updateUser call for an id of UUID shape by a caller whose role is not
'admin' issues nothing or exactly the one update of that id with the payload as given, and
then the caller's userId is that id and the role in the payload is falsy or one of 'user' and
'admin'. -/
theorem role_handed_to_store_as_given (db : Db σ) (isUUID : String → Bool) (id : String)
    (user userData : JsObject) (w : World σ) (hid : isUUID id = true)
    (hrole : user.get "role" ≠ .str "admin") :
    (issued w (userService.createUser db userData w).2 = [] ∨
      (issued w (userService.createUser db userData w).2 = [.create .User userData.props] ∧
        ((userData.get "role").truthy = false ∨
          userData.get "role" ∈ userService.validRoles))) ∧
    (issued w (userService.updateUser db isUUID id user userData w).2 = [] ∨
      (issued w (userService.updateUser db isUUID id user userData w).2 =
          [.update .User userData.props [("user_id", .str id)] true] ∧
        user.get "userId" = .str id ∧
        ((userData.get "role").truthy = false ∨
          userData.get "role" ∈ userService.validRoles))) := by
  constructor
  · rcases createUser_cases db userData w with ⟨e, he⟩ | ⟨hr, he⟩
    · left
      rw [he]
      exact issued_self w
    · right
      refine ⟨?_, hr⟩
      rw [he]
      rcases hcr : db.User.create userData.props w.store with ⟨r, s1⟩
      cases r <;> simp [tryCatch, call, hcr, issued]
  · by_cases h1 : user.get "userId" = .str id
    · have hden : ((user.get "userId").strictNe (.str id) &&
          (user.get "role").strictNe (.str "admin")) = false := by
        simp [JsVal.strictNe, h1]
      simp only [userService.updateUser, tryCatch, bind_eq, pure_eq, Eff.bind, hid, hden,
        Bool.not_true, Bool.false_eq_true, if_false]
      rcases someM_hasText_cases "userData[field]?.trim" userData userService.requiredFields w
        with ⟨b, hb⟩ | hb
      · rw [hb]
        cases b
        · left
          simp [throwE, issued]
        · simp only [Bool.not_true, Bool.false_eq_true, if_false, Eff.bind]
          rcases forEach_checkBlankField_cases userData
              ["username", "password", "email", "role"] w
            with hf | ⟨e, hf⟩ | ⟨f, hmem, hf⟩
          · rw [hf]
            simp only []
            cases hc : ((userData.get "role").truthy &&
                !userService.validRoles.contains (userData.get "role"))
            · right
              refine ⟨?_, h1, ?_⟩
              · simp only [Bool.false_eq_true, if_false]
                rcases hu : db.User.update userData.props id w.store with ⟨r, s1⟩
                cases r with
                | error e => simp [Eff.bind, call, hu, issued]
                | ok n =>
                  by_cases hn : (n == 0) = true <;>
                    simp [Eff.bind, call, hu, hn, throwE, Eff.pure, issued]
              · cases ht : (userData.get "role").truthy
                · exact Or.inl rfl
                · right
                  rw [ht] at hc
                  simpa using hc
            · left
              simp [throwE, issued]
          · left
            rw [hf]
            simp [issued]
          · left
            rw [hf]
            simp [issued]
      · left
        rw [hb]
        simp [issued]
    · left
      have h2 : (user.get "role").strictNe (.str "admin") = true := by
        simp [JsVal.strictNe, hrole]
      have h3 : (user.get "userId").strictNe (.str id) = true := by
        simp [JsVal.strictNe, h1]
      simp [userService.updateUser, tryCatch, Eff.bind, throwE, hid, h2, h3, issued]

/-- C28 (amended), at a concrete input: alice, whose role is 'user', updating her own record
with `{ role: 'admin' }` has exactly that update issued, and the create of mallory with role
'admin' is issued as given. -/
theorem role_handed_to_store_as_given_witness :
    uuidShape aliceId = true ∧
    issued world0 (userService.createUser (mockDb blogMock)
        { ref := 31, props := [("username", .str "mallory"), ("email", .str "m@x.com"),
          ("password", .str "secret1"), ("role", .str "admin")] } world0).2 =
      [.create .User [("username", .str "mallory"), ("email", .str "m@x.com"),
        ("password", .str "secret1"), ("role", .str "admin")]] ∧
    issued world0 (userService.updateUser (mockDb blogMock) uuidShape aliceId aliceToken
        { ref := 31, props := [("username", .str "mallory"), ("email", .str "m@x.com"),
          ("password", .str "secret1"), ("role", .str "admin")] } world0).2 =
      [.update .User [("username", .str "mallory"), ("email", .str "m@x.com"),
        ("password", .str "secret1"), ("role", .str "admin")]
        [("user_id", .str aliceId)] true] ∧
    aliceToken.get "userId" = .str aliceId := by
  have h := role_handed_to_store_as_given (mockDb blogMock) uuidShape aliceId aliceToken
    { ref := 31, props := [("username", .str "mallory"), ("email", .str "m@x.com"),
      ("password", .str "secret1"), ("role", .str "admin")] } world0 (by decide) (by decide)
  refine ⟨by decide, by rfl, by rfl, ?_⟩
  rcases h.2 with h2 | h2
  · exact absurd h2 (by decide)
  · exact h2.2.1
/-! ## Passwords across create, update and login -/

/-- C29 (code evaluated at the failing input): after createUser succeeds for the username
'alice' and the password ' secret1 ', loginUser with the very same strings is rejected with
401 'Invalid password', because the stored digest is that of the trimmed password 'secret1'
and the login compares the untrimmed one; the login with 'secret1' succeeds. Likewise an
account created with the username ' bob ' is stored as 'bob', and the login as ' bob ' is
rejected with 404 'User not found'. The hasher verifies exactly the plaintext it hashed. -/
theorem login_after_create_untrimmed_rejected :
    (∀ x y : String, demoCompare x (demoHash y) = true ↔ x = y) ∧
    (userService.createUser (memDb demoLib)
        { ref := 31, props := [("username", .str "alice"), ("email", .str "a@x.com"),
          ("password", .str " secret1 ")] } memWorld0).1 =
      .ok { user_id := demoId 0, username := "alice", email := "a@x.com"
            password := demoHash "secret1", role := "user" } ∧
    (userService.loginUser (memDb demoLib) demoCompare demoSign (.str "alice")
        (.str " secret1 ")
        (userService.createUser (memDb demoLib)
          { ref := 31, props := [("username", .str "alice"), ("email", .str "a@x.com"),
            ("password", .str " secret1 ")] } memWorld0).2).1 =
      .error { status := .num 401, message := .str "Invalid password" } ∧
    (userService.loginUser (memDb demoLib) demoCompare demoSign (.str "alice")
        (.str "secret1")
        (userService.createUser (memDb demoLib)
          { ref := 31, props := [("username", .str "alice"), ("email", .str "a@x.com"),
            ("password", .str " secret1 ")] } memWorld0).2).1 =
      .ok { message := "Login successful"
            token := demoSign { payload := [("userId", .str (demoId 0)),
              ("username", .str "alice"), ("role", .str "user")], expiresIn := "1h" } } ∧
    (userService.createUser (memDb demoLib)
        { ref := 33, props := [("username", .str " bob "), ("email", .str "b@x.com"),
          ("password", .str "secret2")] } memWorld0).1 =
      .ok { user_id := demoId 0, username := "bob", email := "b@x.com"
            password := demoHash "secret2", role := "user" } ∧
    (userService.loginUser (memDb demoLib) demoCompare demoSign (.str " bob ")
        (.str "secret2")
        (userService.createUser (memDb demoLib)
          { ref := 33, props := [("username", .str " bob "), ("email", .str "b@x.com"),
            ("password", .str "secret2")] } memWorld0).2).1 =
      .error { status := .num 404, message := .str "User not found" } := by
  refine ⟨?_, ?_, ?_, ?_, ?_, ?_⟩
  · intro x y
    simp only [demoCompare, demoHash, beq_iff_eq]
    constructor
    · intro h
      have h1 := congrArg String.data h
      simp only [String.data_append, List.append_cancel_left_eq] at h1
      exact (String.ext h1).symm
    · rintro rfl
      rfl
  · rfl
  · rfl
  · rfl
  · rfl
  · rfl

/-- C30 (code evaluated at the failing input): alice is created with the password 'secret1'
and can log in with it; she then updates her own record with `{ email: 'alice@x.com' }`, a
payload with no password field, and the call resolves with 'User updated successfully'; the
stored digest is no longer the digest of 'secret1' but the digest of that digest, because the
beforeUpdate hook hashes the password of the loaded instance again, and the login with
'secret1' is then rejected with 401 'Invalid password'. -/
theorem updateUser_without_password_rehashes_digest :
    (userService.loginUser (memDb demoLib) demoCompare demoSign (.str "alice")
        (.str "secret1")
        (userService.createUser (memDb demoLib)
          { ref := 31, props := [("username", .str "alice"), ("email", .str "a@x.com"),
            ("password", .str "secret1")] } memWorld0).2).1 =
      .ok { message := "Login successful"
            token := demoSign { payload := [("userId", .str (demoId 0)),
              ("username", .str "alice"), ("role", .str "user")], expiresIn := "1h" } } ∧
    (userService.updateUser (memDb demoLib) uuidShape (demoId 0)
        (credential 1 (demoId 0) "alice" "user" 0)
        { ref := 32, props := [("email", .str "alice@x.com")] }
        (userService.createUser (memDb demoLib)
          { ref := 31, props := [("username", .str "alice"), ("email", .str "a@x.com"),
            ("password", .str "secret1")] } memWorld0).2).1 =
      .ok { message := "User updated successfully" } ∧
    (userService.updateUser (memDb demoLib) uuidShape (demoId 0)
        (credential 1 (demoId 0) "alice" "user" 0)
        { ref := 32, props := [("email", .str "alice@x.com")] }
        (userService.createUser (memDb demoLib)
          { ref := 31, props := [("username", .str "alice"), ("email", .str "a@x.com"),
            ("password", .str "secret1")] } memWorld0).2).2.store.users =
      [{ user_id := demoId 0, username := "alice", email := "alice@x.com"
         password := demoHash (demoHash "secret1"), role := "user" }] ∧
    demoHash (demoHash "secret1") ≠ demoHash "secret1" ∧
    (userService.loginUser (memDb demoLib) demoCompare demoSign (.str "alice")
        (.str "secret1")
        (userService.updateUser (memDb demoLib) uuidShape (demoId 0)
          (credential 1 (demoId 0) "alice" "user" 0)
          { ref := 32, props := [("email", .str "alice@x.com")] }
          (userService.createUser (memDb demoLib)
            { ref := 31, props := [("username", .str "alice"), ("email", .str "a@x.com"),
              ("password", .str "secret1")] } memWorld0).2).2).1 =
      .error { status := .num 401, message := .str "Invalid password" } := by
  refine ⟨?_, ?_, ?_, ?_, ?_⟩
  · rfl
  · rfl
  · rfl
  · decide
  · rfl

end BlogApi
